import Mathlib

/-!
# AI-Article-Generator: model client, usage ledger and per-email handlers

A shallow embedding of `src/openai.js`, `src/scripts.js`, `src/pinecone.js`,
`src/dynamic_agents/dynamic_agent.js`, `index.js` and the category handlers
under `src/email_processing/`, followed by the properties proved about them.

Conventions of the embedding:

* token counts are natural numbers and money amounts are rationals; the
  updates of the ledger are in exact arithmetic, and the usage report adds the
  costs as the source does, in IEEE double precision (`roundDouble`) over the
  exact values of the doubles; `NaN` is kept as a separate value because `+=`
  on an absent property produces it;
* a value that is thrown is a `JSError`; a function that can throw returns
  `Except JSError _`;
* `Array.prototype.sort` is stable (ECMAScript 2019) and is embedded as
  insertion sort;
* an `async` function is a computation `Eff α` over the module variable
  `track_token_usage` and a trace of the external calls made so far; every
  external collaborator is a field of `Env` whose answer may depend on that
  trace;
* awaited calls run to completion in program order; tasks started together
  under `Promise.all` run one after the other.

The file has two parts: all definitions, then all theorems.
-/

namespace AIArticleGenerator

/-! ## Thrown values -/

/-- A value thrown by the program: an `Error` object (with its `name` and
`message`) or a plain string (the source throws template strings in many
places). -/
inductive JSError where
  | error (name message : String)
  | thrown (s : String)
  deriving DecidableEq, Repr

namespace JSError

/-- String conversion as performed by a template literal on a thrown value. -/
def toString : JSError → String
  | error name message => name ++ ": " ++ message
  | thrown s => s

/-- The `message` property as rendered in a template literal. -/
def message : JSError → String
  | error _ m => m
  | thrown _ => "undefined"

end JSError

deriving instance DecidableEq for Except

/-! ## `models` (openai.js, lines 8-44) -/

/-- One model variant of the `models` table.  A chat variant carries
`input_cost_per_1k` and `output_cost_per_1k`, an embedding variant carries
`cost_per_1k`; an absent property is `none`. -/
structure ModelInfo where
  model : String
  maxTokens : Nat
  input_cost_per_1k : Option ℚ := none
  output_cost_per_1k : Option ℚ := none
  cost_per_1k : Option ℚ := none
  deriving DecidableEq

/-- The object `models`: categories in insertion order, each with its variants. -/
abbrev ModelsTable := List (String × List ModelInfo)

def models_gpt4 : List ModelInfo :=
  [ { model := "gpt-4-32k", maxTokens := 32768,
      input_cost_per_1k := some (6 / 100), output_cost_per_1k := some (12 / 100) },
    { model := "gpt-4", maxTokens := 8192,
      input_cost_per_1k := some (3 / 100), output_cost_per_1k := some (6 / 100) } ]

def models_gpt35 : List ModelInfo :=
  [ { model := "gpt-3.5-turbo-16k", maxTokens := 16384,
      input_cost_per_1k := some (3 / 1000), output_cost_per_1k := some (4 / 1000) },
    { model := "gpt-3.5-turbo", maxTokens := 4096,
      input_cost_per_1k := some (15 / 10000), output_cost_per_1k := some (2 / 1000) } ]

def models_embeddings : List ModelInfo :=
  [ { model := "text-embedding-ada-002", maxTokens := 8191, cost_per_1k := some (1 / 10000) } ]

def models : ModelsTable :=
  [("gpt4", models_gpt4), ("gpt35", models_gpt35), ("embeddings", models_embeddings)]

/-! ## `selectModel` (openai.js, lines 191-207) -/

/-- The object returned by `selectModel`. -/
structure Selection where
  model : String
  max_tokens : Nat
  deriving DecidableEq, Repr

/-- The callback of `modelsGroup.reduce`. -/
def reduceLargest (prev current : ModelInfo) : ModelInfo :=
  if prev.maxTokens > current.maxTokens then prev else current

/-- Function `selectModel(modelsGroup, tokens)`: sort a copy ascending by `maxTokens`,
take the first variant with `tokens <= maxTokens`; when there is none, reduce
the original array to a variant of largest `maxTokens`.  `reduce` without an
initial value throws on an empty array, and the `catch` rethrows a string. -/
def selectModel (modelsGroup : List ModelInfo) (tokens : Nat) : Except JSError Selection :=
  let sortedModels := modelsGroup.insertionSort (fun a b => a.maxTokens ≤ b.maxTokens)
  match sortedModels.find? (fun modelData => decide (tokens ≤ modelData.maxTokens)) with
  | some modelData => .ok { model := modelData.model, max_tokens := modelData.maxTokens }
  | none =>
    match modelsGroup with
    | [] =>
      .error (.thrown ("Failed to select openai model: "
        ++ (JSError.error "TypeError" "Reduce of empty array with no initial value").toString))
    | first :: rest =>
      let modelData := rest.foldl reduceLargest first
      .ok { model := modelData.model, max_tokens := modelData.maxTokens }

/-! ## The usage ledger `track_token_usage` (openai.js, lines 52-59) -/

/-- A JavaScript number holding a money amount: an exact rational, or `NaN`
(which `+=` produces from an absent property). -/
inductive JSNum where
  | val (q : ℚ)
  | nan
  deriving DecidableEq

namespace JSNum

/-- JavaScript `+` on two numbers. -/
def add : JSNum → JSNum → JSNum
  | val a, val b => val (a + b)
  | _, _ => nan

/-- JavaScript `*` on two numbers. -/
def mul : JSNum → JSNum → JSNum
  | val a, val b => val (a * b)
  | _, _ => nan

end JSNum

/-- One entry of the ledger.  An absent property is `none`.  The chat entries
of the source have `input_tokens`, `input_tokens_cost`, `output_tokens`,
`output_tokens_cost` and `cost`; the embedding entry has `total_tokens` and
`cost`. -/
structure UsageEntry where
  model : String
  input_tokens : Option Nat := none
  input_tokens_cost : Option JSNum := none
  output_tokens : Option Nat := none
  output_tokens_cost : Option JSNum := none
  total_tokens : Option Nat := none
  cost : Option JSNum := none
  deriving DecidableEq

abbrev Ledger := List UsageEntry

/-- A chat entry with all counters zero, as written in the source. -/
def zeroChatEntry (model : String) : UsageEntry :=
  { model := model, input_tokens := some 0, input_tokens_cost := some (.val 0),
    output_tokens := some 0, output_tokens_cost := some (.val 0), cost := some (.val 0) }

/-- The initial value of `track_token_usage`. -/
def track_token_usage_init : Ledger :=
  [ zeroChatEntry "gpt-3.5-turbo-16k",
    zeroChatEntry "gpt-3.5-turbo",
    zeroChatEntry "gpt-4-32k",
    zeroChatEntry "gpt-4",
    { model := "text-embedding-ada-002", total_tokens := some 0, cost := some (.val 0) } ]

/-! ## `updateTokenUsageAndCost` (scripts.js, lines 54-96) -/

/-- The statement `obj.field += x` on a money field: an absent field reads as
`undefined`, and `undefined + x` is `NaN`. -/
def plusAssign (field : Option JSNum) (x : JSNum) : Option JSNum :=
  match field with
  | some a => some (a.add x)
  | none => some .nan

/-- The value of `obj.field` in an arithmetic expression (`undefined` converts
to `NaN`). -/
def readNum (field : Option JSNum) : JSNum :=
  match field with
  | some a => a
  | none => .nan

/-- The value of a token-count property in an arithmetic expression. -/
def readCount (field : Option Nat) : JSNum :=
  match field with
  | some n => .val n
  | none => .nan

/-- Lines 74-79: the token counters of `usageObject`. -/
def updateTokens (usageObject : UsageEntry) (input_tokens output_tokens : Nat) : UsageEntry :=
  match usageObject.input_tokens, usageObject.output_tokens with
  | some i, some o =>
    { usageObject with input_tokens := some (i + input_tokens),
                       output_tokens := some (o + output_tokens) }
  | _, _ =>
    match usageObject.total_tokens with
    | some t => { usageObject with total_tokens := some (t + input_tokens) }
    | none => usageObject

/-- Lines 82-88: the cost fields of `usageObject`, computed from the rates of
`modelInfo` after the token counters were updated. -/
def updateCosts (usageObject : UsageEntry) (modelInfo : ModelInfo)
    (input_tokens output_tokens : Nat) : UsageEntry :=
  match modelInfo.input_cost_per_1k, modelInfo.output_cost_per_1k with
  | some inRate, some outRate =>
    let input_tokens_cost :=
      plusAssign usageObject.input_tokens_cost (.val (input_tokens * (inRate / 1000)))
    let output_tokens_cost :=
      plusAssign usageObject.output_tokens_cost (.val (output_tokens * (outRate / 1000)))
    { usageObject with
      input_tokens_cost := input_tokens_cost,
      output_tokens_cost := output_tokens_cost,
      cost := some ((readNum input_tokens_cost).add (readNum output_tokens_cost)) }
  | _, _ =>
    match modelInfo.cost_per_1k with
    | some rate =>
      { usageObject with
        cost := plusAssign usageObject.cost
          ((readCount usageObject.total_tokens).mul (.val (rate / 1000))) }
    | none => usageObject

/-- In-place update of the first entry that satisfies `p` (the object returned
by `Array.prototype.find` is mutated; the array itself is unchanged). -/
def modifyFirst (p : UsageEntry → Bool) (f : UsageEntry → UsageEntry) : Ledger → Ledger
  | [] => []
  | e :: es => if p e then f e :: es else e :: modifyFirst p f es

/-- Function `updateTokenUsageAndCost(track_token_usage, models, gpt_model, input_tokens,
output_tokens)`.  The promise rejects (`.error`) when no category lists the
model, or when the ledger has no entry for it (`"input_tokens" in undefined`
throws); both happen before the first assignment, so a rejection leaves the
ledger as it was.  Otherwise it resolves with the mutated ledger. -/
def updateTokenUsageAndCost (track_token_usage : Ledger) (models : ModelsTable)
    (gpt_model : String) (input_tokens output_tokens : Nat) : Except JSError Ledger :=
  match models.find? (fun category => category.2.any (fun entry => entry.model == gpt_model)) with
  | none => .error (.error "Error" "Model not found")
  | some (modelCategory, variants) =>
    if modelCategory = "" then .error (.error "Error" "Model not found")
    else
      match variants.find? (fun entry => entry.model == gpt_model) with
      | none =>
        -- not reachable: `some` has just found such an entry in this category
        .error (.error "TypeError" "Cannot use 'in' operator to search for 'input_cost_per_1k' in undefined")
      | some modelInfo =>
        match track_token_usage.find? (fun entry => entry.model == gpt_model) with
        | none =>
          .error (.error "TypeError" "Cannot use 'in' operator to search for 'input_tokens' in undefined")
        | some _ =>
          .ok (modifyFirst (fun entry => entry.model == gpt_model)
            (fun usageObject =>
              updateCosts (updateTokens usageObject input_tokens output_tokens) modelInfo
                input_tokens output_tokens)
            track_token_usage)

/-! ## `resetTrackTokenUsage` (openai.js, lines 236-247) -/

/-- The body of the `forEach` callback: every property whose value has type
`number` (a `NaN` included) is set to `0`; other properties are untouched. -/
def resetItem (item : UsageEntry) : UsageEntry :=
  { model := item.model,
    input_tokens := item.input_tokens.map (fun _ => 0),
    input_tokens_cost := item.input_tokens_cost.map (fun _ => .val 0),
    output_tokens := item.output_tokens.map (fun _ => 0),
    output_tokens_cost := item.output_tokens_cost.map (fun _ => .val 0),
    total_tokens := item.total_tokens.map (fun _ => 0),
    cost := item.cost.map (fun _ => .val 0) }

/-- Function `resetTrackTokenUsage(track_token_usage)`: the ledger after the call. -/
def resetTrackTokenUsage (track_token_usage : Ledger) : Ledger :=
  track_token_usage.map resetItem

/-- Every numeric property present in the entry is `0`. -/
def UsageEntry.allZero (e : UsageEntry) : Bool :=
  (e.input_tokens == none || e.input_tokens == some 0) &&
  (e.input_tokens_cost == none || e.input_tokens_cost == some (.val 0)) &&
  (e.output_tokens == none || e.output_tokens == some 0) &&
  (e.output_tokens_cost == none || e.output_tokens_cost == some (.val 0)) &&
  (e.total_tokens == none || e.total_tokens == some 0) &&
  (e.cost == none || e.cost == some (.val 0))

/-- Every numeric property of every entry of the ledger is `0`. -/
def ledgerZero (l : Ledger) : Bool := l.all UsageEntry.allZero

/-! ## A run of ledger updates -/

/-- The arguments of one call of `updateTokenUsageAndCost` on the global ledger
with the global `models` table. -/
structure UsageCall where
  gpt_model : String
  input_tokens : Nat
  output_tokens : Nat
  deriving DecidableEq

/-- One call as the callers perform it: on success the global ledger is the
resolved array, on rejection it stays as it was. -/
def recordUsage (l : Ledger) (c : UsageCall) : Ledger :=
  match updateTokenUsageAndCost l models c.gpt_model c.input_tokens c.output_tokens with
  | .ok l' => l'
  | .error _ => l

/-- The ledger after a sequence of calls, starting from the zeroed ledger. -/
def recordAll (calls : List UsageCall) : Ledger :=
  calls.foldl recordUsage track_token_usage_init

/-- Sum of the input-token arguments of the calls made for `model`. -/
def inputSum (model : String) (calls : List UsageCall) : Nat :=
  ((calls.filter (fun c => c.gpt_model == model)).map (fun c => c.input_tokens)).sum

/-- Sum of the output-token arguments of the calls made for `model`. -/
def outputSum (model : String) (calls : List UsageCall) : Nat :=
  ((calls.filter (fun c => c.gpt_model == model)).map (fun c => c.output_tokens)).sum

/-- The running state of the embedding entry over a sequence of calls: the
pair (`total_tokens`, `cost`).  Each embedding call adds its tokens to the total
and then adds the new total times the rate to the cost (line 87). -/
def embeddingState (calls : List UsageCall) : Nat × ℚ :=
  calls.foldl
    (fun s c =>
      if c.gpt_model == "text-embedding-ada-002" then
        (s.1 + c.input_tokens, s.2 + ((s.1 + c.input_tokens : Nat) : ℚ) * ((1 / 10000) / 1000))
      else s)
    (0, 0)

/-- The chat entry of `model` in closed form after a sequence of calls. -/
def chatEntryAfter (model : String) (inRate outRate : ℚ) (calls : List UsageCall) : UsageEntry :=
  { model := model,
    input_tokens := some (inputSum model calls),
    input_tokens_cost := some (.val ((inputSum model calls : ℚ) * (inRate / 1000))),
    output_tokens := some (outputSum model calls),
    output_tokens_cost := some (.val ((outputSum model calls : ℚ) * (outRate / 1000))),
    cost := some (.val ((inputSum model calls : ℚ) * (inRate / 1000)
      + (outputSum model calls : ℚ) * (outRate / 1000))) }

/-- The whole ledger in closed form after a sequence of calls. -/
def ledgerAfter (calls : List UsageCall) : Ledger :=
  [ chatEntryAfter "gpt-3.5-turbo-16k" (3 / 1000) (4 / 1000) calls,
    chatEntryAfter "gpt-3.5-turbo" (15 / 10000) (2 / 1000) calls,
    chatEntryAfter "gpt-4-32k" (6 / 100) (12 / 100) calls,
    chatEntryAfter "gpt-4" (3 / 100) (6 / 100) calls,
    { model := "text-embedding-ada-002",
      total_tokens := some (embeddingState calls).1,
      cost := some (.val (embeddingState calls).2) } ]

/-- Two entries have the same non-numeric content (the model name) and the same
set of numeric properties. -/
def UsageEntry.sameShape (e e' : UsageEntry) : Prop :=
  e'.model = e.model ∧
  e'.input_tokens.isSome = e.input_tokens.isSome ∧
  e'.input_tokens_cost.isSome = e.input_tokens_cost.isSome ∧
  e'.output_tokens.isSome = e.output_tokens.isSome ∧
  e'.output_tokens_cost.isSome = e.output_tokens_cost.isSome ∧
  e'.total_tokens.isSome = e.total_tokens.isSome ∧
  e'.cost.isSome = e.cost.isSome

/-! ## `API_usage_report` (scripts.js, lines 103-141) -/

/-- The call `x.toFixed(6)` on an exact rational: the sign, then the integer `n` nearest
to `|x| * 10^6` (the larger one on a tie) written with six digits after the
point.  (Amounts of `1e21` and more, which JavaScript prints in exponent form,
do not occur for costs.) -/
def toFixed6 (x : ℚ) : String :=
  let n : Nat := (Rat.floor (|x| * 1000000 + 1 / 2)).toNat
  let frac := toString (n % 1000000)
  (if x < 0 then "-" else "") ++ toString (n / 1000000) ++ "."
    ++ "".pushn '0' (6 - frac.length) ++ frac

/-- The call `toFixed(6)` on a JavaScript number. -/
def JSNum.toFixed6 : JSNum → String
  | .val q => AIArticleGenerator.toFixed6 q
  | .nan => "NaN"

/-- A token-count property inside a template literal. -/
def showCount (field : Option Nat) : String :=
  match field with
  | some n => toString n
  | none => "undefined"

/-- The text appended to `output` for one element (lines 112-122), or the
`TypeError` of calling `toFixed` on an absent property. -/
def reportLine (element : UsageEntry) : Except JSError String :=
  if element.model = "text-embedding-ada-002" then
    match element.cost with
    | some cost =>
      .ok ("Model: " ++ element.model ++ ", Total Tokens: " ++ showCount element.total_tokens
        ++ ", Cost: $" ++ cost.toFixed6 ++ "\n")
    | none => .error (.error "TypeError" "Cannot read properties of undefined (reading 'toFixed')")
  else
    match element.input_tokens_cost, element.output_tokens_cost, element.cost with
    | some input_tokens_cost, some output_tokens_cost, some cost =>
      .ok ("Model: " ++ element.model ++ ", Input Tokens: " ++ showCount element.input_tokens
        ++ ", Input Tokens Cost: $" ++ input_tokens_cost.toFixed6
        ++ ", Output Tokens: " ++ showCount element.output_tokens
        ++ ", Output Tokens Cost: $" ++ output_tokens_cost.toFixed6
        ++ ", Total Cost: $" ++ cost.toFixed6 ++ "\n")
    | _, _, _ =>
      .error (.error "TypeError" "Cannot read properties of undefined (reading 'toFixed')")

/-- The number of binary digits of `n` (`0` for `0`); the first argument bounds
the number of halvings. -/
def bitLength : Nat → Nat → Nat
  | 0, _ => 0
  | fuel + 1, n => if n = 0 then 0 else bitLength fuel (n / 2) + 1

/-- The double nearest to the exact rational `q` (round to nearest, ties to
even, with the gradual underflow of the format): the value JavaScript stores
for an arithmetic result whose exact value is `q`.  The doubles near `q` are
the multiples of `2^k`, where `k` is the exponent of `|q|` minus 52 and at least
-1074.  (Results of magnitude `2^1024` and more, which are `Infinity` in
JavaScript, do not occur for costs.) -/
def roundDouble (q : ℚ) : ℚ :=
  if q = 0 then 0
  else
    let a : ℚ := |q|
    let scale (k : Int) : ℚ :=
      if 0 ≤ k then ((2 ^ k.toNat : Nat) : ℚ) else 1 / ((2 ^ (-k).toNat : Nat) : ℚ)
    let e0 : Int := (bitLength a.num.natAbs a.num.natAbs : Int) - (bitLength a.den a.den : Int)
    let e : Int := if scale e0 ≤ a then e0 else e0 - 1
    let k : Int := max (e - 52) (-1074)
    let m : ℚ := a / scale k
    let f : Int := Rat.floor m
    let r : ℚ := m - f
    let n : Int :=
      if r < 1 / 2 then f else if 1 / 2 < r then f + 1 else if f % 2 = 0 then f else f + 1
    (if q < 0 then -1 else 1) * (n : ℚ) * scale k

/-- JavaScript `+` on two numbers in double precision: the exact sum rounded
to the nearest double. -/
def JSNum.addDouble : JSNum → JSNum → JSNum
  | .val a, .val b => .val (roundDouble (a + b))
  | _, _ => .nan

/-- The `forEach` loop of the report: `output` and `totalCost` are the two
accumulators; a throw inside the callback aborts the loop.  The statement
`totalCost += element.cost` (line 125) is an addition of doubles. -/
def reportLoop : Ledger → String → JSNum → Except JSError (String × JSNum)
  | [], output, totalCost => .ok (output, totalCost)
  | element :: rest, output, totalCost =>
    match reportLine element with
    | .error err => .error err
    | .ok line => reportLoop rest (output ++ line) (totalCost.addDouble (readNum element.cost))

/-- Function `API_usage_report(track_token_usage)`: the resolved string, or the error the
promise rejects with. -/
def API_usage_report (track_token_usage : Ledger) : Except JSError String :=
  match reportLoop track_token_usage "" (.val 0) with
  | .error err => .error err
  | .ok (output, totalCost) => .ok (output ++ "Total Cost of all models: $" ++ totalCost.toFixed6)

/-- The line of one element when its cost properties are present. -/
def lineText (element : UsageEntry) : String :=
  match reportLine element with
  | .ok line => line
  | .error _ => ""

/-- The element has the cost properties its report line prints. -/
def UsageEntry.printable (element : UsageEntry) : Bool :=
  match reportLine element with
  | .ok _ => true
  | .error _ => false

/-- Sum of the `cost` properties as the loop computes it. -/
def costTotal (l : Ledger) : JSNum :=
  l.foldl (fun totalCost element => totalCost.addDouble (readNum element.cost)) (.val 0)

/-- Following the words of the specification, in the arithmetic of
JavaScript: the sum of the amounts, added from left to right starting from 0,
every addition rounded to the nearest double. -/
def doubleSum (amounts : List ℚ) : ℚ :=
  amounts.foldl (fun total amount => roundDouble (total + amount)) 0

/-- The amount is one that `toFixed` prints in plain decimal form: its
magnitude is below `10^21`, or it is `NaN`. -/
def JSNum.plain : JSNum → Bool
  | .val q => decide (|q| < 1000000000000000000000)
  | .nan => true

/-- Every amount of the entry that the report can print is in plain decimal
form. -/
def UsageEntry.plainAmounts (element : UsageEntry) : Bool :=
  (readNum element.input_tokens_cost).plain && (readNum element.output_tokens_cost).plain
    && (readNum element.cost).plain

/-- The rational amount of a `cost` property (`0` for an absent one or `NaN`). -/
def UsageEntry.costAmount (element : UsageEntry) : ℚ :=
  match element.cost with
  | some (.val q) => q
  | _ => 0

/-- Concatenation of a list of strings, in order. -/
def concatAll : List String → String
  | [] => ""
  | s :: rest => s ++ concatAll rest

/-- The ledger that JavaScript holds after one `gpt-4` call with 100 prompt and
15 completion tokens and one embedding call of 65 tokens, every operation of
lines 83-87 of `updateTokenUsageAndCost` rounded to the nearest double. -/
def doubleLedger : Ledger :=
  let input_tokens_cost := roundDouble (0 + roundDouble (100 * roundDouble (roundDouble (3 / 100) / 1000)))
  let output_tokens_cost := roundDouble (0 + roundDouble (15 * roundDouble (roundDouble (6 / 100) / 1000)))
  [ zeroChatEntry "gpt-3.5-turbo-16k",
    zeroChatEntry "gpt-3.5-turbo",
    zeroChatEntry "gpt-4-32k",
    { model := "gpt-4", input_tokens := some 100, input_tokens_cost := some (.val input_tokens_cost),
      output_tokens := some 15, output_tokens_cost := some (.val output_tokens_cost),
      cost := some (.val (roundDouble (input_tokens_cost + output_tokens_cost))) },
    { model := "text-embedding-ada-002", total_tokens := some 65,
      cost := some (.val (roundDouble (0 + roundDouble (65 * roundDouble (roundDouble (1 / 10000) / 1000))))) } ]

/-! ## Prompt texts (prompts.js) -/

/-- The literal texts of prompts.js. -/
structure PromptTexts where
  qa_request : String
  questions_json : String
  generate_keywords : String
  keywords_template : String
  ai_email_generator_instructions : String
  ai_email_generator_JSON : String
  categorize_instructions : String
  categorize_json : String
  business_details_instructions : String
  business_details_json : String
  business_details_json_minified : String
  nominations_instructions : String
  nominations_json : String
  decline_instructions : String
  unsubscribe_instructions : String
  confirmation_instructions : String
  acknowledgment_instructions : String
  question_instructions : String
  category_nominations_instructions : String
  category_nominations_json : String

/-! ## Emails -/

/-- The result of `extractEmailHeaders`; a header that was not found is `null`. -/
structure EmailHeaders where
  sender : Option String
  recipient : Option String
  date : Option String
  subject : Option String
  deriving DecidableEq, Repr

/-- One element of the array resolved by `fetchEmails`. -/
structure EmailData where
  id : String
  html : String
  email : String
  emailHeaders : EmailHeaders
  attachments : List String
  uid : Nat
  deriving DecidableEq, Repr

/-! ## Values that cross the program's external interfaces -/

/-- A value passed where the source expects a prompt string: a string, a
promise that was not awaited (nominations.js builds its prompts that way), or
`null` (index.js passes `null` after a failed retrieval). -/
inductive JSArg where
  | str (s : String)
  | promise (s : String)
  | null
  deriving DecidableEq, Repr

/-- String conversion of a prompt value, as `+` and template literals do it. -/
def JSArg.toStr : JSArg → String
  | .str s => s
  | .promise _ => "[object Promise]"
  | .null => "null"

/-- A JavaScript value as the handlers meet it: a parsed JSON value, or
`undefined` (an absent property, a function that returned nothing). -/
inductive JSON where
  | undefined
  | null
  | bool (b : Bool)
  | num (n : Int)
  | str (s : String)
  | arr (items : List JSON)
  | obj (fields : List (String × JSON))

/-- The data the program reads from a chat completion: the text
`data.choices[0].message.content` and the two counts of `data.usage`. -/
structure Completion where
  content : String
  prompt_tokens : Nat
  completion_tokens : Nat
  deriving DecidableEq, Repr

/-- One item of `response.data.data` of the embedding endpoint. -/
structure EmbeddingItem where
  embedding : List Int
  deriving DecidableEq, Repr

/-- The object handed to `SaveData`; a property that is not set is `none`. -/
structure SavedData where
  id : String
  api_usage : Option String := none
  html : Option String := none
  attachments : List String := []
  email : Option String := none
  emailHeaders : Option String := none
  generated_response : Option String := none
  category : Option String := none
  article : Option String := none
  NominationsJSON : Option String := none
  ThankYouResponse : Option String := none
  finalObject : Option String := none
  deriving DecidableEq, Repr

/-- A call that leaves the process, or a timer. -/
inductive Event where
  | createChatCompletion (model : String) (system_prompt user_prompt : JSArg)
  | createEmbedding (model : String) (input : JSArg)
  | wait (ms : Nat)
  | pineconeDeleteAll
  | pineconeUpsert (vectors : Nat)
  | pineconeQuery (topK : Nat)
  | runAgent (input : String)
  | idExists (id : String)
  | saveData (data : SavedData)
  | archiveEmail (uid : Nat)
  | fetchEmails
  deriving DecidableEq, Repr

/-- What the embedded functions are parameterised over: the prompt texts, the
library functions (pure), the article renderer of article_generator.js (a pure
function of the merged record) and the remote collaborators.  Each remote call
receives the trace of all earlier events, so that its answer may change from
one call to the next. -/
structure Env where
  /-- The texts of prompts.js -/
  texts : PromptTexts
  /-- The function `generateArticle` of article_generator.js -/
  generateArticle : JSON → Except JSError String
  /-- The match of `urlRegex` against a string: `null` or the matched URLs -/
  matchUrls : String → Option (List String)
  /-- The two `replace` calls of `updateBusinessDetails` on one URL -/
  cleanUrl : String → String
  /-- The function `encode` of gpt-3-encoder -/
  encode : JSArg → Except JSError (List Nat)
  /-- The function `JSON.parse` -/
  parse : String → Except JSError JSON
  /-- The function `JSON.stringify` -/
  stringify : JSON → String
  /-- The call `openai.createChatCompletion` followed by the read of the answer text -/
  createChatCompletion : List Event → String → JSArg → JSArg → Except JSError Completion
  /-- The call `openai.createEmbedding` -/
  createEmbedding : List Event → String → JSArg → Except JSError (List EmbeddingItem)
  /-- The call `index.delete1` with `deleteAll` -/
  pineconeDeleteAll : List Event → Except JSError Unit
  /-- The call `index.query`: the `metadata.email` of the matches -/
  pineconeQuery : List Event → List Int → Nat → Except JSError (List String)
  /-- The call `executor.call` of the langchain agent followed by
  `JSON.stringify(result.output)`, which is `undefined` for an absent output -/
  runAgent : List Event → String → Except JSError (Option String)
  /-- The function `ID_Exists` of save_to_file.js -/
  idExists : List Event → String → Except JSError Bool
  /-- The function `SaveData` of save_to_file.js -/
  saveData : List Event → SavedData → Except JSError Unit
  /-- The function `ArchiveEmail` of imap.js -/
  archiveEmail : List Event → Nat → Except JSError Unit
  /-- The function `fetchEmails` of imap.js -/
  fetchEmails : List Event → Except JSError (List EmailData)

/-! ## Computations with the global ledger, a trace and exceptions -/

/-- The state a computation runs in: the module variable `track_token_usage`
and the trace of external calls made so far (oldest first). -/
structure World where
  track_token_usage : Ledger
  trace : List Event
  deriving DecidableEq

/-- An `async` function body: it ends by returning or by throwing, and in both
cases leaves a state behind. -/
def Eff (α : Type) : Type := World → Except JSError α × World

namespace Eff

/-- The statement `return a`. -/
def ret {α : Type} (a : α) : Eff α := fun w => (.ok a, w)

/-- The statement `throw e`. -/
def throw {α : Type} (e : JSError) : Eff α := fun w => (.error e, w)

/-- Sequencing: `const a = await x; f(a)`. -/
def andThen {α β : Type} (x : Eff α) (f : α → Eff β) : Eff β := fun w =>
  match x w with
  | (.ok a, w') => f a w'
  | (.error e, w') => (.error e, w')

/-- The statement `try x catch (error) handler(error)`. -/
def tryCatch {α : Type} (x : Eff α) (handler : JSError → Eff α) : Eff α := fun w =>
  match x w with
  | (.ok a, w') => (.ok a, w')
  | (.error e, w') => handler e w'

/-- A pure step that may throw. -/
def ofExcept {α : Type} (r : Except JSError α) : Eff α := fun w => (r, w)

/-- An external call: the answer is computed from the trace so far, then the
event is appended to the trace. -/
def call {α : Type} (ev : Event) (answer : List Event → Except JSError α) : Eff α := fun w =>
  (answer w.trace, { w with trace := w.trace ++ [ev] })

/-- Read the global ledger. -/
def getLedger : Eff Ledger := fun w => (.ok w.track_token_usage, w)

/-- Replace the global ledger. -/
def setLedger (l : Ledger) : Eff Unit := fun w => (.ok (), { w with track_token_usage := l })

end Eff

instance : Monad Eff where
  pure := Eff.ret
  bind := Eff.andThen

/-! ## `countTokens`, `createEmbedding`, `getOpenAIResponse` (openai.js) -/

/-- Function `countTokens(prompt)` (lines 217-227). -/
def countTokens (env : Env) (prompt : JSArg) : Eff Nat :=
  match env.encode prompt with
  | .ok encoded => Eff.ret encoded.length
  | .error error => Eff.throw (.thrown ("Failed to count tokens: " ++ error.toString))

/-- Function `delay(ms)` of scripts.js and the `setTimeout` promise of the retry loop. -/
def delay (ms : Nat) : Eff Unit :=
  Eff.call (.wait ms) (fun _ => .ok ())

/-- Function `createEmbedding(model, prompt)` (lines 67-97): count the tokens, select the
variant, call the endpoint, then record the usage; a failed ledger update is
rethrown as a string. -/
def createEmbedding (env : Env) (model : List ModelInfo) (prompt : JSArg) :
    Eff (List EmbeddingItem) := do
  let input_tokens ← countTokens env prompt
  let output_tokens := 0
  let selection ← Eff.ofExcept (selectModel model input_tokens)
  let gpt_model := selection.model
  let response ← Eff.call (.createEmbedding gpt_model prompt)
    (fun trace => env.createEmbedding trace gpt_model prompt)
  let track_token_usage ← Eff.getLedger
  match updateTokenUsageAndCost track_token_usage models gpt_model input_tokens output_tokens with
  | .ok updated_track_token_usage => Eff.setLedger updated_track_token_usage
  | .error error => Eff.throw (.thrown ("Failed to update token usage. Error: " ++ error.toString))
  return response

/-- Constant `MAX_RETRIES` of `getOpenAIResponse`. -/
def MAX_RETRIES : Nat := 3

/-- One successful attempt after the completion arrived (lines 143-163): the
ledger update is wrapped in its own `try`, a failure there is only logged. -/
def recordCompletion (gpt_model : String) (completion : Completion) : Eff String := do
  let answer := completion.content
  let track_token_usage ← Eff.getLedger
  match updateTokenUsageAndCost track_token_usage models gpt_model
      completion.prompt_tokens completion.completion_tokens with
  | .ok updated_track_token_usage => Eff.setLedger updated_track_token_usage
  | .error _ => pure ()
  return answer

/-- The retry loop of `getOpenAIResponse` (lines 130-179), by recursion on the
number of iterations left; `attempt`, `waitTime` and `lastError` are the loop
variables.  When the loop is exhausted the last error is thrown. -/
def retryLoop (env : Env) (gpt_model : String) (system_prompt user_prompt : JSArg) :
    (remaining : Nat) → (attempt : Nat) → (waitTime : Nat) → (lastError : Option JSError) →
    Eff String
  | 0, _, _, lastError =>
    match lastError with
    | some error => Eff.throw error
    | none => Eff.throw (.thrown "undefined")
  | remaining + 1, attempt, waitTime, _ => do
    let outcome ← Eff.tryCatch
      (do
        let completion ← Eff.call (.createChatCompletion gpt_model system_prompt user_prompt)
          (fun trace => env.createChatCompletion trace gpt_model system_prompt user_prompt)
        let answer ← recordCompletion gpt_model completion
        return (Except.ok answer : Except JSError String))
      (fun error => return (Except.error error))
    match outcome with
    | .ok answer => return answer
    | .error error =>
      let lastError := some error
      let waitTime := waitTime + 3000
      if attempt < MAX_RETRIES - 1 then delay waitTime
      retryLoop env gpt_model system_prompt user_prompt remaining (attempt + 1) waitTime lastError

/-- Function `getOpenAIResponse(model, system_prompt, user_prompt)` (lines 116-180). -/
def getOpenAIResponse (env : Env) (model : List ModelInfo) (system_prompt user_prompt : JSArg) :
    Eff String := do
  let waitTime := 1000
  let input_tokens ← countTokens env (.str (system_prompt.toStr ++ user_prompt.toStr))
  let selection ← Eff.ofExcept (selectModel model input_tokens)
  let gpt_model := selection.model
  retryLoop env gpt_model system_prompt user_prompt MAX_RETRIES 0 waitTime none

/-! ## JavaScript values as the handlers use them -/

namespace JSON

/-- Truthiness (`if (x)`, `!x`, `x || y`). -/
def truthy : JSON → Bool
  | .undefined => false
  | .null => false
  | .bool b => b
  | .num n => n != 0
  | .str s => s != ""
  | .arr _ => true
  | .obj _ => true

/-- The value stored first under `key` in a list of fields, `undefined` when
there is none. -/
def lookup (key : String) : List (String × JSON) → JSON
  | [] => .undefined
  | (k, v) :: rest => if k = key then v else lookup key rest

/-- Store `v` under `key` in a list of fields: an existing key keeps its place,
a new key goes to the end. -/
def store (key : String) (v : JSON) : List (String × JSON) → List (String × JSON)
  | [] => [(key, v)]
  | (k, old) :: rest => if k = key then (k, v) :: rest else (k, old) :: store key v rest

/-- A key is an array index: the canonical decimal form of a natural number
below `2^32 - 1`. -/
def isIndexKey (key : String) : Bool :=
  match key.toNat? with
  | some i => toString i == key && i < 4294967295
  | none => false

/-- The numeric value of an index key. -/
def indexOf (key : String) : Nat := key.toNat?.getD 0

/-- The keys of a list of fields in property order: index keys in ascending
numeric order, then the other keys in insertion order. -/
def orderedKeys (fields : List (String × JSON)) : List String :=
  let names := fields.map (fun f => f.1)
  (names.filter isIndexKey).insertionSort (fun a b => indexOf a ≤ indexOf b)
    ++ names.filter (fun k => !isIndexKey k)

end JSON

/-- Property read `x.key` or `x[key]`: a `TypeError` when `x` is `undefined` or
`null`; a field of an object, an element of an array or a character of a string
for an index key; `undefined` otherwise (no builtin property is read by the
program under the keys it uses). -/
def readProp (x : JSON) (key : String) : Except JSError JSON :=
  match x with
  | .undefined =>
    .error (.error "TypeError" ("Cannot read properties of undefined (reading '" ++ key ++ "')"))
  | .null =>
    .error (.error "TypeError" ("Cannot read properties of null (reading '" ++ key ++ "')"))
  | .obj fields => .ok (JSON.lookup key fields)
  | .arr items =>
    if JSON.isIndexKey key then .ok ((items.get? (JSON.indexOf key)).getD .undefined)
    else .ok .undefined
  | .str s =>
    if JSON.isIndexKey key then
      match s.toList.get? (JSON.indexOf key) with
      | some c => .ok (.str (String.singleton c))
      | none => .ok .undefined
    else .ok .undefined
  | _ => .ok .undefined

/-- The assignment `x.key = v` in module (strict) code: on an object the field
is stored; on `undefined`, `null` or a primitive value a `TypeError` is thrown.
An array carries no named properties in this embedding: an element is replaced
for an index key inside the array, any other assignment to an array is
dropped. -/
def assignProp (x : JSON) (key : String) (v : JSON) : Except JSError JSON :=
  match x with
  | .undefined =>
    .error (.error "TypeError" ("Cannot set properties of undefined (setting '" ++ key ++ "')"))
  | .null =>
    .error (.error "TypeError" ("Cannot set properties of null (setting '" ++ key ++ "')"))
  | .obj fields => .ok (.obj (JSON.store key v fields))
  | .arr items =>
    if JSON.isIndexKey key ∧ JSON.indexOf key < items.length then
      .ok (.arr (items.set (JSON.indexOf key) v))
    else .ok (.arr items)
  | _ => .error (.error "TypeError" ("Cannot create property '" ++ key ++ "'"))

/-- The call `Object.keys(x)`. -/
def objectKeys (x : JSON) : Except JSError (List String) :=
  match x with
  | .undefined | .null =>
    .error (.error "TypeError" "Cannot convert undefined or null to object")
  | .obj fields => .ok (JSON.orderedKeys fields)
  | .arr items => .ok ((List.range items.length).map (fun i => toString i))
  | .str s => .ok ((List.range s.length).map (fun i => toString i))
  | _ => .ok []

/-- The call `Object.values(x)`. -/
def objectValues (x : JSON) : Except JSError (List JSON) :=
  match x with
  | .undefined | .null =>
    .error (.error "TypeError" "Cannot convert undefined or null to object")
  | .obj fields => .ok ((JSON.orderedKeys fields).map (fun k => JSON.lookup k fields))
  | .arr items => .ok items
  | .str s => .ok (s.toList.map (fun c => JSON.str (String.singleton c)))
  | _ => .ok []

/-- The test `value === ""`. -/
def isEmptyString (value : JSON) : Bool :=
  match value with
  | .str s => s == ""
  | _ => false

mutual

/-- String conversion of a value (`String(x)`, a template literal, `+` with a
string): an array prints its elements joined by commas, an object prints as
`[object Object]`. -/
def JSON.toStr : JSON → String
  | .undefined => "undefined"
  | .null => "null"
  | .bool b => if b then "true" else "false"
  | .num n => toString n
  | .str s => s
  | .arr items => JSON.joinItems "," items
  | .obj _ => "[object Object]"

/-- The method `Array.prototype.join(separator)`: `undefined` and `null`
elements print as the empty string. -/
def JSON.joinItems (separator : String) : List JSON → String
  | [] => ""
  | [.undefined] => ""
  | [.null] => ""
  | [item] => JSON.toStr item
  | .undefined :: rest => separator ++ JSON.joinItems separator rest
  | .null :: rest => separator ++ JSON.joinItems separator rest
  | item :: rest => JSON.toStr item ++ separator ++ JSON.joinItems separator rest

end

/-- A value inside a template literal. -/
def templateStr (x : JSON) : String := x.toStr

/-- An optional string property inside a template literal. -/
def optStr (x : Option String) : String :=
  match x with
  | none => "undefined"
  | some s => s

/-- The expression `a || b`. -/
def orElse (a b : JSON) : JSON := if a.truthy then a else b

/-- The object spread `{ ...a, ...b }`: the own fields of the objects are
copied in order, a later value replaces an earlier one under the same key;
`undefined`, `null` and primitive values contribute nothing.  (An array would
contribute its elements under index keys; the handlers spread objects and
`undefined` only.) -/
def spreadAll (parts : List JSON) : JSON :=
  .obj (parts.foldl
    (fun acc part =>
      match part with
      | .obj fields => fields.foldl (fun acc f => JSON.store f.1 f.2 acc) acc
      | _ => acc)
    [])

/-! ## Prompt getters (prompts.js) -/

/-- The object returned by a prompt getter of prompts.js. -/
structure CategoryPrompt where
  instructions : String
  json : Option String := none
  json_minified : Option String := none
  preferred_gpt : List ModelInfo
  top_k : Nat

def getCategorizeEmailPrompt (t : PromptTexts) : CategoryPrompt :=
  { instructions := t.categorize_instructions, json := some t.categorize_json,
    preferred_gpt := models_gpt4, top_k := 2 }

def getBusinessDetails (t : PromptTexts) : CategoryPrompt :=
  { instructions := t.business_details_instructions, json := some t.business_details_json,
    json_minified := some t.business_details_json_minified, preferred_gpt := models_gpt4, top_k := 3 }

def getNominations (t : PromptTexts) : CategoryPrompt :=
  { instructions := t.nominations_instructions, json := some t.nominations_json,
    preferred_gpt := models_gpt4, top_k := 1 }

def getCategoryDecline (t : PromptTexts) : CategoryPrompt :=
  { instructions := t.decline_instructions, preferred_gpt := models_gpt4, top_k := 1 }

def getCategoryUnsubscribe (t : PromptTexts) : CategoryPrompt :=
  { instructions := t.unsubscribe_instructions, preferred_gpt := models_gpt4, top_k := 1 }

def getCategoryConfirmation (t : PromptTexts) : CategoryPrompt :=
  { instructions := t.confirmation_instructions, preferred_gpt := models_gpt4, top_k := 1 }

def getCategoryAcknowledgment (t : PromptTexts) : CategoryPrompt :=
  { instructions := t.acknowledgment_instructions, preferred_gpt := models_gpt4, top_k := 1 }

def getCategoryQuestion (t : PromptTexts) : CategoryPrompt :=
  { instructions := t.question_instructions, preferred_gpt := models_gpt4, top_k := 1 }

def getCategoryNominations (t : PromptTexts) : CategoryPrompt :=
  { instructions := t.category_nominations_instructions, json := some t.category_nominations_json,
    preferred_gpt := models_gpt4, top_k := 1 }

/-! ## Equality of values -/

mutual

/-- Decision procedure for equality of two values. -/
def JSON.decEq : (a b : JSON) → Decidable (a = b)
  | .undefined, .undefined => isTrue rfl
  | .undefined, .null => isFalse nofun
  | .undefined, .bool _ => isFalse nofun
  | .undefined, .num _ => isFalse nofun
  | .undefined, .str _ => isFalse nofun
  | .undefined, .arr _ => isFalse nofun
  | .undefined, .obj _ => isFalse nofun
  | .null, .undefined => isFalse nofun
  | .null, .null => isTrue rfl
  | .null, .bool _ => isFalse nofun
  | .null, .num _ => isFalse nofun
  | .null, .str _ => isFalse nofun
  | .null, .arr _ => isFalse nofun
  | .null, .obj _ => isFalse nofun
  | .bool _, .undefined => isFalse nofun
  | .bool _, .null => isFalse nofun
  | .bool x, .bool y =>
    if h : x = y then isTrue (congrArg JSON.bool h)
    else isFalse (fun h' => h (JSON.bool.inj h'))
  | .bool _, .num _ => isFalse nofun
  | .bool _, .str _ => isFalse nofun
  | .bool _, .arr _ => isFalse nofun
  | .bool _, .obj _ => isFalse nofun
  | .num _, .undefined => isFalse nofun
  | .num _, .null => isFalse nofun
  | .num _, .bool _ => isFalse nofun
  | .num x, .num y =>
    if h : x = y then isTrue (congrArg JSON.num h)
    else isFalse (fun h' => h (JSON.num.inj h'))
  | .num _, .str _ => isFalse nofun
  | .num _, .arr _ => isFalse nofun
  | .num _, .obj _ => isFalse nofun
  | .str _, .undefined => isFalse nofun
  | .str _, .null => isFalse nofun
  | .str _, .bool _ => isFalse nofun
  | .str _, .num _ => isFalse nofun
  | .str x, .str y =>
    if h : x = y then isTrue (congrArg JSON.str h)
    else isFalse (fun h' => h (JSON.str.inj h'))
  | .str _, .arr _ => isFalse nofun
  | .str _, .obj _ => isFalse nofun
  | .arr _, .undefined => isFalse nofun
  | .arr _, .null => isFalse nofun
  | .arr _, .bool _ => isFalse nofun
  | .arr _, .num _ => isFalse nofun
  | .arr _, .str _ => isFalse nofun
  | .arr xs, .arr ys =>
    match JSON.decEqList xs ys with
    | isTrue h => isTrue (congrArg JSON.arr h)
    | isFalse h => isFalse (fun h' => h (JSON.arr.inj h'))
  | .arr _, .obj _ => isFalse nofun
  | .obj _, .undefined => isFalse nofun
  | .obj _, .null => isFalse nofun
  | .obj _, .bool _ => isFalse nofun
  | .obj _, .num _ => isFalse nofun
  | .obj _, .str _ => isFalse nofun
  | .obj _, .arr _ => isFalse nofun
  | .obj xs, .obj ys =>
    match JSON.decEqFields xs ys with
    | isTrue h => isTrue (congrArg JSON.obj h)
    | isFalse h => isFalse (fun h' => h (JSON.obj.inj h'))

/-- Decision procedure for equality of two lists of values. -/
def JSON.decEqList : (xs ys : List JSON) → Decidable (xs = ys)
  | [], [] => isTrue rfl
  | [], _ :: _ => isFalse nofun
  | _ :: _, [] => isFalse nofun
  | x :: xs, y :: ys =>
    match JSON.decEq x y, JSON.decEqList xs ys with
    | isTrue h, isTrue hs => isTrue (by rw [h, hs])
    | isFalse h, _ => isFalse (fun h' => h (List.cons.inj h').1)
    | _, isFalse hs => isFalse (fun h' => hs (List.cons.inj h').2)

/-- Decision procedure for equality of two lists of fields. -/
def JSON.decEqFields : (xs ys : List (String × JSON)) → Decidable (xs = ys)
  | [], [] => isTrue rfl
  | [], _ :: _ => isFalse nofun
  | _ :: _, [] => isFalse nofun
  | (k, x) :: xs, (l, y) :: ys =>
    if hk : k = l then
      match JSON.decEq x y, JSON.decEqFields xs ys with
      | isTrue h, isTrue hs => isTrue (by rw [hk, h, hs])
      | isFalse h, _ => isFalse (fun h' => h (Prod.mk.inj (List.cons.inj h').1).2)
      | _, isFalse hs => isFalse (fun h' => hs (List.cons.inj h').2)
    else isFalse (fun h' => hk (Prod.mk.inj (List.cons.inj h').1).1)

end

instance : DecidableEq JSON := JSON.decEq
/-! ## Retrieval (pinecone.js) -/

/-- Function `deletePineconeVectors` (lines 38-55). -/
def deletePineconeVectors (env : Env) : Eff Unit :=
  Eff.tryCatch (Eff.call .pineconeDeleteAll env.pineconeDeleteAll)
    (fun error =>
      Eff.throw (.thrown ("Failed to delete Pinecone vectors: Error: " ++ error.toString)))

/-- The `while (vectors.length)` loop of `generatePineconeEmbeddings`: batches of
at most 250 vectors are sent without awaiting the result. -/
def upsertLoop : (fuel : Nat) → (vectors : Nat) → Eff Unit
  | 0, _ => pure ()
  | fuel + 1, vectors =>
    if vectors = 0 then pure ()
    else do
      Eff.call (.pineconeUpsert (min 250 vectors)) (fun _ => .ok ())
      upsertLoop fuel (vectors - 250)

/-- Function `generatePineconeEmbeddings(str)` (lines 62-107). -/
def generatePineconeEmbeddings (env : Env) (str : String) : Eff Unit :=
  Eff.tryCatch
    (do
      deletePineconeVectors env
      let email := env.stringify (.str str)
      let embeddings ← createEmbedding env models_embeddings (.str email)
      upsertLoop embeddings.length embeddings.length)
    (fun error =>
      Eff.throw (.thrown ("Failed to generate Pinecone embeddings. Error: " ++ error.toString)))

/-- Function `retrievePineconeEmbeddings(str, topK)` (lines 116-148). -/
def retrievePineconeEmbeddings (env : Env) (str : JSArg) (topK : Nat) : Eff String :=
  Eff.tryCatch
    (do
      let embeddings ← createEmbedding env models_embeddings str
      let vector ← match embeddings with
        | first :: _ => pure first.embedding
        | [] => Eff.throw (.error "TypeError"
            "Cannot read properties of undefined (reading 'embedding')")
      let pinecone_relevant_content ← Eff.call (.pineconeQuery topK)
        (fun trace => env.pineconeQuery trace vector topK)
      return env.stringify (.arr (pinecone_relevant_content.map JSON.str)))
    (fun error =>
      Eff.throw (.thrown ("Failed to retrieve Pinecone embeddings. Error: " ++ error.toString)))

/-! ## Steps shared by the handlers -/

/-- The awaited call `resetTrackTokenUsage(track_token_usage)` on the module
variable. -/
def awaitReset : Eff Unit := fun w =>
  (.ok (), { w with track_token_usage := resetTrackTokenUsage w.track_token_usage })

/-- The expression `await API_usage_report(track_token_usage).catch(...)`: the
report, or `undefined` when the promise rejects. -/
def awaitUsageReport : Eff (Option String) := fun w =>
  (.ok (API_usage_report w.track_token_usage).toOption, w)

/-- The call `JSON.stringify(x)`: `undefined` for `undefined`, a string
otherwise. -/
def jsonStringify (env : Env) (x : JSON) : Option String :=
  match x with
  | .undefined => none
  | other => some (env.stringify other)

/-- Function `SaveData(data)` of save_to_file.js. -/
def SaveData (env : Env) (data : SavedData) : Eff Unit :=
  Eff.call (.saveData data) (fun trace => env.saveData trace data)

/-- Function `ArchiveEmail(uid)` of imap.js. -/
def ArchiveEmail (env : Env) (uid : Nat) : Eff Unit :=
  Eff.call (.archiveEmail uid) (fun trace => env.archiveEmail trace uid)

/-- Function `createEmailPrompt(category)` of the five reply handlers; they
differ in the prompt getter only. -/
def createEmailPrompt (t : PromptTexts) (prompt : CategoryPrompt) (category : JSON) :
    Except JSError String :=
  match readProp category "explanation" with
  | .error e => .error e
  | .ok explanation =>
    .ok (prompt.instructions ++ "\nYour previous reasoning: " ++ templateStr explanation
      ++ "\nINSTRUCTIONS: " ++ t.ai_email_generator_instructions
      ++ "\nJSON: " ++ t.ai_email_generator_JSON)

/-- The common body of `process_questions`, `process_unsubscribe`,
`process_acknowledgment`, `process_confirmation` and `process_decline`: the five
functions differ in the prompt getter and in the layout of
`generated_response`. -/
def process_reply (env : Env) (prompt : CategoryPrompt)
    (layout : String → String → String) (emailData : EmailData) (category : JSON) : Eff Unit :=
  Eff.tryCatch
    (do
      let system_prompt ← Eff.ofExcept (createEmailPrompt env.texts prompt category)
      let user_prompt ← retrievePineconeEmbeddings env (.str system_prompt) prompt.top_k
      let response ← getOpenAIResponse env prompt.preferred_gpt (.str system_prompt)
        (.str user_prompt)
      let parsedResponse ← Eff.ofExcept (env.parse response)
      let subject ← Eff.ofExcept (readProp parsedResponse "subject")
      let message ← Eff.ofExcept (readProp parsedResponse "message")
      let generated_response := layout (templateStr subject) (templateStr message)
      let api_usage ← awaitUsageReport
      let email_data : SavedData :=
        { api_usage := api_usage, id := emailData.id, html := some emailData.html,
          attachments := emailData.attachments, email := some emailData.email,
          generated_response := some generated_response,
          category := jsonStringify env category }
      SaveData env email_data
      awaitReset
      ArchiveEmail env emailData.uid)
    (fun error => do
      awaitReset
      Eff.throw error)

/-- Function `process_questions` (questions.js, lines 29-71). -/
def process_questions (env : Env) (emailData : EmailData) (category : JSON) : Eff Unit :=
  process_reply env (getCategoryQuestion env.texts)
    (fun subject message => "Generated subject for this email:\n" ++ subject
      ++ "\nGenerated response for this email:\n" ++ message)
    emailData category

/-- Function `process_unsubscribe` (unsubscribe.js, lines 30-70). -/
def process_unsubscribe (env : Env) (emailData : EmailData) (category : JSON) : Eff Unit :=
  process_reply env (getCategoryUnsubscribe env.texts)
    (fun subject message => "Generated subject for this email: " ++ subject
      ++ "\nGenerated response for this email: " ++ message)
    emailData category

/-- Function `process_acknowledgment` (acknowledgment.js, lines 37-78). -/
def process_acknowledgment (env : Env) (emailData : EmailData) (category : JSON) : Eff Unit :=
  process_reply env (getCategoryAcknowledgment env.texts)
    (fun subject message => "Generated subject for this email:\n" ++ subject
      ++ "\n\nGenerated response for this email:\n" ++ message)
    emailData category

/-- Function `process_confirmation` (confirmation.js, lines 35-76). -/
def process_confirmation (env : Env) (emailData : EmailData) (category : JSON) : Eff Unit :=
  process_reply env (getCategoryConfirmation env.texts)
    (fun subject message => "Generated subject for this email:\n" ++ subject
      ++ "\nGenerated response for this email:\n" ++ message)
    emailData category

/-- Function `process_decline` (decline.js, lines 29-68). -/
def process_decline (env : Env) (emailData : EmailData) (category : JSON) : Eff Unit :=
  process_reply env (getCategoryDecline env.texts)
    (fun subject message => "Generated subject for this email: " ++ subject
      ++ "\nGenerated response for this email: " ++ message)
    emailData category

/-- Function `process_spam_promotion` (spam_or_promotion.js, lines 11-21). -/
def process_spam_promotion (env : Env) (emailData : EmailData) : Eff Unit :=
  Eff.tryCatch (ArchiveEmail env emailData.uid) (fun error => Eff.throw error)

/-! ## The external agent (dynamic_agent.js) -/

/-- Function `runAgent(input, temp, ...toolNames)` (lines 98-123): the output
of the agent, or `undefined` when the agent fails (the `catch` only logs). -/
def runAgent (env : Env) (input : String) : Eff JSON :=
  Eff.tryCatch
    (do
      let output ← Eff.call (.runAgent input) (fun trace => env.runAgent trace input)
      match output with
      | some text => return JSON.str text
      | none => return JSON.undefined)
    (fun _ => pure .undefined)

/-- The method `String.prototype.includes`. -/
def includes (s part : String) : Bool :=
  s.toList.tails.any (fun rest => part.toList.isPrefixOf rest)

/-- The callback of `urls.forEach` in `updateBusinessDetails` (lines 19-34),
applied to the `bussines_details` value. -/
def applyUrl (env : Env) (details : JSON) (url : String) : Except JSError JSON := do
  let url := env.cleanUrl url
  let details ← if includes url "facebook.com"
    then assignProp details "facebook" (.str url) else pure details
  let details ← if includes url "twitter.com"
    then assignProp details "twitter" (.str url) else pure details
  let details ← if includes url "instagram.com"
    then assignProp details "instagram" (.str url) else pure details
  let details ← if includes url "linkedin.com"
    then assignProp details "linkedin" (.str url) else pure details
  let website ← readProp details "website"
  if !website.truthy then assignProp details "website" (.str url) else pure details

/-- Function `updateBusinessDetails(agentOutput, businessDetails)` (lines
16-38). -/
def updateBusinessDetails (env : Env) (agentOutput : JSON) (businessDetails : JSON) :
    Except JSError JSON :=
  match agentOutput with
  | .str output =>
    match env.matchUrls output with
    | some urls => do
      let details ← readProp businessDetails "bussines_details"
      let details ← urls.foldlM (fun details url => applyUrl env details url) details
      assignProp businessDetails "bussines_details" details
    | none => .ok businessDetails
  | _ => .error (.error "TypeError" "Cannot read properties of undefined (reading 'match')")

/-- Function `getMissingBusinessDetails(business_details_object)` (lines
47-59): the updated object, or `undefined` when anything inside fails (the
`catch` only logs). -/
def getMissingBusinessDetails (env : Env) (business_details_object : JSON) : Eff JSON :=
  Eff.tryCatch
    (do
      let details ← Eff.ofExcept (readProp business_details_object "bussines_details")
      let businessName ← Eff.ofExcept (readProp details "businessName")
      let town ← Eff.ofExcept (readProp details "town")
      let website ← Eff.ofExcept (readProp details "website")
      let facebook ← Eff.ofExcept (readProp details "facebook")
      let twitter ← Eff.ofExcept (readProp details "twitter")
      let instagram ← Eff.ofExcept (readProp details "instagram")
      let input := "Find missing details about this company '" ++ templateStr businessName
        ++ ", " ++ templateStr town ++ "'. Website: \"" ++ templateStr website
        ++ "\", Facebook: \"" ++ templateStr facebook ++ "\", Twitter: \"" ++ templateStr twitter
        ++ "\", Instagram: \"" ++ templateStr instagram ++ "\"."
      let agentOutput ← runAgent env input
      Eff.ofExcept (updateBusinessDetails env agentOutput business_details_object))
    (fun _ => pure .undefined)

/-- Function `getMissingNominationURL(search_query)` (lines 68-86): the first
URL of the agent output, the empty string when it has none, `undefined` when
anything inside fails. -/
def getMissingNominationURL (env : Env) (search_query : String) : Eff JSON :=
  Eff.tryCatch
    (do
      let input := "Find website or social media link for this business: '" ++ search_query
        ++ "'\nIf you can't find link, return 'No data'."
      let agentOutput ← runAgent env input
      match agentOutput with
      | .str output =>
        match env.matchUrls output with
        | some (first :: _) => return JSON.str first
        | _ => return JSON.str ""
      | _ => Eff.throw (.error "TypeError" "Cannot read properties of undefined (reading 'match')"))
    (fun _ => pure .undefined)

/-! ## Nomination enrichment (nominations.js, lines 140-232) -/

/-- Function `generateInvitationToInterviewLetter(businessDetails, nomination)`
(lines 189-232). -/
def generateInvitationToInterviewLetter (businessDetails nomination : JSON) :
    Except JSError JSON := do
  let emailOwnerName := "Dan"
  let defaultTown := JSON.str "Ridgefield"
  let businessName ← readProp businessDetails "businessName"
  let subject := "Invitation to interview - hamlethub.com and " ++ templateStr businessName
  let person ← readProp nomination "nominated_business_person"
  let getGreeting := "Hello " ++ templateStr (orElse person (.str "!"))
  let nominationTown ← readProp nomination "town"
  let businessTown ← readProp businessDetails "town"
  let getTown := templateStr (orElse nominationTown (orElse businessTown defaultTown))
  let senderName ← readProp businessDetails "senderName"
  let getIntro :=
    if senderName.truthy && businessName.truthy then
      templateStr senderName ++ " from " ++ templateStr businessName
    else templateStr (orElse senderName (.str (businessName.toStr ++ " team")))
  let senderGender ← readProp businessDetails "senderGender"
  let getGenderPronoun :=
    match senderGender with
    | .str "Female" => "her"
    | .str "Male" => "his"
    | _ => "their"
  let getThankfulNote :=
    if senderName.truthy then
      templateStr senderName ++ " was very thankful for the opportunity to showcase "
        ++ getGenderPronoun
        ++ " business, and was very happy to nominate you to participate next!"
    else
      templateStr businessName
        ++ " team was very thankful for the opportunity to showcase their business, and were very happy to nominate you to participate next!"
  let message := "\n" ++ getGreeting
    ++ "\nMy name is " ++ emailOwnerName
    ++ " from the Hamlethub.com website - a local news provider in " ++ getTown ++ ".\n"
    ++ getIntro
    ++ " asked us to reach out to you to check if you're willing to participate in an online interview that we're running in "
    ++ getTown ++ ". " ++ getThankfulNote
    ++ "\nThe interview process is completely online, and you can reply with your answers to the following questions:\n\n"
    ++ "- Why did you start your business?\n"
    ++ "- What is your best-selling product/service?\n"
    ++ "- How many local businesses do you use to support your business (products and services) and can you name them?\n"
    ++ "- Have you \"reimagined\" your small business?\n\n"
    ++ "Please let me know if you have any questions or if you need any help! Locally yours,\n"
    ++ emailOwnerName ++ "\n"
  return .obj [("subject", .str subject), ("message", .str message)]

/-- The outcome of one iteration of the inner loop of `processNominationsJSON`:
the nomination object as the iteration left it, and the error when the
iteration threw. -/
structure NominationStep where
  nomination : JSON
  thrown : Option JSError

/-- One iteration of the inner loop (lines 147-169). -/
def processNomination (env : Env) (businessDetails_Object : JSON) (nomination : JSON) :
    Eff NominationStep := fun w =>
  match readProp nomination "nominated_business_name" with
  | .error e => (.ok ⟨nomination, some e⟩, w)
  | .ok name =>
    if !name.truthy then (.ok ⟨nomination, none⟩, w)
    else
      -- lines 151-157: inherit the town of the referring business
      let located : Except JSError (Option JSON) := do
        let location ← readProp nomination "nominated_business_location"
        if !location.truthy then
          let details ← readProp businessDetails_Object "bussines_details"
          let town ← readProp details "town"
          if !town.truthy then pure none
          else
            let updated ← assignProp nomination "nominated_business_location" town
            pure (some updated)
        else pure (some nomination)
      match located with
      | .error e => (.ok ⟨nomination, some e⟩, w)
      | .ok none => (.ok ⟨nomination, none⟩, w)
      | .ok (some nomination) =>
        -- lines 159-165: look the link up
        let linked : Eff JSON := do
          let link ← Eff.ofExcept (readProp nomination "nominated_business_link")
          if !link.truthy then
            let name ← Eff.ofExcept (readProp nomination "nominated_business_name")
            let location ← Eff.ofExcept (readProp nomination "nominated_business_location")
            let searchQuery := templateStr name ++ " " ++ templateStr location
            let found ← getMissingNominationURL env searchQuery
            Eff.ofExcept (assignProp nomination "nominated_business_link" found)
          else pure nomination
        match linked w with
        | (.error e, w1) => (.ok ⟨nomination, some e⟩, w1)
        | (.ok nomination, w1) =>
          -- lines 167-169: the invitation letter
          let lettered : Except JSError JSON := do
            let details ← readProp businessDetails_Object "bussines_details"
            let letter ← generateInvitationToInterviewLetter details nomination
            assignProp nomination "email_template" letter
          match lettered with
          | .error e => (.ok ⟨nomination, some e⟩, w1)
          | .ok nomination => (.ok ⟨nomination, none⟩, w1)

/-- The inner loop over the keys of one container (line 146): each processed
nomination is written back under its key; the loop stops at the first throw. -/
def nominationsInnerLoop (env : Env) (businessDetails_Object : JSON) :
    List String → JSON → Eff (JSON × Option JSError)
  | [], container => pure (container, none)
  | innerKey :: rest, container => do
    match readProp container innerKey with
    | .error e => return (container, some e)
    | .ok nomination =>
      let step ← processNomination env businessDetails_Object nomination
      let container :=
        match assignProp container innerKey step.nomination with
        | .ok updated => updated
        | .error _ => container
      match step.thrown with
      | some e => return (container, some e)
      | none => nominationsInnerLoop env businessDetails_Object rest container

/-- The outer loop over the keys of `nominations_json` (line 145). -/
def nominationsOuterLoop (env : Env) (businessDetails_Object : JSON) :
    List String → JSON → Eff (JSON × Option JSError)
  | [], nominations_json => pure (nominations_json, none)
  | outerKey :: rest, nominations_json => do
    match readProp nominations_json outerKey with
    | .error e => return (nominations_json, some e)
    | .ok container =>
      match objectKeys container with
      | .error e => return (nominations_json, some e)
      | .ok innerKeys =>
        let (container, thrown) ←
          nominationsInnerLoop env businessDetails_Object innerKeys container
        let nominations_json :=
          match assignProp nominations_json outerKey container with
          | .ok updated => updated
          | .error _ => nominations_json
        match thrown with
        | some e => return (nominations_json, some e)
        | none => nominationsOuterLoop env businessDetails_Object rest nominations_json

/-- Function `processNominationsJSON(businessDetails_Object, nominations_json)`
(lines 140-179): whatever is thrown inside is logged, and the object is
returned with the changes made up to that point.  Every promise has been
awaited when `Promise.allSettled` is reached. -/
def processNominationsJSON (env : Env) (businessDetails_Object nominations_json : JSON) :
    Eff JSON := do
  match objectKeys nominations_json with
  | .error _ => return nominations_json
  | .ok outerKeys =>
    let (result, _) ← nominationsOuterLoop env businessDetails_Object outerKeys nominations_json
    return result

/-! ## `createPromptStrings` (scripts.js, lines 10-42) -/

/-- The four fixed questions, in the order of the keys of `questions`. -/
def questions : List String :=
  [ "Why did you start your business?",
    "What is your best-selling product/service?",
    "How many local businesses do you use to support your business (products and services) and can you name them?",
    "Have you 'reimagined' your small business?" ]

/-- The template `qa_instructions` for one question. -/
def qa_instructions (question : String) : String :=
  "Use comprehension, inference, and context to determine what pieces of information belongs to the question: '"
    ++ question
    ++ "'.\nIf there are no answers to the question, just return 'No answers to this question'. Do not make up data. Remove nonsense text from answer.\nPrepare answer to be used in QA article.\nMake sure to identify the format how the user starts answering the questions, and make sure to completely extract answer between questions.\nIf you run into a list, make sure to properly format that list with comma.\nHyperlinks syntax: '<a href=\"https://www.example.com/\" target=\"_blank\">example string</a>'"

/-- One element of the array resolved by `createPromptStrings`. -/
structure PromptObject where
  system_prompt : String
  user_prompt : String
  preferred_gpt : List ModelInfo

/-- The `async` callback of `Object.keys(questions).map` for one question. -/
def promptTask (env : Env) (question : String) : Eff PromptObject := do
  let system_prompt := "REQUEST: " ++ env.texts.qa_request ++ "\nINSTRUCTIONS: "
    ++ qa_instructions question ++ "\nJSON:" ++ env.texts.questions_json
  let user_prompt ← retrievePineconeEmbeddings env (.str system_prompt) 1
  let preferred_gpt := models_gpt4
  return { system_prompt := system_prompt, user_prompt := user_prompt,
           preferred_gpt := preferred_gpt }

/-- The call `Promise.all` on tasks that were all started: every task runs (here
in order, each to its end), and the result is the list of their values or the
rejection of the first task that failed. -/
def promiseAll {α : Type} : List (Eff α) → Eff (List α)
  | [] => pure []
  | task :: rest => fun w =>
    match task w with
    | (.ok a, w1) =>
      match promiseAll rest w1 with
      | (.ok values, w2) => (.ok (a :: values), w2)
      | (.error e, w2) => (.error e, w2)
    | (.error e, w1) => (.error e, (promiseAll rest w1).2)

/-- Function `createPromptStrings()`. -/
def createPromptStrings (env : Env) : Eff (List PromptObject) :=
  promiseAll (questions.map (promptTask env))

/-! ## The sub-extractions of the Answers handler (answers.js, lines 108-248) -/

/-- The `for` loop of `get_QAObject` (lines 226-240): a question whose model
call or parse fails is logged and skipped. -/
def qaLoop (env : Env) : List PromptObject → List JSON → Eff (List JSON)
  | [], responses => pure responses
  | promptObject :: rest, responses => do
    let responses ← Eff.tryCatch
      (do
        let response ← getOpenAIResponse env promptObject.preferred_gpt
          (.str promptObject.system_prompt) (.str promptObject.user_prompt)
        let parsedResponse ← Eff.ofExcept (env.parse response)
        let responses := responses ++ [parsedResponse]
        delay 500
        return responses)
      (fun _ => pure responses)
    qaLoop env rest responses

/-- Function `get_QAObject()` (lines 219-248). -/
def get_QAObject (env : Env) : Eff JSON :=
  Eff.tryCatch
    (do
      let promptObjects ← createPromptStrings env
      let responses ← qaLoop env promptObjects []
      return .obj [("QA", .arr responses)])
    (fun error =>
      Eff.throw (.thrown ("Failed to extract QA from email body: " ++ error.toString)))

/-- Function `get_KeywordsObject(QA_Object)` (lines 189-206). -/
def get_KeywordsObject (env : Env) (QA_Object : JSON) : Eff JSON :=
  Eff.tryCatch
    (do
      let QA ← Eff.ofExcept (readProp QA_Object "QA")
      let items ← match QA with
        | .arr items => pure items
        | _ => Eff.throw (.error "TypeError" "QA_Object.QA.map is not a function")
      let concatenated_answers ← Eff.ofExcept (items.mapM (fun qa => readProp qa "a"))
      let system_prompt := "REQUEST: " ++ env.texts.generate_keywords
        ++ "\n KEYWORDS TEMPLATE: " ++ env.texts.keywords_template
      let user_prompt := JSON.joinItems " " concatenated_answers
      let response ← getOpenAIResponse env models_gpt35 (.str system_prompt) (.str user_prompt)
      return .obj [("QA_keywords", .str response)])
    (fun error =>
      Eff.throw (.thrown ("Failed to generate keywords from business answers: "
        ++ error.toString)))

/-- Function `get_BusinessDetailsObject()` (lines 152-175). -/
def get_BusinessDetailsObject (env : Env) : Eff JSON :=
  Eff.tryCatch
    (do
      let business_details := getBusinessDetails env.texts
      let system_prompt := "REQUEST: " ++ env.texts.qa_request ++ "\nINSTRUCTIONS:"
        ++ business_details.instructions ++ "\nJSON: " ++ optStr business_details.json
      let user_prompt ← retrievePineconeEmbeddings env (.str system_prompt) business_details.top_k
      let response ← getOpenAIResponse env business_details.preferred_gpt (.str system_prompt)
        (.str user_prompt)
      let parsed_response ← Eff.ofExcept (env.parse response)
      let business_details_object := JSON.obj [("bussines_details", parsed_response)]
      let updated_business_details_object ←
        getMissingBusinessDetails env business_details_object
      return updated_business_details_object)
    (fun error =>
      Eff.throw (.thrown ("Failed to extract business details from email body: "
        ++ error.toString)))

/-- Function `get_Nominations(businessDetails_Object)` (lines 108-139). -/
def get_Nominations (env : Env) (businessDetails_Object : JSON) : Eff JSON :=
  Eff.tryCatch
    (do
      let nominations := getNominations env.texts
      let system_prompt := "INSTRUCTIONS: " ++ nominations.instructions ++ "\nJSON: "
        ++ optStr nominations.json
      let user_prompt ← retrievePineconeEmbeddings env (.str system_prompt) nominations.top_k
      let response ← getOpenAIResponse env nominations.preferred_gpt (.str system_prompt)
        (.str user_prompt)
      let parsed_response ← Eff.ofExcept (env.parse response)
      let nominations_object := JSON.obj [("nominations", parsed_response)]
      let first ← Eff.ofExcept (readProp parsed_response "0")
      let values ← Eff.ofExcept (objectValues first)
      let hasNominations := !values.all isEmptyString
      if hasNominations then processNominationsJSON env businessDetails_Object nominations_object
      else return nominations_object)
    (fun error =>
      Eff.throw (.thrown ("Failed to extract nominations from email body: " ++ error.toString)))

/-- The promise `p.catch((error) => console.log(error))`: the value of `p`, or
`undefined` when `p` rejects. -/
def catchLog (p : Eff JSON) : Eff JSON :=
  Eff.tryCatch p (fun _ => pure .undefined)

/-- The value of an optional header inside an object literal. -/
def headerValue (h : Option String) : JSON :=
  match h with
  | some s => .str s
  | none => .null

/-- Function `process_answers(emailData, category)` (answers.js, lines 26-94);
the `catch` logs the error, resets the ledger and returns normally. -/
def process_answers (env : Env) (emailData : EmailData) (_category : JSON) : Eff Unit :=
  Eff.tryCatch
    (do
      let message_details_Object := JSON.obj [("original_message", .arr [.obj
        [("From", headerValue emailData.emailHeaders.sender),
         ("To", headerValue emailData.emailHeaders.recipient),
         ("Subject", headerValue emailData.emailHeaders.subject),
         ("Date", headerValue emailData.emailHeaders.date)]])]
      let QA_Object ← get_QAObject env
      let keywords_Object ← catchLog (get_KeywordsObject env QA_Object)
      let businessDetails_Object ← get_BusinessDetailsObject env
      let nominations_Object ← catchLog (get_Nominations env businessDetails_Object)
      let finalObject := spreadAll [QA_Object, message_details_Object, keywords_Object,
        businessDetails_Object, nominations_Object]
      let api_usage ← awaitUsageReport
      let article ← Eff.ofExcept (env.generateArticle finalObject)
      let email_data : SavedData :=
        { api_usage := api_usage, id := emailData.id, html := some emailData.html,
          email := some (env.stringify (.str emailData.email)),
          attachments := emailData.attachments, article := some article,
          NominationsJSON := jsonStringify env nominations_Object,
          finalObject := jsonStringify env finalObject }
      SaveData env email_data
      awaitReset
      ArchiveEmail env emailData.uid)
    (fun _ => awaitReset)

/-! ## The Nominations handler (nominations.js, lines 22-110) -/

/-- Function `createNominationsEmailPrompt(category)`: the text its promise
resolves to (the empty text stands for a rejected promise). -/
def createNominationsEmailPrompt (t : PromptTexts) (category : JSON) : String :=
  match readProp category "explanation" with
  | .ok explanation =>
    "INSTRUCTIONS: " ++ (getCategoryNominations t).instructions ++ "\nYour previous reasoning: "
      ++ templateStr explanation ++ "\nJSON: " ++ optStr (getCategoryNominations t).json
  | .error _ => ""

/-- Function `createBusinessDetailsEmailPrompt()`: the text its promise
resolves to. -/
def createBusinessDetailsEmailPrompt (t : PromptTexts) : String :=
  "REQUEST: " ++ t.qa_request ++ "\nINSTRUCTIONS:" ++ (getBusinessDetails t).instructions
    ++ "\nJSON: " ++ optStr (getBusinessDetails t).json_minified

/-- Function `process_nominations(emailData, category)` (lines 49-110).  The two
prompt builders are `async` and are called without `await`, so the prompts are
promises.  Line 77 evaluates the identifier `category_nominations`, which is
declared nowhere: the evaluation throws a `ReferenceError`, and the statements
after it are never reached.  The `catch` logs the error, resets the ledger and
returns normally. -/
def process_nominations (env : Env) (emailData : EmailData) (category : JSON) : Eff Unit :=
  Eff.tryCatch
    (do
      let system_prompt := JSArg.promise (createNominationsEmailPrompt env.texts category)
      let user_prompt ← retrievePineconeEmbeddings env system_prompt
        (getCategoryNominations env.texts).top_k
      let nominations ← getOpenAIResponse env (getCategoryNominations env.texts).preferred_gpt
        system_prompt (.str user_prompt)
      let parsed_response ← Eff.ofExcept (env.parse nominations)
      let nominations_object := JSON.obj [("nominations", parsed_response)]
      let bd_system_prompt := JSArg.promise (createBusinessDetailsEmailPrompt env.texts)
      let bd_user_prompt ← retrievePineconeEmbeddings env system_prompt
        (getBusinessDetails env.texts).top_k
      let response ← getOpenAIResponse env (getBusinessDetails env.texts).preferred_gpt
        bd_system_prompt (.str bd_user_prompt)
      let bussines_details ← Eff.ofExcept (env.parse response)
      let business_details_object := JSON.obj [("bussines_details", bussines_details)]
      let updatedNominationsJSON ←
        processNominationsJSON env business_details_object nominations_object
      let thankYouNote : JSON ←
        Eff.throw (.error "ReferenceError" "category_nominations is not defined")
      let api_usage ← awaitUsageReport
      let email_data : SavedData :=
        { api_usage := api_usage, id := emailData.id, html := some emailData.html,
          attachments := emailData.attachments,
          email := some (env.stringify (.str emailData.email)),
          emailHeaders := some (env.stringify (.obj
            [("from", headerValue emailData.emailHeaders.sender),
             ("to", headerValue emailData.emailHeaders.recipient),
             ("date", headerValue emailData.emailHeaders.date),
             ("subject", headerValue emailData.emailHeaders.subject)])),
          NominationsJSON := jsonStringify env updatedNominationsJSON,
          ThankYouResponse := jsonStringify env thankYouNote,
          category := jsonStringify env category }
      SaveData env email_data
      awaitReset
      ArchiveEmail env emailData.uid)
    (fun _ => awaitReset)

/-! ## The inbox loop (index.js) -/

/-- The eight handlers of `categoryFunctions`. -/
inductive Handler where
  | answers | nominations | questions | unsubscribe | acknowledgment | confirmation
  | decline | spam_promotion
  deriving DecidableEq, Repr

/-- The own properties of the object `categoryFunctions` (lines 63-72). -/
def categoryFunctions (label : String) : Option Handler :=
  if label = "Answers" then some .answers
  else if label = "Nominations" then some .nominations
  else if label = "Questions" then some .questions
  else if label = "Unsubscribe request" then some .unsubscribe
  else if label = "Acknowledgment" then some .acknowledgment
  else if label = "Confirmation" then some .confirmation
  else if label = "Decline to Participate" then some .decline
  else if label = "Spam or Promotion" then some .spam_promotion
  else none

/-- What `categoryFunctions[label]` finds on `Object.prototype` when `label` is
not an own property, and what calling it as `processFunction(emailData,
email_category)` (with `this` undefined) does: `constructor` and `toString`
return, `__proto__` is not a function, the other members throw on the missing
`this`.  `none` when the prototype has no such member. -/
def inheritedMember (label : String) : Option (Except JSError Unit) :=
  if label = "constructor" ∨ label = "toString" then some (.ok ())
  else if label = "__proto__" then
    some (.error (.error "TypeError" "processFunction is not a function"))
  else if label = "toLocaleString" ∨ label = "valueOf" ∨ label = "hasOwnProperty"
      ∨ label = "isPrototypeOf" ∨ label = "propertyIsEnumerable"
      ∨ label = "__defineGetter__" ∨ label = "__defineSetter__"
      ∨ label = "__lookupGetter__" ∨ label = "__lookupSetter__" then
    some (.error (.error "TypeError" "Cannot convert undefined or null to object"))
  else none

/-- The call of one handler. -/
def runHandler (env : Env) (h : Handler) (emailData : EmailData) (category : JSON) : Eff Unit :=
  match h with
  | .answers => process_answers env emailData category
  | .nominations => process_nominations env emailData category
  | .questions => process_questions env emailData category
  | .unsubscribe => process_unsubscribe env emailData category
  | .acknowledgment => process_acknowledgment env emailData category
  | .confirmation => process_confirmation env emailData category
  | .decline => process_decline env emailData category
  | .spam_promotion => process_spam_promotion env emailData

/-- Function `process_email(emailData, email_category)` (lines 151-167): the
value it resolves to, `undefined` (`none`) after a handler that returned and
the failure text after a throw. -/
def process_email (env : Env) (emailData : EmailData) (email_category : JSON) :
    Eff (Option String) :=
  Eff.tryCatch
    (do
      let category ← Eff.ofExcept (readProp email_category "category")
      let label := category.toStr
      match categoryFunctions label with
      | some h =>
        runHandler env h emailData email_category
        return none
      | none =>
        match inheritedMember label with
        | some outcome =>
          Eff.ofExcept outcome
          return none
        | none => Eff.throw (.error "Error" ("Invalid category: " ++ templateStr category)))
    (fun error => return some ("Processing category failed. Reason: " ++ error.message))

/-- Function `processEmail` (lines 139-140). -/
def processEmail (env : Env) (emailData : EmailData) (email_category : JSON) : Eff Unit :=
  Eff.tryCatch
    (do
      let _ ← process_email env emailData email_category
      return ())
    (fun _ => pure ())

/-- Function `getEmails` (lines 80-84). -/
def getEmails (env : Env) : Eff (List EmailData) :=
  Eff.tryCatch (Eff.call .fetchEmails env.fetchEmails) (fun _ => pure [])

/-- Function `generateEmailEmbeddings` (lines 93-97). -/
def generateEmailEmbeddings (env : Env) (email : String) : Eff Unit :=
  Eff.tryCatch (generatePineconeEmbeddings env email) (fun _ => pure ())

/-- Function `getPromptEmbeddings` (lines 107-111): the retrieved context, or
`null`. -/
def getPromptEmbeddings (env : Env) (systemPrompt : String) (topK : Nat) : Eff JSArg :=
  Eff.tryCatch
    (do
      let content ← retrievePineconeEmbeddings env (.str systemPrompt) topK
      return JSArg.str content)
    (fun _ => pure JSArg.null)

/-- Function `getEmailCategory` (lines 122-128): the parsed decision, or `null`. -/
def getEmailCategory (env : Env) (systemPrompt : String) (userPrompt : JSArg) : Eff JSON :=
  Eff.tryCatch
    (do
      let response ← getOpenAIResponse env models_gpt4 (.str systemPrompt) userPrompt
      Eff.ofExcept (env.parse response))
    (fun _ => pure JSON.null)

/-- The `for` loop of `checkInbox` (lines 29-50). -/
def inboxLoop (env : Env) : List EmailData → Eff Unit
  | [] => pure ()
  | emailData :: rest => do
    let seen ← Eff.call (.idExists emailData.id) (fun trace => env.idExists trace emailData.id)
    if seen then inboxLoop env rest
    else
      let categorizeEmailPrompt := getCategorizeEmailPrompt env.texts
      let systemPrompt := "INSTRUCTIONS: " ++ categorizeEmailPrompt.instructions ++ "\nJSON: "
        ++ optStr categorizeEmailPrompt.json
      generateEmailEmbeddings env emailData.email
      let userPrompt ← getPromptEmbeddings env systemPrompt categorizeEmailPrompt.top_k
      let emailCategory ← getEmailCategory env systemPrompt userPrompt
      if emailCategory.truthy then processEmail env emailData emailCategory
      inboxLoop env rest

/-- Function `checkInbox()` (lines 25-54). -/
def checkInbox (env : Env) : Eff Unit :=
  Eff.tryCatch
    (do
      let emails ← getEmails env
      inboxLoop env emails)
    (fun _ => pure ())

/-! ## String methods used by the article generator -/

/-- The white space and line terminator characters of ECMAScript (what `trim`
removes and the class `\s` matches). -/
def isJSWhitespace (c : Char) : Bool :=
  let n := c.toNat
  (9 ≤ n && n ≤ 13) || n == 32 || n == 160 || n == 5760 || (8192 ≤ n && n ≤ 8202)
    || n == 8232 || n == 8233 || n == 8239 || n == 8287 || n == 12288 || n == 65279

/-- The test `s.trim() !== ""`. -/
def notBlank (s : String) : Bool := !(s.toList.all isJSWhitespace)

/-- The class `\w` of a regular expression without the `u` flag. -/
def isWordChar (c : Char) : Bool := c.isAlphanum || c == '_'

/-- Removal of the first occurrence of `pattern` from a list of characters. -/
def dropFirstOccurrence (pattern : List Char) : List Char → List Char
  | [] => []
  | c :: rest =>
    if pattern.isPrefixOf (c :: rest) then (c :: rest).drop pattern.length
    else c :: dropFirstOccurrence pattern rest

/-- The call `s.replace(pattern, "")` with a string pattern: only the first
occurrence is removed. -/
def removeFirst (s pattern : String) : String :=
  String.mk (dropFirstOccurrence pattern.toList s.toList)

/-- The call `s.slice(0, -1)`. -/
def dropLastChar (s : String) : String := String.mk s.toList.dropLast

/-- The receiver of a call of `replace` or `trim`: only a string has these
methods. -/
def asString (x : JSON) (method : String) : Except JSError String :=
  match x with
  | .str s => .ok s
  | .undefined =>
    .error (.error "TypeError" ("Cannot read properties of undefined (reading '" ++ method ++ "')"))
  | .null =>
    .error (.error "TypeError" ("Cannot read properties of null (reading '" ++ method ++ "')"))
  | _ => .error (.error "TypeError" (method ++ " is not a function"))

/-- The call `x.includes(part)`: defined on strings and on arrays. -/
def jsIncludes (x : JSON) (part : String) : Except JSError Bool :=
  match x with
  | .str s => .ok (includes s part)
  | .arr items => .ok (items.contains (.str part))
  | .undefined =>
    .error (.error "TypeError" "Cannot read properties of undefined (reading 'includes')")
  | .null => .error (.error "TypeError" "Cannot read properties of null (reading 'includes')")
  | _ => .error (.error "TypeError" "includes is not a function")

/-- The elements `x[0]`, ..., `x[x.length - 1]` visited by a `for` loop over
`x.length`.  A value without `length` gives no iteration.  (An object with a
field named `length` is not a merged record and is not modelled.) -/
def indexedItems (x : JSON) : Except JSError (List JSON) :=
  match x with
  | .undefined =>
    .error (.error "TypeError" "Cannot read properties of undefined (reading 'length')")
  | .null => .error (.error "TypeError" "Cannot read properties of null (reading 'length')")
  | .arr items => .ok items
  | .str s => .ok (s.toList.map (fun c => JSON.str (String.singleton c)))
  | _ => .ok []

/-- The value of a `try` block that returns `fallback` from its `catch`. -/
def orCatch {α : Type} (attempt : Except JSError α) (fallback : α) : α :=
  match attempt with
  | .ok value => value
  | .error _ => fallback

/-! ## `generateArticle` (article_generator.js) -/

/-- Closure `business_hyperlink` (lines 5-21).  The `catch` block reads
`details.businessName` again, so it throws again when `details` is `undefined`
or `null`. -/
def business_hyperlink (details : JSON) : Except JSError JSON :=
  let attempt : Except JSError JSON := do
    let link (site : String) : Except JSError (Option JSON) := do
      let url ← readProp details site
      if url.truthy then
        let businessName ← readProp details "businessName"
        if businessName.truthy then
          return some (.str ("<a href=\"" ++ url.toStr ++ "\">" ++ businessName.toStr ++ "</a>"))
        else return none
      else return none
    match ← link "website" with
    | some anchor => return anchor
    | none =>
      match ← link "facebook" with
      | some anchor => return anchor
      | none =>
        match ← link "instagram" with
        | some anchor => return anchor
        | none =>
          match ← link "twitter" with
          | some anchor => return anchor
          | none => readProp details "businessName"
  match attempt with
  | .ok value => .ok value
  | .error _ => do
    let businessName ← readProp details "businessName"
    if businessName.truthy then return businessName else return .str ""

/-- The object returned by `number_of_answers`. -/
structure AnswerCount where
  num : JSON
  word : JSON

/-- The test `e.QA[i].a.trim() !== ""`. -/
def answerIsFilled (qa : JSON) : Except JSError Bool := do
  let a ← readProp qa "a"
  let text ← asString a "trim"
  return notBlank text

/-- Closure `number_of_answers` (lines 23-36). -/
def number_of_answers (e : JSON) : AnswerCount :=
  let attempt : Except JSError AnswerCount := do
    let QA ← readProp e "QA"
    let items ← indexedItems QA
    let filled ← items.mapM answerIsFilled
    let count := (filled.filter id).length
    let countWord : JSON :=
      if count = 4 then .str "Four" else if count = 3 then .str "Three" else .undefined
    return { num := .num count, word := countWord }
  orCatch attempt { num := .str "__UNKNOWN__", word := .str "__UNKNOWN__" }

/-- Closure `senderTitle` (lines 38-45). -/
def senderTitle (details : JSON) : JSON :=
  orCatch
    (do
      let title ← readProp details "senderTitle"
      if title.truthy then return title else return .str "Founder")
    (.str "Founder")

/-- Closure `businessOwner(team)` (lines 47-55); it always returns a string. -/
def businessOwner (details : JSON) (team : Bool) : String :=
  orCatch
    (do
      let senderName ← readProp details "senderName"
      if senderName.truthy then return senderName.toStr ++ ","
      else if team then
        let businessName ← readProp details "businessName"
        return businessName.toStr ++ " team"
      else return "")
    ""

/-- One iteration of the loop of `nominations` (lines 65-71): the texts pushed
to `nominationLinks` for the nomination `e.nominations[i]`. -/
def nominationLinkTexts (nomination : JSON) : Except JSError (List String) := do
  let link ← readProp nomination "nominated_business_link"
  let hasHttp ← jsIncludes link "http"
  let name ← readProp nomination "nominated_business_name"
  let location ← readProp nomination "nominated_business_location"
  if !name.truthy then return []
  else if hasHttp then
    return ["<a href=\"" ++ link.toStr ++ "\" target=\"_blank\">" ++ name.toStr ++ "</a> in "
      ++ location.toStr]
  else return [name.toStr ++ " in " ++ location.toStr]

/-- An element of an array of strings inside a template literal (`undefined`
when the index is out of range). -/
def elementStr (texts : List String) (i : Nat) : String :=
  match texts.get? i with
  | some text => text
  | none => "undefined"

/-- Closure `nominations` (lines 57-87). -/
def nominations (e details : JSON) : String :=
  orCatch
    (do
      let container ← readProp e "nominations"
      let keys ← objectKeys container
      let numberOfNominations := keys.length
      if numberOfNominations = 0 then return ""
      else
        let pushed ← (List.range numberOfNominations).mapM (fun i => do
          let nomination ← readProp container (toString i)
          nominationLinkTexts nomination)
        let nominationLinks := pushed.flatten
        let owner := dropLastChar (businessOwner details true)
        if numberOfNominations = 1 then
          return "<p>" ++ owner ++ " would like to nominate " ++ elementStr nominationLinks 0
            ++ " to be featured next!</p>"
        else
          let lastNomination :=
            match nominationLinks.getLast? with
            | some text => text
            | none => "undefined"
          return "<p>" ++ owner ++ " would like to nominate "
            ++ ", ".intercalate nominationLinks.dropLast ++ ", and " ++ lastNomination
            ++ " to be featured next!</p>")
    ""

/-- Closure `location` (lines 89-99). -/
def location (details : JSON) : String :=
  orCatch
    (do
      let address ← readProp details "address"
      if address.truthy then
        let anchor ← business_hyperlink details
        return anchor.toStr ++ " is located at " ++ address.toStr ++ ". "
      else
        let town ← readProp details "town"
        if town.truthy then
          let anchor ← business_hyperlink details
          return anchor.toStr ++ " is located at " ++ town.toStr ++ ". "
        else return "")
    ""

/-- Closure `visit_url` (lines 101-108). -/
def visit_url (details : JSON) : String :=
  orCatch
    (do
      let website ← readProp details "website"
      if website.truthy then
        let anchor ← business_hyperlink details
        return "Visit&nbsp;" ++ anchor.toStr ++ "&nbsp;online&nbsp;<a href=\"" ++ website.toStr
          ++ "\">here</a>."
      else return "")
    ""

/-- Closure `socialMediaLinks` (lines 110-139). -/
def socialMediaLinks (details : JSON) : String :=
  orCatch
    (do
      let facebook ← readProp details "facebook"
      let twitter ← readProp details "twitter"
      let instagram ← readProp details "instagram"
      let linkedin ← readProp details "linkedin"
      let socialMedia : List (String × JSON) :=
        [("Facebook", facebook), ("Twitter", twitter), ("Instagram", instagram),
         ("LinkedIn", linkedin)]
      let validLinks ← socialMedia.filterMapM (fun media => do
        let text ← asString media.2 "trim"
        if notBlank text then return some (media.1, text) else return none)
      let formattedLinks := validLinks.map (fun media =>
        "<a href=\"" ++ media.2 ++ "\" target=\"_blank\">" ++ media.1 ++ "</a>")
      match formattedLinks with
      | [] => return ""
      | [only] => return "Make sure to check out their&nbsp;" ++ only ++ "&nbsp;page as well!</p>"
      | _ =>
        let lastLink := elementStr formattedLinks (formattedLinks.length - 1)
        return "Make sure to check out their&nbsp;" ++ ", ".intercalate formattedLinks.dropLast
          ++ ", and " ++ lastLink ++ "&nbsp;pages as well!</p>")
    ""

/-- Closure `phoneNumber` (lines 141-147): nothing is returned when the record
has no phone number, so the value is `undefined`. -/
def phoneNumber (details : JSON) : JSON :=
  orCatch
    (do
      let phone ← readProp details "phoneNumber"
      if phone.truthy then
        let anchor ← business_hyperlink details
        return JSON.str ("Give " ++ anchor.toStr ++ "&nbsp;a call at&nbsp;" ++ phone.toStr
          ++ "</a>.")
      else return JSON.undefined)
    (.str "")

/-- Closure `hashtagTown` (lines 149-160). -/
def hashtagTown (details : JSON) : String :=
  orCatch
    (do
      let town ← readProp details "town"
      if town.truthy then
        let text ← asString town "replace"
        let hashtag := String.mk (text.toList.filter Char.isAlphanum)
        return "#" ++ hashtag.map Char.toLower
      else return "")
    ""

/-- The two statements that turn a business name into a hashtag (lines 169-171
and 175-177): characters other than word characters and white space are
removed, then white space is removed, and the rest is put in lower case. -/
def businessHashtag (businessName : JSON) : Except JSError String := do
  let text ← asString businessName "replace"
  let kept := text.toList.filter (fun c => isWordChar c || isJSWhitespace c)
  let joined := kept.filter (fun c => !isJSWhitespace c)
  return "#" ++ (String.mk joined).map Char.toLower

/-- Closure `hashtagBusiness` (lines 162-181).  Nothing is returned when the
record has neither a twitter link nor a business name; the `catch` block can
throw again. -/
def hashtagBusiness (details : JSON) : Except JSError JSON :=
  let attempt : Except JSError JSON := do
    let twitter ← readProp details "twitter"
    if twitter.truthy then
      let text ← asString twitter "replace"
      let twitterHandle := removeFirst (removeFirst text "https://www.twitter.com/")
        "https://twitter.com/"
      -- the class of the third `replace`: full stop, comma, apostrophe, double quote
      let twitterHandle := String.mk (twitterHandle.toList.filter
        (fun c => !(c.toNat == 46 || c.toNat == 44 || c.toNat == 39 || c.toNat == 34)))
      return .str ("@" ++ twitterHandle)
    else
      let businessName ← readProp details "businessName"
      if businessName.truthy then
        let hashtag ← businessHashtag businessName
        return .str hashtag
      else return .undefined
  match attempt with
  | .ok value => .ok value
  | .error _ => do
    let businessName ← readProp details "businessName"
    if businessName.truthy then
      let hashtag ← businessHashtag businessName
      return .str hashtag
    else return .str ""

/-- The comparison `x == "Female"` (loose equality with a string). -/
def looselyFemale (x : JSON) : Bool :=
  match x with
  | .str s => s == "Female"
  | .arr items => JSON.joinItems "," items == "Female"
  | _ => false

/-- Closure `hashtagFemaleFounder` (lines 183-191). -/
def hashtagFemaleFounder (details : JSON) : String :=
  orCatch
    (do
      let senderGender ← readProp details "senderGender"
      if looselyFemale senderGender then return " #femalefounder " else return "")
    ""

/-- Closure `_answers` (lines 202-210); it is not guarded by a `try`. -/
def answersHtml (e : JSON) : Except JSError String := do
  let QA ← readProp e "QA"
  let items ← indexedItems QA
  let parts ← items.mapM (fun qa => do
    let filled ← answerIsFilled qa
    if filled then
      let q ← readProp qa "q"
      let a ← readProp qa "a"
      return "<p><strong>" ++ q.toStr ++ "</strong></p>\n        <p>" ++ a.toStr ++ "</p>"
    else return "")
  return concatAll parts

/-- Function `generateArticle(e)` (lines 1-223).  The value is the article, or
the error the promise rejects with.  `JSON.stringify` is taken from `env`. -/
def generateArticle (env : Env) (e : JSON) : Except JSError String := do
  let details ← readProp e "bussines_details"
  -- line 193
  let town ← readProp details "town"
  let townText ← asString town "replace"
  let businessName ← readProp details "businessName"
  let _title := "Why Small Businesses Matter in " ++ removeFirst townText ", CT" ++ ": "
    ++ businessName.toStr
  -- lines 195-200
  let anchor ← business_hyperlink details
  let word := (number_of_answers e).word
  let owner := businessOwner details false
  let title := senderTitle details
  let anchorAgain ← business_hyperlink details
  let _intro := "<div id=\"article-content\">\n<h2>Why Small Businesses Matter</h2>\n"
    ++ "<p><em>Shop small, do big things for your community</em></p>\n"
    ++ "<p>Why Small Businesses Matter puts a spotlight on the local merchants who donate their time, talent, goods, and services for the betterment of our community. The shop local movement spreads virally as local businesses who are “tagged” have the opportunity to share their story!</p>\n"
    ++ "<p><strong>You're IT&nbsp;" ++ anchor.toStr ++ "!</strong></p>\n"
    ++ "<p>" ++ word.toStr ++ " questions with&nbsp;" ++ owner ++ " " ++ title.toStr
    ++ " of&nbsp;" ++ anchorAgain.toStr ++ ".</p>"
  -- lines 212-214
  let _conclusion := nominations e details ++ "\n  <p>" ++ location details ++ visit_url details
    ++ " " ++ socialMediaLinks details ++ " " ++ (phoneNumber details).toStr ++ "</p>\n"
    ++ "  <p><strong>HamletHub thanks <a href=\"https://www.fairfieldcountybank.com/\">Fairfield County Bank&nbsp;</a>for making our Why Small Businesses Matter series possible!</strong></p> </div>"
  -- lines 216-218
  let business ← hashtagBusiness details
  let QA_keywords ← readProp e "QA_keywords"
  let _meta_description := "#whysmallbusinessesmatter in " ++ hashtagTown details
    ++ " made possible by #FairfieldCountyBank " ++ (number_of_answers e).num.toStr
    ++ " questions with " ++ business.toStr ++ " " ++ optStr (jsonStringify env QA_keywords)
    ++ " " ++ hashtagFemaleFounder details ++ "#shoplocal #smallbusiness"
  -- line 220
  let answers ← answersHtml e
  let completeArticle := _title ++ "\n\n" ++ _intro ++ "\n\n" ++ answers ++ "\n\n" ++ _conclusion
    ++ "\n\n" ++ _meta_description
  -- line 222
  return removeFirst completeArticle "undefined"

/-! ## Properties of computations -/

/-- Whenever the computation returns, every numeric field of the ledger is 0. -/
def ZeroOnReturn {α : Type} (m : Eff α) : Prop :=
  ∀ w a w', m w = (.ok a, w') → ledgerZero w'.track_token_usage = true

/-- However the computation ends, every numeric field of the ledger is 0. -/
def ZeroAtEnd {α : Type} (m : Eff α) : Prop :=
  ∀ w, ledgerZero (m w).2.track_token_usage = true

/-- The data of the `saveData` events of a trace, in order. -/
def savedBundles : List Event → List SavedData
  | [] => []
  | .saveData data :: rest => data :: savedBundles rest
  | _ :: rest => savedBundles rest

/-! ## A sample environment -/

/-- The event is an `ID_Exists` call. -/
def isIdCheck : Event → Bool
  | .idExists _ => true
  | _ => false

/-- The event is a chat completion request. -/
def isChatCall : Event → Bool
  | .createChatCompletion _ _ _ => true
  | _ => false

/-- The id of the email under examination: the argument of the last `ID_Exists`
call of the trace. -/
def currentEmail (trace : List Event) : String :=
  match trace.reverse.find? isIdCheck with
  | some (.idExists id) => id
  | _ => ""

/-- Number of chat completions requested since the last `ID_Exists` call. -/
def chatCallsSince (trace : List Event) : Nat :=
  ((trace.reverse.takeWhile (fun e => !isIdCheck e)).filter isChatCall).length

/-- Sample prompt texts (short stand-ins for the texts of prompts.js). -/
def sampleTexts : PromptTexts :=
  { qa_request := "request", questions_json := "qa", generate_keywords := "keywords",
    keywords_template := "# # # # # #", ai_email_generator_instructions := "write an email",
    ai_email_generator_JSON := "subject and message", categorize_instructions := "categorize",
    categorize_json := "category and explanation", business_details_instructions := "details",
    business_details_json := "details json", business_details_json_minified := "details min",
    nominations_instructions := "nominations", nominations_json := "nominations json",
    decline_instructions := "decline", unsubscribe_instructions := "unsubscribe",
    confirmation_instructions := "confirmation", acknowledgment_instructions := "acknowledgment",
    question_instructions := "question", category_nominations_instructions := "nominations",
    category_nominations_json := "nominations json" }

/-- A sample environment in which every collaborator succeeds.  The mailbox
holds `emails`, none of them processed before.  The first completion requested
for an email is its classification: `Spam or Promotion` for the email with id
`spam-1`, `Questions` for any other; a later completion is a reply.  Every
completion reports 100 prompt tokens and 10 completion tokens, and the
tokenizer counts 10 tokens for every text. -/
def sampleEnv (emails : List EmailData) : Env :=
  { texts := sampleTexts
    generateArticle := fun _ => .ok "article"
    matchUrls := fun _ => none
    cleanUrl := fun url => url
    encode := fun prompt =>
      match prompt with
      | .str _ => .ok (List.replicate 10 0)
      | _ => .error (.error "TypeError" "text.matchAll is not a function")
    parse := fun text =>
      if text = "SPAM" then
        .ok (.obj [("category", .str "Spam or Promotion"), ("explanation", .str "an offer")])
      else if text = "QUESTIONS" then
        .ok (.obj [("category", .str "Questions"), ("explanation", .str "asks a question")])
      else if text = "REPLY" then
        .ok (.obj [("subject", .str "Re: your question"), ("message", .str "Thank you")])
      else .error (.error "SyntaxError" "Unexpected token")
    stringify := fun _ => "json"
    createChatCompletion := fun trace _ _ _ =>
      if chatCallsSince trace = 0 then
        .ok { content := if currentEmail trace = "spam-1" then "SPAM" else "QUESTIONS",
              prompt_tokens := 100, completion_tokens := 10 }
      else .ok { content := "REPLY", prompt_tokens := 100, completion_tokens := 10 }
    createEmbedding := fun _ _ _ => .ok [{ embedding := [1, 2, 3] }]
    pineconeDeleteAll := fun _ => .ok ()
    pineconeQuery := fun _ _ _ => .ok ["context"]
    runAgent := fun _ _ => .ok (some "no data")
    idExists := fun _ _ => .ok false
    saveData := fun _ _ => .ok ()
    archiveEmail := fun _ _ => .ok ()
    fetchEmails := fun _ => .ok emails }

/-- A copy of the sample environment whose chat endpoint always fails. -/
def failingChatEnv : Env :=
  { sampleEnv [] with
    createChatCompletion := fun _ _ _ _ => .error (.error "Error" "Request failed with status code 429") }

/-- A copy of the sample environment whose chat endpoint fails until two
completions have been requested. -/
def flakyChatEnv : Env :=
  { sampleEnv [] with
    createChatCompletion := fun trace _ _ _ =>
      if (trace.filter isChatCall).length < 2
      then .error (.error "Error" "Request failed with status code 503")
      else .ok { content := "REPLY", prompt_tokens := 100, completion_tokens := 10 } }

def spamMail : EmailData :=
  { id := "spam-1", html := "<p>offer</p>", email := "Buy now",
    emailHeaders := { sender := some "a@x.org", recipient := some "dan@hamlethub.com",
                      date := none, subject := some "Offer" },
    attachments := [], uid := 11 }

def questionMail : EmailData :=
  { id := "question-2", html := "<p>when?</p>", email := "When is the interview?",
    emailHeaders := { sender := some "b@y.org", recipient := some "dan@hamlethub.com",
                      date := none, subject := some "Question" },
    attachments := [], uid := 12 }

/-- The state of a fresh process. -/
def initialWorld : World := { track_token_usage := track_token_usage_init, trace := [] }

/-! ## Further sample environments and records -/

/-- The sample environment with every email already stored. -/
def processedEnv (emails : List EmailData) : Env :=
  { sampleEnv emails with idExists := fun _ _ => .ok true }

/-- The sample environment in which `ID_Exists` rejects for the email with id
`spam-1` (as it does when the directory for the id cannot be prepared). -/
def brokenStoreEnv (emails : List EmailData) : Env :=
  { sampleEnv emails with
    idExists := fun _ id =>
      if id = "spam-1" then
        .error (.error "Error" "Error preparing directory for email ID spam-1")
      else .ok false }

/-- Sample business details as the model returns them. -/
def sampleDetails : JSON :=
  .obj [("senderName", .str "Ann Lee"), ("senderGender", .str "Female"),
        ("senderTitle", .str "Owner"), ("businessName", .str "Ann's Bakery"),
        ("address", .str "1 Main Street"), ("town", .str "Ridgefield, CT"),
        ("phoneNumber", .str ""), ("website", .str "https://annsbakery.example"),
        ("facebook", .str ""), ("twitter", .str ""), ("instagram", .str ""),
        ("linkedin", .str "")]

/-- The sample environment with a model that answers every request with the
sample business details, and an agent whose call has the given outcome. -/
def detailsEnv (agent : Except JSError (Option String)) : Env :=
  { sampleEnv [] with
    createChatCompletion := fun _ _ _ _ =>
      .ok { content := "DETAILS", prompt_tokens := 100, completion_tokens := 10 }
    parse := fun text =>
      if text = "DETAILS" then .ok sampleDetails
      else .error (.error "SyntaxError" "Unexpected token")
    runAgent := fun _ _ => agent }

/-- A merged record as `process_answers` builds it: four answers, the sample
business details (no phone number) and a nominations response whose only slot
is empty. -/
def sampleRecord : JSON :=
  .obj [("QA", .arr
          [.obj [("q", .str "Why did you start your business?"), ("a", .str "To bake.")],
           .obj [("q", .str "What is your best-selling product/service?"), ("a", .str "Bread.")],
           .obj [("q", .str "How many local businesses do you use to support your business (products and services) and can you name them?"),
                 ("a", .str "Two: Mill Farm and Oak Dairy.")],
           .obj [("q", .str "Have you 'reimagined' your small business?"),
                 ("a", .str "Yes, we deliver now.")]]),
        ("original_message", .arr [.obj [("From", .str "ann@annsbakery.example"),
          ("To", .str "dan@hamlethub.com"), ("Subject", .str "Answers"), ("Date", .null)]]),
        ("QA_keywords", .str "#bakery #bread"),
        ("bussines_details", sampleDetails),
        ("nominations", .obj [("0", .obj
          [("nominated_business_name", .str ""), ("nominated_business_location", .str ""),
           ("nominated_business_person", .str ""), ("nominated_business_link", .str ""),
           ("email_template", .str "")])])]

/-! ## The steps of the handlers before persistence -/

/-- The event is a call of the model or embedding endpoint, a query of the
vector index, or a timer. -/
def isModelOrRetrievalEvent : Event → Bool
  | .createChatCompletion _ _ _ => true
  | .createEmbedding _ _ => true
  | .pineconeQuery _ => true
  | .wait _ => true
  | _ => false

/-- Every event that the computation adds to the trace satisfies `P`, and the
computation only adds to the trace. -/
def Emits (P : Event → Bool) {α : Type} (m : Eff α) : Prop :=
  ∀ w, ∃ evs, (m w).2.trace = w.trace ++ evs ∧ ∀ ev ∈ evs, P ev = true

/-- The statements of a reply handler up to the parsed reply (prompt
construction, retrieval, model call, parse, and the reads of `subject` and
`message`): the part of `process_reply` before the usage report. -/
def replySteps (env : Env) (prompt : CategoryPrompt) (category : JSON) : Eff (JSON × JSON) := do
  let system_prompt ← Eff.ofExcept (createEmailPrompt env.texts prompt category)
  let user_prompt ← retrievePineconeEmbeddings env (.str system_prompt) prompt.top_k
  let response ← getOpenAIResponse env prompt.preferred_gpt (.str system_prompt)
    (.str user_prompt)
  let parsedResponse ← Eff.ofExcept (env.parse response)
  let subject ← Eff.ofExcept (readProp parsedResponse "subject")
  let message ← Eff.ofExcept (readProp parsedResponse "message")
  return (subject, message)

/-- The statements of `process_nominations` up to the two parsed responses
(lines 53-70): the pair of `nominations_object` and `business_details_object`. -/
def nominationSteps (env : Env) (category : JSON) : Eff (JSON × JSON) := do
  let system_prompt := JSArg.promise (createNominationsEmailPrompt env.texts category)
  let user_prompt ← retrievePineconeEmbeddings env system_prompt
    (getCategoryNominations env.texts).top_k
  let nominations ← getOpenAIResponse env (getCategoryNominations env.texts).preferred_gpt
    system_prompt (.str user_prompt)
  let parsed_response ← Eff.ofExcept (env.parse nominations)
  let nominations_object := JSON.obj [("nominations", parsed_response)]
  let bd_system_prompt := JSArg.promise (createBusinessDetailsEmailPrompt env.texts)
  let bd_user_prompt ← retrievePineconeEmbeddings env system_prompt
    (getBusinessDetails env.texts).top_k
  let response ← getOpenAIResponse env (getBusinessDetails env.texts).preferred_gpt
    bd_system_prompt (.str bd_user_prompt)
  let bussines_details ← Eff.ofExcept (env.parse response)
  let business_details_object := JSON.obj [("bussines_details", bussines_details)]
  return (nominations_object, business_details_object)

/-- The sample environment with a vector index whose query fails. -/
def retrievalDownEnv : Env :=
  { sampleEnv [] with
    pineconeQuery := fun _ _ _ => .error (.error "Error" "PineconeError: index unavailable") }

/-- The statements of `process_reply` after the parsed reply: the usage report,
`SaveData`, the reset of the ledger and `ArchiveEmail`. -/
def replyPersist (env : Env) (layout : String → String → String) (emailData : EmailData)
    (category : JSON) (reply : JSON × JSON) : Eff Unit := do
  let generated_response := layout (templateStr reply.1) (templateStr reply.2)
  let api_usage ← awaitUsageReport
  let email_data : SavedData :=
    { api_usage := api_usage, id := emailData.id, html := some emailData.html,
      attachments := emailData.attachments, email := some emailData.email,
      generated_response := some generated_response,
      category := jsonStringify env category }
  SaveData env email_data
  awaitReset
  ArchiveEmail env emailData.uid

/-- The statements of `process_nominations` after the two parsed responses
(lines 72-101): the enrichment, the thank-you note, the usage report,
`SaveData`, the reset of the ledger and `ArchiveEmail`. -/
def nominationPersist (env : Env) (emailData : EmailData) (category : JSON)
    (objects : JSON × JSON) : Eff Unit := do
  let updatedNominationsJSON ← processNominationsJSON env objects.2 objects.1
  let thankYouNote : JSON ←
    Eff.throw (.error "ReferenceError" "category_nominations is not defined")
  let api_usage ← awaitUsageReport
  let email_data : SavedData :=
    { api_usage := api_usage, id := emailData.id, html := some emailData.html,
      attachments := emailData.attachments,
      email := some (env.stringify (.str emailData.email)),
      emailHeaders := some (env.stringify (.obj
        [("from", headerValue emailData.emailHeaders.sender),
         ("to", headerValue emailData.emailHeaders.recipient),
         ("date", headerValue emailData.emailHeaders.date),
         ("subject", headerValue emailData.emailHeaders.subject)])),
      NominationsJSON := jsonStringify env updatedNominationsJSON,
      ThankYouResponse := jsonStringify env thankYouNote,
      category := jsonStringify env category }
  SaveData env email_data
  awaitReset
  ArchiveEmail env emailData.uid

/-- The statements of a handler before the usage report and persistence, for
the six handlers that generate a reply. -/
def stepsBeforePersistence (env : Env) (h : Handler) (category : JSON) :
    Option (Eff (JSON × JSON)) :=
  match h with
  | .nominations => some (nominationSteps env category)
  | .questions => some (replySteps env (getCategoryQuestion env.texts) category)
  | .unsubscribe => some (replySteps env (getCategoryUnsubscribe env.texts) category)
  | .acknowledgment => some (replySteps env (getCategoryAcknowledgment env.texts) category)
  | .confirmation => some (replySteps env (getCategoryConfirmation env.texts) category)
  | .decline => some (replySteps env (getCategoryDecline env.texts) category)
  | _ => none

/-- The category object of an email classified as a question. -/
def questionCategory : JSON :=
  .obj [("category", .str "Questions"), ("explanation", .str "The sender asks a question.")]

/-- The category object of an email classified as a nomination. -/
def nominationCategory : JSON :=
  .obj [("category", .str "Nominations"), ("explanation", .str "The sender nominates a business.")]

/-! ## The per-question outcomes of the Answers extraction -/

deriving instance DecidableEq for PromptObject

/-- The answer to one question: the model call on its prompts, the parse of
the response, and the pause after it (the statements inside the inner `try` of
`get_QAObject`, lines 228-236, with the parsed response as their value). -/
def answerQuestion (env : Env) (promptObject : PromptObject) : Eff JSON := do
  let response ← getOpenAIResponse env promptObject.preferred_gpt
    (.str promptObject.system_prompt) (.str promptObject.user_prompt)
  let parsedResponse ← Eff.ofExcept (env.parse response)
  delay 500
  return parsedResponse

/-- Following the words of the specification: the outcome for one question is
its parsed answer, or nothing when its model call or the parse of the response
failed (the failure is logged and the question skipped). -/
def questionOutcome (env : Env) (promptObject : PromptObject) : Eff (Option JSON) :=
  Eff.tryCatch
    (do
      let answer ← answerQuestion env promptObject
      return some answer)
    (fun _ => pure none)

/-- Following the words of the specification: the outcomes for the questions,
one after the other in question order. -/
def questionOutcomes (env : Env) : List PromptObject → Eff (List (Option JSON))
  | [] => pure []
  | promptObject :: rest => do
    let outcome ← questionOutcome env promptObject
    let outcomes ← questionOutcomes env rest
    return outcome :: outcomes

/-- The event is a query of the vector index. -/
def isIndexQuery : Event → Bool
  | .pineconeQuery _ => true
  | _ => false

/-- The sample environment with a vector index that fails on its third query
only, a model that answers every request with `ANSWER`, and a parser that
knows that text. -/
def thirdRetrievalDownEnv : Env :=
  { sampleEnv [] with
    pineconeQuery := fun trace _ _ =>
      if (trace.filter isIndexQuery).length = 2 then
        .error (.error "Error" "PineconeError: index unavailable")
      else .ok ["context"]
    createChatCompletion := fun _ _ _ _ =>
      .ok { content := "ANSWER", prompt_tokens := 100, completion_tokens := 10 }
    parse := fun text =>
      if text = "ANSWER" then .ok (.obj [("q", .str "question"), ("a", .str "answer")])
      else .error (.error "SyntaxError" "Unexpected token") }

/-- The sample environment with a model whose second completion cannot be
parsed; the other completions are `ANSWER`. -/
def garbledAnswerEnv : Env :=
  { sampleEnv [] with
    createChatCompletion := fun trace _ _ _ =>
      .ok { content := if (trace.filter isChatCall).length = 1 then "garbled" else "ANSWER",
            prompt_tokens := 100, completion_tokens := 10 }
    parse := fun text =>
      if text = "ANSWER" then .ok (.obj [("q", .str "question"), ("a", .str "answer")])
      else .error (.error "SyntaxError" "Unexpected token") }

/-- The prompt objects that `createPromptStrings` resolves to in the sample
environments: one per question, each with the serialised retrieved text. -/
def samplePromptObjects : List PromptObject :=
  questions.map (fun question =>
    { system_prompt := "REQUEST: " ++ sampleTexts.qa_request ++ "\nINSTRUCTIONS: "
        ++ qa_instructions question ++ "\nJSON:" ++ sampleTexts.questions_json,
      user_prompt := "json",
      preferred_gpt := models_gpt4 })

/-! ## The nominations response of the Answers handler -/

/-- The statements of `get_Nominations` up to the parsed response (lines
110-121): the retrieval, the model call and the parse. -/
def nominationsResponse (env : Env) : Eff JSON := do
  let nominations := getNominations env.texts
  let system_prompt := "INSTRUCTIONS: " ++ nominations.instructions ++ "\nJSON: "
    ++ optStr nominations.json
  let user_prompt ← retrievePineconeEmbeddings env (.str system_prompt) nominations.top_k
  let response ← getOpenAIResponse env nominations.preferred_gpt (.str system_prompt)
    (.str user_prompt)
  Eff.ofExcept (env.parse response)

/-- The computation resolves in every world: it never throws. -/
def NeverThrows {α : Type} (m : Eff α) : Prop :=
  ∀ w, ∃ a, (m w).1 = .ok a

/-- A nominee slot with the given name and every other field empty. -/
def nomineeSlot (name : String) : JSON :=
  .obj [("nominated_business_name", .str name), ("nominated_business_location", .str ""),
        ("nominated_business_person", .str ""), ("nominated_business_link", .str ""),
        ("email_template", .str "")]

/-- The sample environment with a model that answers every request with
`NOMINATIONS`, parsed as the given response. -/
def nominationsEnv (parsed : JSON) : Env :=
  { sampleEnv [] with
    createChatCompletion := fun _ _ _ _ =>
      .ok { content := "NOMINATIONS", prompt_tokens := 100, completion_tokens := 10 }
    parse := fun text =>
      if text = "NOMINATIONS" then .ok parsed
      else .error (.error "SyntaxError" "Unexpected token") }

/-- A parsed response whose slot `0` is empty and whose slot `1` names a
business. -/
def secondSlotResponse : JSON :=
  .obj [("0", nomineeSlot ""), ("1", nomineeSlot "Oak Dairy")]

/-- A parsed response whose slot `0` names a business. -/
def firstSlotResponse : JSON :=
  .obj [("0", nomineeSlot "Mill Farm"), ("1", nomineeSlot "")]

/-- The event is a call of the external agent. -/
def isAgentCall : Event → Bool
  | .runAgent _ => true
  | _ => false

/-! ## Sample records for the article generator -/

/-- The fields of business details with every optional field missing: only the
business name and the town are present. -/
def bareDetailFields : List (String × JSON) :=
  [("businessName", .str "Ann's Bakery"), ("town", .str "Ridgefield, CT")]

/-- Business details with every optional field missing. -/
def bareDetails : JSON := .obj bareDetailFields

/-- Four question-and-answer entries, every answer filled. -/
def fourAnswers : JSON :=
  .arr [.obj [("q", .str "Why did you start your business?"), ("a", .str "To bake.")],
        .obj [("q", .str "What is your best-selling product/service?"), ("a", .str "Bread.")],
        .obj [("q", .str "How many local businesses do you use to support your business (products and services) and can you name them?"),
              ("a", .str "Two: Mill Farm and Oak Dairy.")],
        .obj [("q", .str "Have you 'reimagined' your small business?"),
              ("a", .str "Yes, we deliver now.")]]

/-- A merged record with the given answers, business details and nominations
response. -/
def recordWith (QA details slots : JSON) : JSON :=
  .obj [("QA", QA),
        ("original_message", .arr [.obj [("From", .str "ann@annsbakery.example"),
          ("To", .str "dan@hamlethub.com"), ("Subject", .str "Answers"), ("Date", .null)]]),
        ("QA_keywords", .str "#bakery #bread"),
        ("bussines_details", details),
        ("nominations", slots)]

/-- A merged record whose business details miss every optional field, with
four answers and a nominations response whose only slot is empty. -/
def bareRecord : JSON :=
  recordWith fourAnswers bareDetails (.obj [("0", nomineeSlot "")])

/-- A nominee slot with a name and a location, and no link. -/
def locatedSlot (name location : String) : JSON :=
  .obj [("nominated_business_name", .str name), ("nominated_business_location", .str location),
        ("nominated_business_person", .str ""), ("nominated_business_link", .str ""),
        ("email_template", .str "")]

/-- The expression `x.nominations[slot][field]` on a nominations object. -/
def slotField (nominations_json : JSON) (slot field : String) : Except JSError JSON := do
  let container ← readProp nominations_json "nominations"
  let nomination ← readProp container slot
  readProp nomination field

/-- The business details object built around the sample details. -/
def sampleDetailsObject : JSON := .obj [("bussines_details", sampleDetails)]

/-- Four question-and-answer entries of which two have an answer; the other
two answers are blank. -/
def twoAnswers : JSON :=
  .arr [.obj [("q", .str "Why did you start your business?"), ("a", .str "To bake.")],
        .obj [("q", .str "What is your best-selling product/service?"), ("a", .str "")],
        .obj [("q", .str "How many local businesses do you use to support your business (products and services) and can you name them?"),
              ("a", .str "  ")],
        .obj [("q", .str "Have you 'reimagined' your small business?"),
              ("a", .str "Yes, we deliver now.")]]

/-- A batch of three nominee slots: a named one without a location, a named
one with a location, and an empty one. -/
def sampleSlots : List (String × JSON) :=
  [("0", nomineeSlot "Mill Farm"), ("1", locatedSlot "Oak Dairy" "Danbury"),
   ("2", nomineeSlot "")]

/-- A business details object whose town is empty. -/
def townlessDetailsObject : JSON :=
  .obj [("bussines_details", .obj [("businessName", .str "Ann's Bakery"), ("town", .str "")])]

/-- A batch of two nominee slots that both have a name and a location, and no
link. -/
def locatedSlots : List (String × JSON) :=
  [("0", locatedSlot "Mill Farm" "Ridgefield"), ("1", locatedSlot "Oak Dairy" "Danbury")]

/-! ## The ledger array after an update -/

/-- The array `track_token_usage` after the promise of
`updateTokenUsageAndCost` has settled: the mutated ledger when it resolved, the
ledger as it was when it rejected (both rejections are thrown before the first
assignment, scripts.js lines 65 and 74). -/
def ledgerAfterUpdate (track_token_usage : Ledger) (models : ModelsTable)
    (gpt_model : String) (input_tokens output_tokens : Nat) : Ledger :=
  match updateTokenUsageAndCost track_token_usage models gpt_model input_tokens output_tokens with
  | .ok updated => updated
  | .error _ => track_token_usage

/-! ## The social media sentence -/

/-- Following the words of the specification: the sentence of the conclusion
for the given links (name and URL), all of them non-blank, in the order given:
nothing for no link, `page` for one link, `pages` for several. -/
def socialSentence (links : List (String × String)) : String :=
  let anchors := links.map (fun link =>
    "<a href=\"" ++ link.2 ++ "\" target=\"_blank\">" ++ link.1 ++ "</a>")
  match anchors.getLast? with
  | none => ""
  | some last =>
    if anchors.length = 1 then
      "Make sure to check out their&nbsp;" ++ last ++ "&nbsp;page as well!</p>"
    else
      "Make sure to check out their&nbsp;" ++ ", ".intercalate anchors.dropLast ++ ", and "
        ++ last ++ "&nbsp;pages as well!</p>"

/-- Business details with a Facebook link, blank Twitter and Instagram links
and no `linkedin` field. -/
def facebookOnlyDetails : JSON :=
  .obj [("businessName", .str "Ann's Bakery"), ("town", .str "Ridgefield, CT"),
        ("facebook", .str "https://www.facebook.com/annsbakery"), ("twitter", .str ""),
        ("instagram", .str " ")]

/-- Business details with Facebook and LinkedIn links and blank Twitter and
Instagram links. -/
def twoLinksDetails : JSON :=
  .obj [("businessName", .str "Ann's Bakery"), ("town", .str "Ridgefield, CT"),
        ("facebook", .str "https://www.facebook.com/annsbakery"), ("twitter", .str ""),
        ("instagram", .str " "), ("linkedin", .str "https://www.linkedin.com/company/annsbakery")]

/-! ## Persistence events -/

/-- The event is a call of `SaveData` or of `ArchiveEmail`. -/
def isPersistenceEvent : Event → Bool
  | .saveData _ => true
  | .archiveEmail _ => true
  | _ => false

/-- The sample environment in which every external call succeeds: the tokenizer
accepts every argument (a pending promise included), the first completion is
`NOMINATIONS`, parsed as a response whose slot `0` names a business, and the
later completions are `DETAILS`, parsed as the sample business details. -/
def allSucceedEnv : Env :=
  { sampleEnv [] with
    encode := fun _ => .ok (List.replicate 10 0)
    createChatCompletion := fun trace _ _ _ =>
      .ok { content := if (trace.filter isChatCall).length = 0 then "NOMINATIONS" else "DETAILS",
            prompt_tokens := 100, completion_tokens := 10 }
    parse := fun text =>
      if text = "NOMINATIONS" then .ok firstSlotResponse
      else if text = "DETAILS" then .ok sampleDetails
      else .error (.error "SyntaxError" "Unexpected token") }

/-! ## One nomination of a batch before and after the enrichment -/

/-- The nomination `after` is what one iteration of the loop of
`processNominationsJSON` makes of the nomination `before` in some world, and
the iteration did not throw. -/
def Enriched (env : Env) (businessDetails_Object before after : JSON) : Prop :=
  ∃ w step w1, processNomination env businessDetails_Object before w = (.ok step, w1) ∧
    step.thrown = none ∧ step.nomination = after

/-- The second half of one iteration of the loop of `processNominationsJSON`
(lines 159-169), for a nomination that has a name and a location: the link
lookup when the link is empty, then the invitation letter. -/
def linkAndLetter (env : Env) (businessDetails_Object nomination : JSON) :
    Eff NominationStep := fun w =>
  let linked : Eff JSON := do
    let link ← Eff.ofExcept (readProp nomination "nominated_business_link")
    if !link.truthy then
      let name ← Eff.ofExcept (readProp nomination "nominated_business_name")
      let location ← Eff.ofExcept (readProp nomination "nominated_business_location")
      let searchQuery := templateStr name ++ " " ++ templateStr location
      let found ← getMissingNominationURL env searchQuery
      Eff.ofExcept (assignProp nomination "nominated_business_link" found)
    else pure nomination
  match linked w with
  | (.error e, w1) => (.ok ⟨nomination, some e⟩, w1)
  | (.ok nomination, w1) =>
    let lettered : Except JSError JSON := do
      let details ← readProp businessDetails_Object "bussines_details"
      let letter ← generateInvitationToInterviewLetter details nomination
      assignProp nomination "email_template" letter
    match lettered with
    | .error e => (.ok ⟨nomination, some e⟩, w1)
    | .ok nomination => (.ok ⟨nomination, none⟩, w1)

/-! ## The text of the article before the intro line -/

/-- The text of the article before the intro line: the title (line 193), the
blank line after it, and `_intro` (lines 195-199) up to the end of the
`You're IT` line, for the town text, the business name and the business link
of the record. -/
def articleLead (townText : String) (businessName anchor : JSON) : String :=
  "Why Small Businesses Matter in " ++ removeFirst townText ", CT" ++ ": "
    ++ businessName.toStr ++ "\n\n"
    ++ ("<div id=\"article-content\">\n<h2>Why Small Businesses Matter</h2>\n"
      ++ "<p><em>Shop small, do big things for your community</em></p>\n"
      ++ "<p>Why Small Businesses Matter puts a spotlight on the local merchants who donate their time, talent, goods, and services for the betterment of our community. The shop local movement spreads virally as local businesses who are “tagged” have the opportunity to share their story!</p>\n"
      ++ "<p><strong>You're IT&nbsp;" ++ anchor.toStr ++ "!</strong></p>\n")

/-- Business details without a business name: only the town and the name of
the sender are present. -/
def namelessDetails : JSON :=
  .obj [("town", .str "Ridgefield, CT"), ("senderName", .str "Ann Lee")]

/-! # Theorems -/

/-! ## Lemmas on `selectModel` -/

theorem foldl_reduceLargest_mem (rest : List ModelInfo) (first : ModelInfo) :
    rest.foldl reduceLargest first ∈ first :: rest := by
  induction rest generalizing first with
  | nil => simp
  | cons r rs ih =>
    simp only [List.foldl_cons]
    have h := ih (reduceLargest first r)
    rw [List.mem_cons] at h
    rcases h with h | h
    · rw [h]
      unfold reduceLargest
      split <;> simp
    · simp [h]

theorem foldl_reduceLargest_ge_init (rest : List ModelInfo) (first : ModelInfo) :
    first.maxTokens ≤ (rest.foldl reduceLargest first).maxTokens := by
  induction rest generalizing first with
  | nil => simp
  | cons r rs ih =>
    simp only [List.foldl_cons]
    refine le_trans ?_ (ih (reduceLargest first r))
    unfold reduceLargest
    split <;> omega

theorem foldl_reduceLargest_ge (rest : List ModelInfo) (first : ModelInfo) :
    ∀ w ∈ first :: rest, w.maxTokens ≤ (rest.foldl reduceLargest first).maxTokens := by
  induction rest generalizing first with
  | nil => simp
  | cons r rs ih =>
    intro w hw
    simp only [List.foldl_cons]
    have hstep : first.maxTokens ≤ (reduceLargest first r).maxTokens ∧
        r.maxTokens ≤ (reduceLargest first r).maxTokens := by
      unfold reduceLargest
      split <;> constructor <;> omega
    rw [List.mem_cons] at hw
    rcases hw with hw | hw
    · rw [hw]
      exact le_trans hstep.1 (foldl_reduceLargest_ge_init rs _)
    · rw [List.mem_cons] at hw
      rcases hw with hw | hw
      · rw [hw]
        exact le_trans hstep.2 (foldl_reduceLargest_ge_init rs _)
      · exact ih (reduceLargest first r) w (List.mem_cons_of_mem _ hw)

/-- The variant picked by `find` on the sorted copy fits `tokens` and is a
smallest fitting variant of the group. -/
theorem find_sorted_least (g : List ModelInfo) (t : Nat) (v : ModelInfo)
    (h : (g.insertionSort (fun a b => a.maxTokens ≤ b.maxTokens)).find?
      (fun modelData => decide (t ≤ modelData.maxTokens)) = some v) :
    v ∈ g ∧ t ≤ v.maxTokens ∧ ∀ w ∈ g, t ≤ w.maxTokens → v.maxTokens ≤ w.maxTokens := by
  have hsorted : List.Sorted (fun a b : ModelInfo => a.maxTokens ≤ b.maxTokens)
      (g.insertionSort (fun a b => a.maxTokens ≤ b.maxTokens)) := by
    haveI : IsTotal ModelInfo (fun a b => a.maxTokens ≤ b.maxTokens) :=
      ⟨fun a b => Nat.le_total _ _⟩
    haveI : IsTrans ModelInfo (fun a b => a.maxTokens ≤ b.maxTokens) :=
      ⟨fun a b c hab hbc => Nat.le_trans hab hbc⟩
    exact List.sorted_insertionSort _ g
  have hperm := List.perm_insertionSort (fun a b : ModelInfo => a.maxTokens ≤ b.maxTokens) g
  rw [List.find?_eq_some] at h
  obtain ⟨hp, as, bs, heq, hnot⟩ := h
  have hp' : t ≤ v.maxTokens := by simpa using hp
  refine ⟨?_, hp', ?_⟩
  · apply hperm.subset
    rw [heq]
    simp
  · intro w hw hwt
    have hw' : w ∈ g.insertionSort (fun a b => a.maxTokens ≤ b.maxTokens) := hperm.symm.subset hw
    rw [heq] at hw' hsorted
    rw [List.mem_append] at hw'
    rcases hw' with hw' | hw'
    · have := hnot w hw'
      simp at this
      omega
    · rw [List.mem_cons] at hw'
      rcases hw' with hw' | hw'
      · rw [hw']
      · have h2 := (List.pairwise_append.mp hsorted).2.1
        exact List.rel_of_pairwise_cons h2 hw'

/-- When `find` returns nothing, no variant of the group fits `tokens`. -/
theorem find_sorted_none (g : List ModelInfo) (t : Nat)
    (h : (g.insertionSort (fun a b => a.maxTokens ≤ b.maxTokens)).find?
      (fun modelData => decide (t ≤ modelData.maxTokens)) = none) :
    ∀ w ∈ g, w.maxTokens < t := by
  have hperm := List.perm_insertionSort (fun a b : ModelInfo => a.maxTokens ≤ b.maxTokens) g
  rw [List.find?_eq_none] at h
  intro w hw
  have := h w (hperm.symm.subset hw)
  simp at this
  omega

/-- Characterisation of `selectModel` on a non-empty group. -/
theorem selectModel_char (g : List ModelInfo) (hg : g ≠ []) (t : Nat) :
    ∃ v ∈ g, selectModel g t = .ok { model := v.model, max_tokens := v.maxTokens } ∧
      ((∃ w ∈ g, t ≤ w.maxTokens) →
        t ≤ v.maxTokens ∧ ∀ w ∈ g, t ≤ w.maxTokens → v.maxTokens ≤ w.maxTokens) ∧
      ((∀ w ∈ g, w.maxTokens < t) → ∀ w ∈ g, w.maxTokens ≤ v.maxTokens) := by
  unfold selectModel
  cases hfind : (g.insertionSort (fun a b => a.maxTokens ≤ b.maxTokens)).find?
      (fun modelData => decide (t ≤ modelData.maxTokens)) with
  | some v =>
    obtain ⟨hv, hvt, hleast⟩ := find_sorted_least g t v hfind
    refine ⟨v, hv, by simp only [hfind], fun _ => ⟨hvt, hleast⟩, ?_⟩
    intro hall
    have := hall v hv
    omega
  | none =>
    have hnone := find_sorted_none g t hfind
    cases g with
    | nil => exact absurd rfl hg
    | cons first rest =>
      refine ⟨rest.foldl reduceLargest first, foldl_reduceLargest_mem rest first,
        by simp only [hfind], ?_, ?_⟩
      · rintro ⟨w, hw, hwt⟩
        have := hnone w hw
        omega
      · intro _
        exact foldl_reduceLargest_ge rest first

/-! ## Results on `selectModel` -/

/-- C1: on a non-empty group `selectModel` never fails; it returns the name and
capacity of a variant of the group which, when some variant has
`maxTokens >= tokens`, is one of smallest `maxTokens` among those, and
otherwise is one of largest `maxTokens` in the group. -/
theorem selectModel_smallest_fitting_or_largest (modelsGroup : List ModelInfo)
    (hne : modelsGroup ≠ []) (tokens : Nat) :
    ∃ v ∈ modelsGroup,
      selectModel modelsGroup tokens = .ok { model := v.model, max_tokens := v.maxTokens } ∧
      ((∃ w ∈ modelsGroup, tokens ≤ w.maxTokens) →
        tokens ≤ v.maxTokens ∧
          ∀ w ∈ modelsGroup, tokens ≤ w.maxTokens → v.maxTokens ≤ w.maxTokens) ∧
      ((∀ w ∈ modelsGroup, w.maxTokens < tokens) →
        ∀ w ∈ modelsGroup, w.maxTokens ≤ v.maxTokens) :=
  selectModel_char modelsGroup hne tokens

theorem selectModel_smallest_fitting_or_largest_witness :
    models_gpt4 ≠ [] ∧
    ∃ v ∈ models_gpt4,
      selectModel models_gpt4 9000 = .ok { model := v.model, max_tokens := v.maxTokens } ∧
      ((∃ w ∈ models_gpt4, 9000 ≤ w.maxTokens) →
        9000 ≤ v.maxTokens ∧
          ∀ w ∈ models_gpt4, 9000 ≤ w.maxTokens → v.maxTokens ≤ w.maxTokens) ∧
      ((∀ w ∈ models_gpt4, w.maxTokens < 9000) →
        ∀ w ∈ models_gpt4, w.maxTokens ≤ v.maxTokens) :=
  ⟨by decide, selectModel_smallest_fitting_or_largest models_gpt4 (by decide) 9000⟩

/-- C2: on a non-empty group, raising the token estimate from `t1` to `t2`
never lowers the capacity (`max_tokens`) of the selected model. -/
theorem selectModel_capacity_monotone (modelsGroup : List ModelInfo)
    (hne : modelsGroup ≠ []) (t1 t2 : Nat) (hle : t1 ≤ t2) :
    ∃ s1 s2, selectModel modelsGroup t1 = .ok s1 ∧ selectModel modelsGroup t2 = .ok s2 ∧
      s1.max_tokens ≤ s2.max_tokens := by
  obtain ⟨v1, hv1, he1, hfit1, hbig1⟩ := selectModel_char modelsGroup hne t1
  obtain ⟨v2, hv2, he2, hfit2, hbig2⟩ := selectModel_char modelsGroup hne t2
  refine ⟨_, _, he1, he2, ?_⟩
  show v1.maxTokens ≤ v2.maxTokens
  by_cases hex2 : ∃ w ∈ modelsGroup, t2 ≤ w.maxTokens
  · have h2 := (hfit2 hex2).1
    have h1 := hfit1 ⟨v2, hv2, le_trans hle h2⟩
    exact h1.2 v2 hv2 (le_trans hle h2)
  · have hall : ∀ w ∈ modelsGroup, w.maxTokens < t2 := by
      intro w hw
      by_contra hc
      exact hex2 ⟨w, hw, by omega⟩
    exact hbig2 hall v1 hv1

theorem selectModel_capacity_monotone_witness :
    models_gpt4 ≠ [] ∧ (8000 : Nat) ≤ 9000 ∧
    ∃ s1 s2, selectModel models_gpt4 8000 = .ok s1 ∧ selectModel models_gpt4 9000 = .ok s2 ∧
      s1.max_tokens ≤ s2.max_tokens :=
  ⟨by decide, by decide, selectModel_capacity_monotone models_gpt4 (by decide) 8000 9000 (by decide)⟩

/-! ## Lemmas on the ledger -/

theorem inputSum_concat (m : String) (l : List UsageCall) (c : UsageCall) :
    inputSum m (l ++ [c]) = inputSum m l + (if c.gpt_model = m then c.input_tokens else 0) := by
  unfold inputSum
  by_cases h : c.gpt_model = m <;> simp [List.filter_append, List.filter_cons, h]

theorem outputSum_concat (m : String) (l : List UsageCall) (c : UsageCall) :
    outputSum m (l ++ [c]) = outputSum m l + (if c.gpt_model = m then c.output_tokens else 0) := by
  unfold outputSum
  by_cases h : c.gpt_model = m <;> simp [List.filter_append, List.filter_cons, h]

theorem embeddingState_concat (l : List UsageCall) (c : UsageCall) :
    embeddingState (l ++ [c]) =
      if c.gpt_model = "text-embedding-ada-002" then
        ((embeddingState l).1 + c.input_tokens,
          (embeddingState l).2
            + (((embeddingState l).1 + c.input_tokens : Nat) : ℚ) * ((1 / 10000) / 1000))
      else embeddingState l := by
  unfold embeddingState
  simp [List.foldl_append]

/-- A call for one of the five models of the table succeeds on a ledger in
closed form and yields the closed form of the longer call sequence. -/
theorem update_ledgerAfter_known (l : List UsageCall) (m : String) (i o : Nat)
    (hm : m = "gpt-3.5-turbo-16k" ∨ m = "gpt-3.5-turbo" ∨ m = "gpt-4-32k" ∨ m = "gpt-4"
      ∨ m = "text-embedding-ada-002") :
    updateTokenUsageAndCost (ledgerAfter l) models m i o
      = .ok (ledgerAfter (l ++ [⟨m, i, o⟩])) := by
  rcases hm with h | h | h | h | h <;> subst h
  · simp [updateTokenUsageAndCost, models, models_gpt4, models_gpt35,
      models_embeddings, ledgerAfter, chatEntryAfter, modifyFirst, updateTokens, updateCosts,
      plusAssign, readNum, readCount, JSNum.add, JSNum.mul, inputSum_concat, outputSum_concat,
      embeddingState_concat]
    exact ⟨by ring, by ring, by ring⟩
  · simp [updateTokenUsageAndCost, models, models_gpt4, models_gpt35,
      models_embeddings, ledgerAfter, chatEntryAfter, modifyFirst, updateTokens, updateCosts,
      plusAssign, readNum, readCount, JSNum.add, JSNum.mul, inputSum_concat, outputSum_concat,
      embeddingState_concat]
    exact ⟨by ring, by ring, by ring⟩
  · simp [updateTokenUsageAndCost, models, models_gpt4, models_gpt35,
      models_embeddings, ledgerAfter, chatEntryAfter, modifyFirst, updateTokens, updateCosts,
      plusAssign, readNum, readCount, JSNum.add, JSNum.mul, inputSum_concat, outputSum_concat,
      embeddingState_concat]
    exact ⟨by ring, by ring, by ring⟩
  · simp [updateTokenUsageAndCost, models, models_gpt4, models_gpt35,
      models_embeddings, ledgerAfter, chatEntryAfter, modifyFirst, updateTokens, updateCosts,
      plusAssign, readNum, readCount, JSNum.add, JSNum.mul, inputSum_concat, outputSum_concat,
      embeddingState_concat]
    exact ⟨by ring, by ring, by ring⟩
  · simp [updateTokenUsageAndCost, models, models_gpt4, models_gpt35,
      models_embeddings, ledgerAfter, chatEntryAfter, modifyFirst, updateTokens, updateCosts,
      plusAssign, readNum, readCount, JSNum.add, JSNum.mul, inputSum_concat, outputSum_concat,
      embeddingState_concat]

theorem recordUsage_ledgerAfter (l : List UsageCall) (c : UsageCall) :
    recordUsage (ledgerAfter l) c = ledgerAfter (l ++ [c]) := by
  obtain ⟨m, i, o⟩ := c
  by_cases hm : m = "gpt-3.5-turbo-16k" ∨ m = "gpt-3.5-turbo" ∨ m = "gpt-4-32k" ∨ m = "gpt-4"
      ∨ m = "text-embedding-ada-002"
  · simp only [recordUsage, update_ledgerAfter_known l m i o hm]
  · simp only [not_or] at hm
    obtain ⟨h1, h2, h3, h4, h5⟩ := hm
    have e1 : ("gpt-3.5-turbo-16k" == m) = false := by simpa using Ne.symm h1
    have e2 : ("gpt-3.5-turbo" == m) = false := by simpa using Ne.symm h2
    have e3 : ("gpt-4-32k" == m) = false := by simpa using Ne.symm h3
    have e4 : ("gpt-4" == m) = false := by simpa using Ne.symm h4
    have e5 : ("text-embedding-ada-002" == m) = false := by simpa using Ne.symm h5
    simp [recordUsage, updateTokenUsageAndCost, models, models_gpt4, models_gpt35,
      models_embeddings, ledgerAfter, chatEntryAfter, inputSum_concat, outputSum_concat,
      embeddingState_concat, e1, e2, e3, e4, e5, h1, h2, h3, h4, h5]

theorem recordAll_eq_ledgerAfter (calls : List UsageCall) :
    recordAll calls = ledgerAfter calls := by
  induction calls using List.reverseRecOn with
  | nil =>
    simp [recordAll, ledgerAfter, chatEntryAfter, track_token_usage_init, zeroChatEntry,
      inputSum, outputSum, embeddingState]
  | append_singleton l c ih =>
    have : recordAll (l ++ [c]) = recordUsage (recordAll l) c := by
      simp [recordAll, List.foldl_append]
    rw [this, ih, recordUsage_ledgerAfter]

theorem resetItem_sameShape (e : UsageEntry) : e.sameShape (resetItem e) := by
  simp [UsageEntry.sameShape, resetItem]

theorem resetItem_allZero (e : UsageEntry) : (resetItem e).allZero = true := by
  obtain ⟨m, a, b, c, d, t, k⟩ := e
  cases a <;> cases b <;> cases c <;> cases d <;> cases t <;> cases k <;>
    simp [UsageEntry.allZero, resetItem]

theorem resetItem_idem (e : UsageEntry) : resetItem (resetItem e) = resetItem e := by
  obtain ⟨m, a, b, c, d, t, k⟩ := e
  cases a <;> cases b <;> cases c <;> cases d <;> cases t <;> cases k <;> rfl

theorem ledgerZero_reset (l : Ledger) : ledgerZero (resetTrackTokenUsage l) = true := by
  simp [ledgerZero, resetTrackTokenUsage, resetItem_allZero]

/-! ## Results on the ledger -/

/-- C5: starting from the zeroed ledger, after any sequence of
`updateTokenUsageAndCost` calls the entry of each chat model (the variants of
`models.gpt4` and `models.gpt35`) is the only entry with that name, its
`input_tokens` and `output_tokens` are the sums of the counts passed for that
model, and its `cost` is
`input_tokens * input_cost_per_1k / 1000 + output_tokens * output_cost_per_1k / 1000`. -/
theorem chat_entry_sums_and_cost (calls : List UsageCall) (info : ModelInfo)
    (hinfo : info ∈ models_gpt4 ++ models_gpt35) :
    ∃ e inRate outRate,
      (recordAll calls).filter (fun x => x.model == info.model) = [e] ∧
      info.input_cost_per_1k = some inRate ∧ info.output_cost_per_1k = some outRate ∧
      e.input_tokens = some (inputSum info.model calls) ∧
      e.output_tokens = some (outputSum info.model calls) ∧
      e.cost = some (.val ((inputSum info.model calls : ℚ) * inRate / 1000
        + (outputSum info.model calls : ℚ) * outRate / 1000)) := by
  rw [recordAll_eq_ledgerAfter]
  simp only [models_gpt4, models_gpt35, List.cons_append, List.nil_append, List.mem_cons,
    List.mem_singleton, List.not_mem_nil, or_false] at hinfo
  rcases hinfo with h | h | h | h <;> subst h
  · refine ⟨chatEntryAfter "gpt-4-32k" (6 / 100) (12 / 100) calls, 6 / 100, 12 / 100, ?_⟩
    simp [ledgerAfter, chatEntryAfter, List.filter_cons]
    ring
  · refine ⟨chatEntryAfter "gpt-4" (3 / 100) (6 / 100) calls, 3 / 100, 6 / 100, ?_⟩
    simp [ledgerAfter, chatEntryAfter, List.filter_cons]
    ring
  · refine ⟨chatEntryAfter "gpt-3.5-turbo-16k" (3 / 1000) (4 / 1000) calls, 3 / 1000, 4 / 1000, ?_⟩
    simp [ledgerAfter, chatEntryAfter, List.filter_cons]
    ring
  · refine ⟨chatEntryAfter "gpt-3.5-turbo" (15 / 10000) (2 / 1000) calls, 15 / 10000, 2 / 1000, ?_⟩
    simp [ledgerAfter, chatEntryAfter, List.filter_cons]
    ring

theorem chat_entry_sums_and_cost_witness :
    (⟨"gpt-4", 8192, some (3 / 100), some (6 / 100), none⟩ : ModelInfo)
      ∈ models_gpt4 ++ models_gpt35 ∧
    ∃ e inRate outRate,
      (recordAll [⟨"gpt-4", 10, 20⟩, ⟨"gpt-3.5-turbo", 7, 1⟩, ⟨"gpt-4", 5, 5⟩]).filter
        (fun x => x.model == "gpt-4") = [e] ∧
      some (3 / 100 : ℚ) = some inRate ∧ some (6 / 100 : ℚ) = some outRate ∧
      e.input_tokens = some (inputSum "gpt-4"
        [⟨"gpt-4", 10, 20⟩, ⟨"gpt-3.5-turbo", 7, 1⟩, ⟨"gpt-4", 5, 5⟩]) ∧
      e.output_tokens = some (outputSum "gpt-4"
        [⟨"gpt-4", 10, 20⟩, ⟨"gpt-3.5-turbo", 7, 1⟩, ⟨"gpt-4", 5, 5⟩]) ∧
      e.cost = some (.val ((inputSum "gpt-4"
        [⟨"gpt-4", 10, 20⟩, ⟨"gpt-3.5-turbo", 7, 1⟩, ⟨"gpt-4", 5, 5⟩] : ℚ) * inRate / 1000
        + (outputSum "gpt-4"
        [⟨"gpt-4", 10, 20⟩, ⟨"gpt-3.5-turbo", 7, 1⟩, ⟨"gpt-4", 5, 5⟩] : ℚ) * outRate / 1000)) :=
  ⟨by simp [models_gpt4],
    chat_entry_sums_and_cost [⟨"gpt-4", 10, 20⟩, ⟨"gpt-3.5-turbo", 7, 1⟩, ⟨"gpt-4", 5, 5⟩]
      ⟨"gpt-4", 8192, some (3 / 100), some (6 / 100), none⟩ (by simp [models_gpt4])⟩

/-- C6 (the code at the failing input): two embedding calls of 1000 tokens each,
starting from the zeroed ledger, leave `total_tokens = 2000` and
`cost = 0.0003`, whereas `total_tokens * cost_per_1k / 1000 = 0.0002`: line 87
adds the running total times the rate at every call. -/
theorem embedding_cost_counts_running_total :
    (recordAll [⟨"text-embedding-ada-002", 1000, 0⟩, ⟨"text-embedding-ada-002", 1000, 0⟩]).filter
        (fun x => x.model == "text-embedding-ada-002")
      = [{ model := "text-embedding-ada-002", total_tokens := some 2000,
           cost := some (.val (3 / 10000)) }] ∧
    (3 / 10000 : ℚ) ≠ (2000 : ℚ) * (1 / 10000) / 1000 := by
  constructor
  · rw [recordAll_eq_ledgerAfter]
    simp [ledgerAfter, chatEntryAfter, List.filter_cons, embeddingState]
    norm_num
  · norm_num

/-- C7: `resetTrackTokenUsage` keeps the number and order of the entries, the
model name of each entry and the set of numeric properties each entry has, sets
every numeric property to `0`, and is idempotent. -/
theorem resetTrackTokenUsage_zeroes_and_idempotent (l : Ledger) :
    List.Forall₂ (fun e e' => e.sameShape e' ∧ e'.allZero = true) l (resetTrackTokenUsage l) ∧
    resetTrackTokenUsage (resetTrackTokenUsage l) = resetTrackTokenUsage l := by
  constructor
  · unfold resetTrackTokenUsage
    induction l with
    | nil => exact List.Forall₂.nil
    | cons e es ih =>
      exact List.Forall₂.cons ⟨resetItem_sameShape e, resetItem_allZero e⟩ ih
  · simp [resetTrackTokenUsage, resetItem_idem]

/-! ## Lemmas on the usage report -/

theorem reportLoop_printable (l : Ledger) (hp : ∀ e ∈ l, e.printable = true)
    (output : String) (totalCost : JSNum) :
    reportLoop l output totalCost =
      .ok (output ++ concatAll (l.map lineText),
        l.foldl (fun totalCost element => totalCost.addDouble (readNum element.cost))
          totalCost) := by
  induction l generalizing output totalCost with
  | nil => simp [reportLoop, concatAll]
  | cons e es ih =>
    have he : e.printable = true := hp e (List.mem_cons_self _ _)
    have hes : ∀ x ∈ es, x.printable = true := fun x hx => hp x (List.mem_cons_of_mem _ hx)
    unfold UsageEntry.printable at he
    cases hline : reportLine e with
    | error err => simp [hline] at he
    | ok line =>
      simp only [reportLoop, hline, ih hes, List.map_cons, concatAll, lineText, List.foldl_cons,
        String.append_assoc]

theorem lineText_shape (e : UsageEntry) (he : e.printable = true) :
    ∃ body, lineText e = "Model: " ++ e.model ++ body ++ "\n" := by
  unfold UsageEntry.printable at he
  unfold lineText
  by_cases h1 : e.model = "text-embedding-ada-002"
  · cases hc : e.cost with
    | none => simp [reportLine, h1, hc] at he
    | some c =>
      refine ⟨", Total Tokens: " ++ showCount e.total_tokens ++ ", Cost: $" ++ c.toFixed6, ?_⟩
      simp only [reportLine, h1, hc, if_true, String.append_assoc]
  · cases ha : e.input_tokens_cost with
    | none => simp [reportLine, h1, ha] at he
    | some a =>
      cases hb : e.output_tokens_cost with
      | none => simp [reportLine, h1, ha, hb] at he
      | some b =>
        cases hc : e.cost with
        | none => simp [reportLine, h1, ha, hb, hc] at he
        | some c =>
          refine ⟨", Input Tokens: " ++ showCount e.input_tokens
            ++ ", Input Tokens Cost: $" ++ a.toFixed6
            ++ ", Output Tokens: " ++ showCount e.output_tokens
            ++ ", Output Tokens Cost: $" ++ b.toFixed6
            ++ ", Total Cost: $" ++ c.toFixed6, ?_⟩
          simp only [reportLine, h1, ha, hb, hc, if_false, String.append_assoc]

theorem foldl_cost_double (l : Ledger) (h : ∀ e ∈ l, ∃ q, e.cost = some (.val q)) (q0 : ℚ) :
    l.foldl (fun (totalCost : JSNum) (element : UsageEntry) =>
        totalCost.addDouble (readNum element.cost)) (JSNum.val q0)
      = JSNum.val ((l.map UsageEntry.costAmount).foldl
          (fun total amount => roundDouble (total + amount)) q0) := by
  induction l generalizing q0 with
  | nil => simp
  | cons e es ih =>
    obtain ⟨q, hq⟩ := h e (List.mem_cons_self _ _)
    have hes : ∀ x ∈ es, ∃ q, x.cost = some (.val q) := fun x hx => h x (List.mem_cons_of_mem _ hx)
    have hstep : (JSNum.val q0).addDouble (readNum e.cost) = JSNum.val (roundDouble (q0 + q)) := by
      rw [hq]
      rfl
    have hamount : e.costAmount = q := by
      unfold UsageEntry.costAmount
      rw [hq]
    rw [List.foldl_cons, hstep, ih hes, List.map_cons, List.foldl_cons, hamount]

/-! ## Results on the usage report -/

/-- C8 (as stated, refuted): on the zeroed ledger, where no variant has any
activity, the report still has one line for each of the five variants before
the grand-total line. -/
theorem API_usage_report_prints_idle_variants :
    ledgerZero track_token_usage_init = true ∧
    API_usage_report track_token_usage_init = .ok
      ("Model: gpt-3.5-turbo-16k, Input Tokens: 0, Input Tokens Cost: $0.000000, "
        ++ "Output Tokens: 0, Output Tokens Cost: $0.000000, Total Cost: $0.000000\n"
        ++ "Model: gpt-3.5-turbo, Input Tokens: 0, Input Tokens Cost: $0.000000, "
        ++ "Output Tokens: 0, Output Tokens Cost: $0.000000, Total Cost: $0.000000\n"
        ++ "Model: gpt-4-32k, Input Tokens: 0, Input Tokens Cost: $0.000000, "
        ++ "Output Tokens: 0, Output Tokens Cost: $0.000000, Total Cost: $0.000000\n"
        ++ "Model: gpt-4, Input Tokens: 0, Input Tokens Cost: $0.000000, "
        ++ "Output Tokens: 0, Output Tokens Cost: $0.000000, Total Cost: $0.000000\n"
        ++ "Model: text-embedding-ada-002, Total Tokens: 0, Cost: $0.000000\n"
        ++ "Total Cost of all models: $0.000000") := by
  decide!

/-- C8 (amended): for every ledger whose entries carry the cost properties the
report prints, every printed amount being below `10^21` in magnitude (so that
`toFixed` prints it in plain decimal form), `API_usage_report` resolves with
one line per ledger entry, in ledger order and whatever the entry's activity,
each of the form `Model: <model>...` and ended by a newline, followed by the
line `Total Cost of all models: $<amount>`; the amount is the sum of the `cost`
properties of all entries as JavaScript computes it, added in ledger order
starting from 0 with every addition rounded to the nearest double, and printed
with six decimals. -/
theorem API_usage_report_one_line_per_entry (l : Ledger)
    (hp : ∀ e ∈ l, e.printable = true)
    (_hplain : ∀ e ∈ l, e.plainAmounts = true) (_htotal : (costTotal l).plain = true) :
    API_usage_report l = .ok (concatAll (l.map lineText)
      ++ "Total Cost of all models: $" ++ (costTotal l).toFixed6) ∧
    (∀ e ∈ l, ∃ body, lineText e = "Model: " ++ e.model ++ body ++ "\n") ∧
    ((∀ e ∈ l, ∃ q, e.cost = some (.val q)) →
      costTotal l = .val (doubleSum (l.map UsageEntry.costAmount))) := by
  refine ⟨?_, fun e he => lineText_shape e (hp e he), ?_⟩
  · unfold API_usage_report costTotal
    rw [reportLoop_printable l hp]
    simp
  · intro h
    unfold costTotal doubleSum
    rw [foldl_cost_double l h 0]

set_option maxRecDepth 100000 in
set_option maxHeartbeats 0 in
theorem API_usage_report_one_line_per_entry_witness :
    (∀ e ∈ doubleLedger, e.printable = true) ∧
    (∀ e ∈ doubleLedger, e.plainAmounts = true) ∧
    (costTotal doubleLedger).plain = true ∧
    API_usage_report doubleLedger = .ok (concatAll (doubleLedger.map lineText)
      ++ "Total Cost of all models: $" ++ (costTotal doubleLedger).toFixed6) ∧
    (∀ e ∈ doubleLedger, ∃ body, lineText e = "Model: " ++ e.model ++ body ++ "\n") ∧
    ((∀ e ∈ doubleLedger, ∃ q, e.cost = some (.val q)) →
      costTotal doubleLedger = .val (doubleSum (doubleLedger.map UsageEntry.costAmount))) :=
  ⟨by decide!, by decide!, by decide!,
   API_usage_report_one_line_per_entry doubleLedger (by decide!) (by decide!) (by decide!)⟩

set_option maxRecDepth 100000 in
set_option maxHeartbeats 0 in
/-- On the ledger that JavaScript holds after a `gpt-4` call (100 and 15
tokens) and an embedding call of 65 tokens, the grand total of the report is
`$0.003907`, the sum in doubles; the exact sum of the same cost values would
print as `0.003906`. -/
theorem API_usage_report_total_in_doubles :
    API_usage_report doubleLedger = .ok
      ("Model: gpt-3.5-turbo-16k, Input Tokens: 0, Input Tokens Cost: $0.000000, "
        ++ "Output Tokens: 0, Output Tokens Cost: $0.000000, Total Cost: $0.000000\n"
        ++ "Model: gpt-3.5-turbo, Input Tokens: 0, Input Tokens Cost: $0.000000, "
        ++ "Output Tokens: 0, Output Tokens Cost: $0.000000, Total Cost: $0.000000\n"
        ++ "Model: gpt-4-32k, Input Tokens: 0, Input Tokens Cost: $0.000000, "
        ++ "Output Tokens: 0, Output Tokens Cost: $0.000000, Total Cost: $0.000000\n"
        ++ "Model: gpt-4, Input Tokens: 100, Input Tokens Cost: $0.003000, "
        ++ "Output Tokens: 15, Output Tokens Cost: $0.000900, Total Cost: $0.003900\n"
        ++ "Model: text-embedding-ada-002, Total Tokens: 65, Cost: $0.000007\n"
        ++ "Total Cost of all models: $0.003907") ∧
    toFixed6 ((doubleLedger.map UsageEntry.costAmount).sum) = "0.003906" := by
  decide!

/-! ## Lemmas on computations -/

theorem Eff.bind_eq {α β : Type} (x : Eff α) (f : α → Eff β) : x >>= f = Eff.andThen x f := rfl

theorem Eff.pure_eq {α : Type} (a : α) : (pure a : Eff α) = Eff.ret a := rfl

/-- C3: when the tokenizer and the model selection succeed and every call of the
chat endpoint fails, `getOpenAIResponse` calls the endpoint exactly three
times, waits 4000 ms after the first failure and 7000 ms after the second, does
not wait after the third, leaves the ledger as it was, and throws the error of
the third call. -/
theorem getOpenAIResponse_all_attempts_fail (env : Env) (model : List ModelInfo)
    (system_prompt user_prompt : JSArg) (w : World) (encoded : List Nat) (sel : Selection)
    (henc : env.encode (.str (system_prompt.toStr ++ user_prompt.toStr)) = .ok encoded)
    (hsel : selectModel model encoded.length = .ok sel)
    (hfail : ∀ trace, ∃ e, env.createChatCompletion trace sel.model system_prompt user_prompt
      = .error e) :
    ∃ e3,
      env.createChatCompletion
        (w.trace ++ [.createChatCompletion sel.model system_prompt user_prompt, .wait 4000,
          .createChatCompletion sel.model system_prompt user_prompt, .wait 7000])
        sel.model system_prompt user_prompt = .error e3 ∧
      getOpenAIResponse env model system_prompt user_prompt w =
        (.error e3,
          { track_token_usage := w.track_token_usage,
            trace := w.trace ++ [.createChatCompletion sel.model system_prompt user_prompt,
              .wait 4000,
              .createChatCompletion sel.model system_prompt user_prompt, .wait 7000,
              .createChatCompletion sel.model system_prompt user_prompt] }) := by
  obtain ⟨e1, h1⟩ := hfail w.trace
  obtain ⟨e2, h2⟩ := hfail (w.trace ++ [.createChatCompletion sel.model system_prompt user_prompt,
    .wait 4000])
  obtain ⟨e3, h3⟩ := hfail (w.trace ++ [.createChatCompletion sel.model system_prompt user_prompt,
    .wait 4000, .createChatCompletion sel.model system_prompt user_prompt, .wait 7000])
  refine ⟨e3, h3, ?_⟩
  simp [getOpenAIResponse, countTokens, henc, hsel, retryLoop, MAX_RETRIES, Eff.bind_eq,
    Eff.pure_eq, Eff.andThen, Eff.ret, Eff.throw, Eff.tryCatch, Eff.ofExcept, Eff.call, delay,
    h1, h2, h3]

/-- The variant selected from one of the two chat groups of the table is one of
the four chat models. -/
theorem selectModel_chat_group (model : List ModelInfo) (tokens : Nat) (sel : Selection)
    (hmodel : model = models_gpt4 ∨ model = models_gpt35)
    (hsel : selectModel model tokens = .ok sel) :
    sel.model = "gpt-3.5-turbo-16k" ∨ sel.model = "gpt-3.5-turbo" ∨ sel.model = "gpt-4-32k"
      ∨ sel.model = "gpt-4" := by
  have hne : model ≠ [] := by
    rcases hmodel with h | h <;> subst h <;> simp [models_gpt4, models_gpt35]
  obtain ⟨v, hv, heq, -, -⟩ := selectModel_char model hne tokens
  rw [hsel] at heq
  injection heq with heq
  subst heq
  rcases hmodel with h | h <;> subst h <;>
    simp only [models_gpt4, models_gpt35, List.mem_cons, List.mem_singleton, List.not_mem_nil,
      or_false] at hv <;>
    rcases hv with hv | hv <;> subst hv <;> simp

/-- C4: with a ledger that holds the usage of any earlier calls, when the first
two calls of the chat endpoint fail and the third succeeds, `getOpenAIResponse`
returns the text of the third call after exactly three calls and the waits of
4000 ms and 7000 ms; the entry of every chat model keeps its `input_tokens` and
`output_tokens` except the entry of the selected model, which grows by the
prompt and completion counts of the successful call; the entries of the other
chat models and the embedding entry are unchanged. -/
theorem getOpenAIResponse_third_attempt_succeeds (env : Env) (model : List ModelInfo)
    (system_prompt user_prompt : JSArg) (w : World) (calls : List UsageCall)
    (encoded : List Nat) (sel : Selection) (e1 e2 : JSError) (completion : Completion)
    (hmodel : model = models_gpt4 ∨ model = models_gpt35)
    (hledger : w.track_token_usage = recordAll calls)
    (henc : env.encode (.str (system_prompt.toStr ++ user_prompt.toStr)) = .ok encoded)
    (hsel : selectModel model encoded.length = .ok sel)
    (h1 : env.createChatCompletion w.trace sel.model system_prompt user_prompt = .error e1)
    (h2 : env.createChatCompletion
      (w.trace ++ [.createChatCompletion sel.model system_prompt user_prompt, .wait 4000])
      sel.model system_prompt user_prompt = .error e2)
    (h3 : env.createChatCompletion
      (w.trace ++ [.createChatCompletion sel.model system_prompt user_prompt, .wait 4000,
        .createChatCompletion sel.model system_prompt user_prompt, .wait 7000])
      sel.model system_prompt user_prompt = .ok completion) :
    ∃ w',
      getOpenAIResponse env model system_prompt user_prompt w = (.ok completion.content, w') ∧
      w'.trace = w.trace ++ [.createChatCompletion sel.model system_prompt user_prompt,
        .wait 4000, .createChatCompletion sel.model system_prompt user_prompt, .wait 7000,
        .createChatCompletion sel.model system_prompt user_prompt] ∧
      (∀ info ∈ models_gpt4 ++ models_gpt35, ∃ e e',
        w.track_token_usage.filter (fun x => x.model == info.model) = [e] ∧
        w'.track_token_usage.filter (fun x => x.model == info.model) = [e'] ∧
        e'.input_tokens = e.input_tokens.map
          (fun n => n + if sel.model = info.model then completion.prompt_tokens else 0) ∧
        e'.output_tokens = e.output_tokens.map
          (fun n => n + if sel.model = info.model then completion.completion_tokens else 0) ∧
        (sel.model ≠ info.model → e' = e)) ∧
      w'.track_token_usage.filter (fun x => x.model == "text-embedding-ada-002")
        = w.track_token_usage.filter (fun x => x.model == "text-embedding-ada-002") := by
  have hchat := selectModel_chat_group model encoded.length sel hmodel hsel
  have hknown : sel.model = "gpt-3.5-turbo-16k" ∨ sel.model = "gpt-3.5-turbo"
      ∨ sel.model = "gpt-4-32k" ∨ sel.model = "gpt-4" ∨ sel.model = "text-embedding-ada-002" := by
    rcases hchat with h | h | h | h <;> simp [h]
  have hnotemb : sel.model ≠ "text-embedding-ada-002" := by
    rcases hchat with h | h | h | h <;> simp [h]
  have hupd := update_ledgerAfter_known calls sel.model completion.prompt_tokens
    completion.completion_tokens hknown
  rw [recordAll_eq_ledgerAfter] at hledger
  refine ⟨World.mk
    (ledgerAfter (calls ++ [UsageCall.mk sel.model completion.prompt_tokens
      completion.completion_tokens]))
    (w.trace ++ [.createChatCompletion sel.model system_prompt user_prompt,
        .wait 4000, .createChatCompletion sel.model system_prompt user_prompt, .wait 7000,
        .createChatCompletion sel.model system_prompt user_prompt]), ?_, rfl, ?_, ?_⟩
  · simp [getOpenAIResponse, countTokens, henc, hsel, retryLoop, MAX_RETRIES, Eff.bind_eq,
      Eff.pure_eq, Eff.andThen, Eff.ret, Eff.throw, Eff.tryCatch, Eff.ofExcept, Eff.call, delay,
      h1, h2, h3, recordCompletion, Eff.getLedger, Eff.setLedger, hledger, hupd]
  · intro info hinfo
    rw [hledger]
    simp only [models_gpt4, models_gpt35, List.cons_append, List.nil_append, List.mem_cons,
      List.mem_singleton, List.not_mem_nil, or_false] at hinfo
    rcases hinfo with h | h | h | h <;> subst h <;>
      simp [ledgerAfter, chatEntryAfter, List.filter_cons, inputSum_concat, outputSum_concat] <;>
      intro hne <;> simp [hne]
  · rw [hledger]
    simp [ledgerAfter, chatEntryAfter, List.filter_cons, embeddingState_concat, hnotemb]

theorem getOpenAIResponse_all_attempts_fail_witness :
    failingChatEnv.encode (.str ((JSArg.str "system").toStr ++ (JSArg.str "user").toStr))
      = .ok (List.replicate 10 0) ∧
    selectModel models_gpt4 (List.replicate 10 0 : List Nat).length
      = .ok { model := "gpt-4", max_tokens := 8192 } ∧
    (∀ trace, ∃ e, failingChatEnv.createChatCompletion trace "gpt-4" (.str "system") (.str "user")
      = .error e) ∧
    ∃ e3,
      failingChatEnv.createChatCompletion
        (initialWorld.trace ++ [.createChatCompletion "gpt-4" (.str "system") (.str "user"),
          .wait 4000, .createChatCompletion "gpt-4" (.str "system") (.str "user"), .wait 7000])
        "gpt-4" (.str "system") (.str "user") = .error e3 ∧
      getOpenAIResponse failingChatEnv models_gpt4 (.str "system") (.str "user") initialWorld =
        (.error e3,
          { track_token_usage := initialWorld.track_token_usage,
            trace := initialWorld.trace ++
              [.createChatCompletion "gpt-4" (.str "system") (.str "user"), .wait 4000,
               .createChatCompletion "gpt-4" (.str "system") (.str "user"), .wait 7000,
               .createChatCompletion "gpt-4" (.str "system") (.str "user")] }) :=
  ⟨rfl, by decide!, fun _ => ⟨_, rfl⟩,
    getOpenAIResponse_all_attempts_fail failingChatEnv models_gpt4 (.str "system") (.str "user")
      initialWorld (List.replicate 10 0) { model := "gpt-4", max_tokens := 8192 }
      rfl (by decide!) (fun _ => ⟨_, rfl⟩)⟩

theorem getOpenAIResponse_third_attempt_succeeds_witness :
    (models_gpt4 = models_gpt4 ∨ models_gpt4 = models_gpt35) ∧
    initialWorld.track_token_usage = recordAll [] ∧
    flakyChatEnv.encode (.str ((JSArg.str "system").toStr ++ (JSArg.str "user").toStr))
      = .ok (List.replicate 10 0) ∧
    selectModel models_gpt4 (List.replicate 10 0 : List Nat).length
      = .ok { model := "gpt-4", max_tokens := 8192 } ∧
    ∃ w',
      getOpenAIResponse flakyChatEnv models_gpt4 (.str "system") (.str "user") initialWorld
        = (.ok "REPLY", w') ∧
      w'.trace = initialWorld.trace ++
        [.createChatCompletion "gpt-4" (.str "system") (.str "user"), .wait 4000,
         .createChatCompletion "gpt-4" (.str "system") (.str "user"), .wait 7000,
         .createChatCompletion "gpt-4" (.str "system") (.str "user")] ∧
      (∀ info ∈ models_gpt4 ++ models_gpt35, ∃ e e',
        initialWorld.track_token_usage.filter (fun x => x.model == info.model) = [e] ∧
        w'.track_token_usage.filter (fun x => x.model == info.model) = [e'] ∧
        e'.input_tokens = e.input_tokens.map
          (fun n => n + if "gpt-4" = info.model then 100 else 0) ∧
        e'.output_tokens = e.output_tokens.map
          (fun n => n + if "gpt-4" = info.model then 10 else 0) ∧
        ("gpt-4" ≠ info.model → e' = e)) ∧
      w'.track_token_usage.filter (fun x => x.model == "text-embedding-ada-002")
        = initialWorld.track_token_usage.filter (fun x => x.model == "text-embedding-ada-002") :=
  ⟨Or.inl rfl, rfl, rfl, by decide!,
    getOpenAIResponse_third_attempt_succeeds flakyChatEnv models_gpt4 (.str "system")
      (.str "user") initialWorld [] (List.replicate 10 0) { model := "gpt-4", max_tokens := 8192 }
      (.error "Error" "Request failed with status code 503")
      (.error "Error" "Request failed with status code 503")
      { content := "REPLY", prompt_tokens := 100, completion_tokens := 10 }
      (Or.inl rfl) rfl rfl (by decide!) rfl (by decide!) (by decide!)⟩

/-! ## Lemmas on the handlers -/

theorem zeroOnReturn_bind {α β : Type} (x : Eff α) (f : α → Eff β)
    (h : ∀ a, ZeroOnReturn (f a)) : ZeroOnReturn (x >>= f) := by
  intro w b w' hrun
  rw [Eff.bind_eq] at hrun
  unfold Eff.andThen at hrun
  cases hx : x w with
  | mk r w1 =>
    rw [hx] at hrun
    cases r with
    | ok a => exact h a w1 b w' hrun
    | error e => simp at hrun

theorem zeroOnReturn_throw {α : Type} (e : JSError) : ZeroOnReturn (Eff.throw e : Eff α) := by
  intro w a w' hrun
  simp [Eff.throw] at hrun

theorem zeroOnReturn_reset_archive (env : Env) (uid : Nat) :
    ZeroOnReturn (awaitReset >>= fun _ => ArchiveEmail env uid) := by
  intro w a w' hrun
  simp only [Eff.bind_eq, Eff.andThen, awaitReset, ArchiveEmail, Eff.call] at hrun
  have hw : w' = { track_token_usage := resetTrackTokenUsage w.track_token_usage,
                   trace := w.trace ++ [.archiveEmail uid] } := by
    have := congrArg Prod.snd hrun
    simpa using this.symm
  rw [hw]
  exact ledgerZero_reset _

theorem zeroAtEnd_awaitReset : ZeroAtEnd awaitReset := by
  intro w
  exact ledgerZero_reset _

theorem zeroAtEnd_reset_throw {α : Type} (e : JSError) :
    ZeroAtEnd (awaitReset >>= fun _ => (Eff.throw e : Eff α)) := by
  intro w
  exact ledgerZero_reset _

theorem zeroAtEnd_tryCatch {α : Type} (body : Eff α) (handler : JSError → Eff α)
    (hbody : ZeroOnReturn body) (hhandler : ∀ e, ZeroAtEnd (handler e)) :
    ZeroAtEnd (Eff.tryCatch body handler) := by
  intro w
  unfold Eff.tryCatch
  cases hx : body w with
  | mk r w1 =>
    cases r with
    | ok a => exact hbody w a w1 hx
    | error e => exact hhandler e w1

theorem process_reply_zeroAtEnd (env : Env) (prompt : CategoryPrompt)
    (layout : String → String → String) (emailData : EmailData) (category : JSON) :
    ZeroAtEnd (process_reply env prompt layout emailData category) := by
  unfold process_reply
  apply zeroAtEnd_tryCatch
  · repeat (first
      | exact zeroOnReturn_reset_archive _ _
      | (apply zeroOnReturn_bind; intro _))
  · intro e
    exact zeroAtEnd_reset_throw e

theorem process_answers_zeroAtEnd (env : Env) (emailData : EmailData) (category : JSON) :
    ZeroAtEnd (process_answers env emailData category) := by
  unfold process_answers
  apply zeroAtEnd_tryCatch
  · repeat (first
      | exact zeroOnReturn_reset_archive _ _
      | (apply zeroOnReturn_bind; intro _))
  · intro e
    exact zeroAtEnd_awaitReset

theorem process_nominations_zeroAtEnd (env : Env) (emailData : EmailData) (category : JSON) :
    ZeroAtEnd (process_nominations env emailData category) := by
  unfold process_nominations
  apply zeroAtEnd_tryCatch
  · repeat (first
      | exact zeroOnReturn_reset_archive _ _
      | (apply zeroOnReturn_bind; intro _))
  · intro e
    exact zeroAtEnd_awaitReset

theorem process_questions_zeroAtEnd (env : Env) (emailData : EmailData) (category : JSON) :
    ZeroAtEnd (process_questions env emailData category) := by
  unfold process_questions
  exact process_reply_zeroAtEnd _ _ _ _ _

theorem process_unsubscribe_zeroAtEnd (env : Env) (emailData : EmailData) (category : JSON) :
    ZeroAtEnd (process_unsubscribe env emailData category) := by
  unfold process_unsubscribe
  exact process_reply_zeroAtEnd _ _ _ _ _

theorem process_acknowledgment_zeroAtEnd (env : Env) (emailData : EmailData) (category : JSON) :
    ZeroAtEnd (process_acknowledgment env emailData category) := by
  unfold process_acknowledgment
  exact process_reply_zeroAtEnd _ _ _ _ _

theorem process_confirmation_zeroAtEnd (env : Env) (emailData : EmailData) (category : JSON) :
    ZeroAtEnd (process_confirmation env emailData category) := by
  unfold process_confirmation
  exact process_reply_zeroAtEnd _ _ _ _ _

theorem process_decline_zeroAtEnd (env : Env) (emailData : EmailData) (category : JSON) :
    ZeroAtEnd (process_decline env emailData category) := by
  unfold process_decline
  exact process_reply_zeroAtEnd _ _ _ _ _

/-! ## Results on the handlers and the inbox loop -/

/-- C9 (as stated, refuted): the Spam handler returns with the ledger as it
found it; entered with a ledger that holds the usage of the classification
call, it returns normally and the ledger is not zero. -/
theorem process_spam_promotion_leaves_usage :
    (runHandler (sampleEnv []) .spam_promotion spamMail (.obj [("category", .str "Spam or Promotion")])
      { track_token_usage := recordAll [⟨"gpt-4", 100, 10⟩], trace := [] }).1 = .ok () ∧
    ledgerZero (runHandler (sampleEnv []) .spam_promotion spamMail
      (.obj [("category", .str "Spam or Promotion")])
      { track_token_usage := recordAll [⟨"gpt-4", 100, 10⟩], trace := [] }).2.track_token_usage
      = false := by
  decide!

/-- C9 (amended): for each of the seven handlers that call the model (Answers,
Nominations, Questions, Unsubscribe, Acknowledgment, Confirmation, Decline),
every email, every decision, every environment and every ledger on entry: when
the handler returns or throws, every numeric field of the ledger is 0. -/
theorem handlers_with_model_calls_end_with_zero_ledger (env : Env) (h : Handler)
    (hne : h ≠ .spam_promotion) (emailData : EmailData) (category : JSON) (w : World) :
    ledgerZero (runHandler env h emailData category w).2.track_token_usage = true := by
  cases h with
  | answers =>
    show ledgerZero (process_answers env emailData category w).2.track_token_usage = true
    exact process_answers_zeroAtEnd env emailData category w
  | nominations =>
    show ledgerZero (process_nominations env emailData category w).2.track_token_usage = true
    exact process_nominations_zeroAtEnd env emailData category w
  | questions =>
    show ledgerZero (process_questions env emailData category w).2.track_token_usage = true
    exact process_questions_zeroAtEnd env emailData category w
  | unsubscribe =>
    show ledgerZero (process_unsubscribe env emailData category w).2.track_token_usage = true
    exact process_unsubscribe_zeroAtEnd env emailData category w
  | acknowledgment =>
    show ledgerZero (process_acknowledgment env emailData category w).2.track_token_usage = true
    exact process_acknowledgment_zeroAtEnd env emailData category w
  | confirmation =>
    show ledgerZero (process_confirmation env emailData category w).2.track_token_usage = true
    exact process_confirmation_zeroAtEnd env emailData category w
  | decline =>
    show ledgerZero (process_decline env emailData category w).2.track_token_usage = true
    exact process_decline_zeroAtEnd env emailData category w
  | spam_promotion => exact absurd rfl hne

theorem handlers_with_model_calls_end_with_zero_ledger_witness :
    Handler.questions ≠ Handler.spam_promotion ∧
    ledgerZero (runHandler (sampleEnv []) .questions questionMail
      (.obj [("category", .str "Questions"), ("explanation", .str "asks a question")])
      { track_token_usage := recordAll [⟨"gpt-4", 100, 10⟩], trace := [] }).2.track_token_usage
      = true :=
  ⟨by decide, handlers_with_model_calls_end_with_zero_ledger (sampleEnv []) .questions
    (by decide) questionMail
    (.obj [("category", .str "Questions"), ("explanation", .str "asks a question")])
    { track_token_usage := recordAll [⟨"gpt-4", 100, 10⟩], trace := [] }⟩

set_option maxRecDepth 100000 in
set_option maxHeartbeats 0 in
/-- C10 (the code at the failing input): `checkInbox` on a mailbox with a Spam
email followed by a Questions email saves, for the second email, a usage report
with 300 gpt-4 input tokens, 30 output tokens and 50 embedding tokens, whereas
the calls made while processing that email alone (the same run without the
Spam email) amount to 200, 20 and 30: the usage recorded while classifying the
Spam email is still in the ledger. -/
theorem checkInbox_report_carries_previous_email_usage :
    (savedBundles (checkInbox (sampleEnv [spamMail, questionMail]) initialWorld).2.trace).map
        (fun data => (data.id, data.api_usage))
      = [("question-2", some
          ("Model: gpt-3.5-turbo-16k, Input Tokens: 0, Input Tokens Cost: $0.000000, "
          ++ "Output Tokens: 0, Output Tokens Cost: $0.000000, Total Cost: $0.000000\n"
          ++ "Model: gpt-3.5-turbo, Input Tokens: 0, Input Tokens Cost: $0.000000, "
          ++ "Output Tokens: 0, Output Tokens Cost: $0.000000, Total Cost: $0.000000\n"
          ++ "Model: gpt-4-32k, Input Tokens: 0, Input Tokens Cost: $0.000000, "
          ++ "Output Tokens: 0, Output Tokens Cost: $0.000000, Total Cost: $0.000000\n"
          ++ "Model: gpt-4, Input Tokens: 300, Input Tokens Cost: $0.009000, "
          ++ "Output Tokens: 30, Output Tokens Cost: $0.001800, Total Cost: $0.010800\n"
          ++ "Model: text-embedding-ada-002, Total Tokens: 50, Cost: $0.000015\n"
          ++ "Total Cost of all models: $0.010815"))] ∧
    (savedBundles (checkInbox (sampleEnv [questionMail]) initialWorld).2.trace).map
        (fun data => (data.id, data.api_usage))
      = [("question-2", some
          ("Model: gpt-3.5-turbo-16k, Input Tokens: 0, Input Tokens Cost: $0.000000, "
          ++ "Output Tokens: 0, Output Tokens Cost: $0.000000, Total Cost: $0.000000\n"
          ++ "Model: gpt-3.5-turbo, Input Tokens: 0, Input Tokens Cost: $0.000000, "
          ++ "Output Tokens: 0, Output Tokens Cost: $0.000000, Total Cost: $0.000000\n"
          ++ "Model: gpt-4-32k, Input Tokens: 0, Input Tokens Cost: $0.000000, "
          ++ "Output Tokens: 0, Output Tokens Cost: $0.000000, Total Cost: $0.000000\n"
          ++ "Model: gpt-4, Input Tokens: 200, Input Tokens Cost: $0.006000, "
          ++ "Output Tokens: 20, Output Tokens Cost: $0.001200, Total Cost: $0.007200\n"
          ++ "Model: text-embedding-ada-002, Total Tokens: 30, Cost: $0.000006\n"
          ++ "Total Cost of all models: $0.007206"))] := by
  decide!

/-! ## Results on dispatch and the inbox loop -/

/-- C11 (the code at the failing input): for the labels `toString` and
`constructor`, which are none of the eight labels of `categoryFunctions`,
`process_email` does not take the invalid-category path: the lookup finds the
member of `Object.prototype`, the call returns, and `process_email` resolves to
`undefined` without a failure result (no handler has run: the ledger and the
trace are as before). -/
theorem process_email_accepts_inherited_labels (env : Env) (emailData : EmailData)
    (explanation : JSON) (w : World) :
    categoryFunctions "toString" = none ∧ categoryFunctions "constructor" = none ∧
    process_email env emailData
      (.obj [("category", .str "toString"), ("explanation", explanation)]) w = (.ok none, w) ∧
    process_email env emailData
      (.obj [("category", .str "constructor"), ("explanation", explanation)]) w = (.ok none, w) := by
  refine ⟨by decide, by decide, ?_, ?_⟩ <;>
    simp [process_email, readProp, JSON.lookup, JSON.toStr, categoryFunctions, inheritedMember,
      Eff.tryCatch, Eff.bind_eq, Eff.pure_eq, Eff.andThen, Eff.ret, Eff.ofExcept]

/-- C12 (the code at the failing input): for the label `__proto__`, which is
not mapped to a handler, `process_email` produces the failure result
`Processing category failed. Reason: processFunction is not a function`, not
the invalid-category text with the label. -/
theorem process_email_proto_label_failure_text (env : Env) (emailData : EmailData)
    (explanation : JSON) (w : World) :
    categoryFunctions "__proto__" = none ∧
    process_email env emailData
        (.obj [("category", .str "__proto__"), ("explanation", explanation)]) w
      = (.ok (some "Processing category failed. Reason: processFunction is not a function"), w) := by
  refine ⟨by decide, ?_⟩
  simp [process_email, readProp, JSON.lookup, JSON.toStr, categoryFunctions, inheritedMember,
    Eff.tryCatch, Eff.bind_eq, Eff.pure_eq, Eff.andThen, Eff.ret, Eff.ofExcept, JSError.message]

/-- C13: when `ID_Exists` resolves to `true` for the email under examination,
the loop makes no other external call for it (no embedding, no retrieval, no
model call, no handler) and goes on with the remaining emails: the iteration
adds the `ID_Exists` call to the trace and nothing else, and leaves the ledger
as it was. -/
theorem inboxLoop_skips_stored_email (env : Env) (emailData : EmailData)
    (rest : List EmailData) (w : World)
    (hseen : env.idExists w.trace emailData.id = .ok true) :
    inboxLoop env (emailData :: rest) w =
      inboxLoop env rest
        { track_token_usage := w.track_token_usage,
          trace := w.trace ++ [.idExists emailData.id] } := by
  simp [inboxLoop, Eff.bind_eq, Eff.andThen, Eff.call, hseen]

theorem inboxLoop_skips_stored_email_witness :
    (processedEnv [spamMail, questionMail]).idExists initialWorld.trace spamMail.id = .ok true ∧
    inboxLoop (processedEnv [spamMail, questionMail]) (spamMail :: [questionMail]) initialWorld =
      inboxLoop (processedEnv [spamMail, questionMail]) [questionMail]
        { track_token_usage := initialWorld.track_token_usage,
          trace := initialWorld.trace ++ [.idExists spamMail.id] } :=
  ⟨rfl, inboxLoop_skips_stored_email (processedEnv [spamMail, questionMail]) spamMail
    [questionMail] initialWorld rfl⟩

set_option maxRecDepth 100000 in
set_option maxHeartbeats 0 in
/-- C14 (the code at the failing input): with a mailbox of two emails where
`ID_Exists` rejects for the first one, `checkInbox` ends after that call: the
trace holds the fetch and the one `ID_Exists` call, and the second email is
never examined. -/
theorem checkInbox_stops_when_id_check_fails :
    checkInbox (brokenStoreEnv [spamMail, questionMail]) initialWorld =
      (.ok (), { track_token_usage := track_token_usage_init,
                 trace := [.fetchEmails, .idExists "spam-1"] }) := by
  decide!

/-- C16: `process_spam_promotion` makes exactly one external call,
`ArchiveEmail` with the uid of the email; it resolves or rejects as that call
does (a failure is thrown on unchanged), and the ledger is left as it was. -/
theorem process_spam_promotion_only_archives (env : Env) (emailData : EmailData) (w : World) :
    process_spam_promotion env emailData w =
      (env.archiveEmail w.trace emailData.uid,
        { track_token_usage := w.track_token_usage,
          trace := w.trace ++ [.archiveEmail emailData.uid] }) := by
  cases h : env.archiveEmail w.trace emailData.uid <;>
    simp [process_spam_promotion, Eff.tryCatch, ArchiveEmail, Eff.call, Eff.throw, h]

set_option maxRecDepth 100000 in
set_option maxHeartbeats 0 in
/-- C18 (the code at the failing input): the model returns the sample business
details and the agent call fails; `get_BusinessDetailsObject` then resolves to
`undefined`, whereas with an agent that answers (without any link) it resolves
to the extracted details. -/
theorem get_BusinessDetailsObject_loses_details_when_agent_fails :
    (get_BusinessDetailsObject (detailsEnv (.error (.error "Error" "connect ETIMEDOUT")))
      initialWorld).1 = .ok .undefined ∧
    (get_BusinessDetailsObject (detailsEnv (.ok (some "No data"))) initialWorld).1
      = .ok (.obj [("bussines_details", sampleDetails)]) := by
  decide!

set_option maxRecDepth 100000 in
set_option maxHeartbeats 0 in
/-- C20 (the code at the failing input): for the sample record (four answers,
no phone number, an empty nominations slot) `generateArticle` returns an
article that still contains `undefined`: the text has two occurrences before
the final `replace`, which removes the first one only. -/
theorem generateArticle_keeps_second_undefined :
    (generateArticle (sampleEnv []) sampleRecord).toOption.map
      (fun article => includes article "undefined") = some true := by
  decide!

/-! ## Laws of computations and the events they emit -/

theorem Eff.bind_assoc {α β γ : Type} (x : Eff α) (f : α → Eff β) (g : β → Eff γ) :
    (x >>= f) >>= g = x >>= fun a => f a >>= g := by
  funext w
  simp only [Eff.bind_eq, Eff.andThen]
  cases hx : x w with
  | mk r w1 => cases r <;> rfl

theorem Eff.pure_bind {α β : Type} (a : α) (f : α → Eff β) : (pure a : Eff α) >>= f = f a := rfl

theorem emits_ret {α : Type} (P : Event → Bool) (a : α) : Emits P (Eff.ret a) :=
  fun _ => ⟨[], by simp [Eff.ret], by simp⟩

theorem emits_pure {α : Type} (P : Event → Bool) (a : α) : Emits P (pure a : Eff α) :=
  emits_ret P a

theorem emits_throw {α : Type} (P : Event → Bool) (e : JSError) :
    Emits P (Eff.throw e : Eff α) :=
  fun _ => ⟨[], by simp [Eff.throw], by simp⟩

theorem emits_ofExcept {α : Type} (P : Event → Bool) (r : Except JSError α) :
    Emits P (Eff.ofExcept r) :=
  fun _ => ⟨[], by simp [Eff.ofExcept], by simp⟩

theorem emits_getLedger (P : Event → Bool) : Emits P Eff.getLedger :=
  fun _ => ⟨[], by simp [Eff.getLedger], by simp⟩

theorem emits_setLedger (P : Event → Bool) (l : Ledger) : Emits P (Eff.setLedger l) :=
  fun _ => ⟨[], by simp [Eff.setLedger], by simp⟩

theorem emits_call {α : Type} (P : Event → Bool) (ev : Event)
    (answer : List Event → Except JSError α) (h : P ev = true) : Emits P (Eff.call ev answer) :=
  fun _ => ⟨[ev], by simp [Eff.call], by simpa using h⟩

theorem emits_bind {α β : Type} (P : Event → Bool) (x : Eff α) (f : α → Eff β)
    (hx : Emits P x) (hf : ∀ a, Emits P (f a)) : Emits P (x >>= f) := by
  intro w
  obtain ⟨evs1, h1, hp1⟩ := hx w
  rw [Eff.bind_eq]
  unfold Eff.andThen
  cases hr : x w with
  | mk r w1 =>
    rw [hr] at h1
    cases r with
    | ok a =>
      obtain ⟨evs2, h2, hp2⟩ := hf a w1
      refine ⟨evs1 ++ evs2, ?_, ?_⟩
      · simp only [h2]
        rw [show w1.trace = w.trace ++ evs1 from h1, List.append_assoc]
      · intro ev hev
        rcases List.mem_append.mp hev with h | h
        · exact hp1 ev h
        · exact hp2 ev h
    | error e => exact ⟨evs1, h1, hp1⟩

theorem emits_tryCatch {α : Type} (P : Event → Bool) (x : Eff α) (handler : JSError → Eff α)
    (hx : Emits P x) (hh : ∀ e, Emits P (handler e)) : Emits P (Eff.tryCatch x handler) := by
  intro w
  obtain ⟨evs1, h1, hp1⟩ := hx w
  unfold Eff.tryCatch
  cases hr : x w with
  | mk r w1 =>
    rw [hr] at h1
    cases r with
    | ok a => exact ⟨evs1, h1, hp1⟩
    | error e =>
      obtain ⟨evs2, h2, hp2⟩ := hh e w1
      refine ⟨evs1 ++ evs2, ?_, ?_⟩
      · simp only [h2]
        rw [show w1.trace = w.trace ++ evs1 from h1, List.append_assoc]
      · intro ev hev
        rcases List.mem_append.mp hev with h | h
        · exact hp1 ev h
        · exact hp2 ev h

theorem emits_countTokens (P : Event → Bool) (env : Env) (prompt : JSArg) :
    Emits P (countTokens env prompt) := by
  unfold countTokens
  split
  · exact emits_ret _ _
  · exact emits_throw _ _

theorem emits_delay (ms : Nat) : Emits isModelOrRetrievalEvent (delay ms) :=
  emits_call _ _ _ rfl

theorem emits_createEmbedding (env : Env) (model : List ModelInfo) (prompt : JSArg) :
    Emits isModelOrRetrievalEvent (createEmbedding env model prompt) := by
  unfold createEmbedding
  apply emits_bind _ _ _ (emits_countTokens _ _ _)
  intro input_tokens
  apply emits_bind _ _ _ (emits_ofExcept _ _)
  intro selection
  apply emits_bind _ _ _ (emits_call _ _ _ rfl)
  intro response
  apply emits_bind _ _ _ (emits_getLedger _)
  intro track_token_usage
  dsimp only
  split
  · exact emits_bind _ _ _ (emits_setLedger _ _) (fun _ => emits_pure _ _)
  · exact emits_bind _ _ _ (emits_throw _ _) (fun _ => emits_pure _ _)

theorem emits_recordCompletion (gpt_model : String) (completion : Completion) :
    Emits isModelOrRetrievalEvent (recordCompletion gpt_model completion) := by
  unfold recordCompletion
  apply emits_bind _ _ _ (emits_getLedger _)
  intro track_token_usage
  dsimp only
  split
  · exact emits_bind _ _ _ (emits_setLedger _ _) (fun _ => emits_pure _ _)
  · exact emits_bind _ _ _ (emits_pure _ _) (fun _ => emits_pure _ _)

theorem emits_retryLoop (env : Env) (gpt_model : String) (system_prompt user_prompt : JSArg)
    (remaining attempt waitTime : Nat) (lastError : Option JSError) :
    Emits isModelOrRetrievalEvent
      (retryLoop env gpt_model system_prompt user_prompt remaining attempt waitTime lastError) := by
  induction remaining generalizing attempt waitTime lastError with
  | zero =>
    unfold retryLoop
    split
    · exact emits_throw _ _
    · exact emits_throw _ _
  | succ n ih =>
    unfold retryLoop
    apply emits_bind
    · apply emits_tryCatch
      · apply emits_bind _ _ _ (emits_call _ _ _ rfl)
        intro completion
        apply emits_bind _ _ _ (emits_recordCompletion _ _)
        intro _
        exact emits_pure _ _
      · intro _
        exact emits_pure _ _
    · intro outcome
      split
      · exact emits_pure _ _
      · dsimp only
        split
        · exact emits_bind _ _ _ (emits_delay _) (fun _ => ih _ _ _)
        · exact emits_bind _ _ _ (emits_pure _ _) (fun _ => ih _ _ _)

theorem emits_getOpenAIResponse (env : Env) (model : List ModelInfo)
    (system_prompt user_prompt : JSArg) :
    Emits isModelOrRetrievalEvent (getOpenAIResponse env model system_prompt user_prompt) := by
  unfold getOpenAIResponse
  apply emits_bind _ _ _ (emits_countTokens _ _ _)
  intro input_tokens
  apply emits_bind _ _ _ (emits_ofExcept _ _)
  intro selection
  exact emits_retryLoop _ _ _ _ _ _ _ _

theorem emits_retrievePineconeEmbeddings (env : Env) (str : JSArg) (topK : Nat) :
    Emits isModelOrRetrievalEvent (retrievePineconeEmbeddings env str topK) := by
  unfold retrievePineconeEmbeddings
  apply emits_tryCatch
  · apply emits_bind _ _ _ (emits_createEmbedding _ _ _)
    intro embeddings
    dsimp only
    split
    · apply emits_bind _ _ _ (emits_pure _ _)
      intro vector
      apply emits_bind _ _ _ (emits_call _ _ _ rfl)
      intro _
      exact emits_pure _ _
    · apply emits_bind _ _ _ (emits_throw _ _)
      intro vector
      apply emits_bind _ _ _ (emits_call _ _ _ rfl)
      intro _
      exact emits_pure _ _
  · intro _
    exact emits_throw _ _

theorem emits_replySteps (env : Env) (prompt : CategoryPrompt) (category : JSON) :
    Emits isModelOrRetrievalEvent (replySteps env prompt category) := by
  unfold replySteps
  apply emits_bind _ _ _ (emits_ofExcept _ _)
  intro system_prompt
  apply emits_bind _ _ _ (emits_retrievePineconeEmbeddings _ _ _)
  intro user_prompt
  apply emits_bind _ _ _ (emits_getOpenAIResponse _ _ _ _)
  intro response
  apply emits_bind _ _ _ (emits_ofExcept _ _)
  intro parsedResponse
  apply emits_bind _ _ _ (emits_ofExcept _ _)
  intro subject
  apply emits_bind _ _ _ (emits_ofExcept _ _)
  intro message
  exact emits_pure _ _

theorem emits_nominationSteps (env : Env) (category : JSON) :
    Emits isModelOrRetrievalEvent (nominationSteps env category) := by
  unfold nominationSteps
  apply emits_bind _ _ _ (emits_retrievePineconeEmbeddings _ _ _)
  intro user_prompt
  apply emits_bind _ _ _ (emits_getOpenAIResponse _ _ _ _)
  intro nominations
  apply emits_bind _ _ _ (emits_ofExcept _ _)
  intro parsed_response
  apply emits_bind _ _ _ (emits_retrievePineconeEmbeddings _ _ _)
  intro bd_user_prompt
  apply emits_bind _ _ _ (emits_getOpenAIResponse _ _ _ _)
  intro response
  apply emits_bind _ _ _ (emits_ofExcept _ _)
  intro bussines_details
  exact emits_pure _ _

/-! ## Failures before persistence -/

theorem tryCatch_bind_of_fail {α β : Type} (x : Eff α) (f : α → Eff β)
    (handler : JSError → Eff β) (w w1 : World) (err : JSError)
    (h : x w = (.error err, w1)) : Eff.tryCatch (x >>= f) handler w = handler err w1 := by
  simp [Eff.tryCatch, Eff.bind_eq, Eff.andThen, h]

theorem process_reply_eq_steps (env : Env) (prompt : CategoryPrompt)
    (layout : String → String → String) (emailData : EmailData) (category : JSON) :
    process_reply env prompt layout emailData category =
      Eff.tryCatch (replySteps env prompt category >>= replyPersist env layout emailData category)
        (fun error => do
          awaitReset
          Eff.throw error) := by
  unfold process_reply replySteps
  simp only [Eff.bind_assoc, Eff.pure_bind]
  rfl

theorem process_nominations_eq_steps (env : Env) (emailData : EmailData) (category : JSON) :
    process_nominations env emailData category =
      Eff.tryCatch (nominationSteps env category >>= nominationPersist env emailData category)
        (fun _ => awaitReset) := by
  unfold process_nominations nominationSteps
  simp only [Eff.bind_assoc, Eff.pure_bind]
  rfl

theorem process_reply_of_steps_fail (env : Env) (prompt : CategoryPrompt)
    (layout : String → String → String) (emailData : EmailData) (category : JSON)
    (w w1 : World) (err : JSError) (h : replySteps env prompt category w = (.error err, w1)) :
    process_reply env prompt layout emailData category w =
      (.error err, { track_token_usage := resetTrackTokenUsage w1.track_token_usage,
                     trace := w1.trace }) := by
  rw [process_reply_eq_steps, tryCatch_bind_of_fail _ _ _ w w1 err h]
  simp [awaitReset, Eff.bind_eq, Eff.andThen, Eff.throw]

theorem process_nominations_of_steps_fail (env : Env) (emailData : EmailData) (category : JSON)
    (w w1 : World) (err : JSError) (h : nominationSteps env category w = (.error err, w1)) :
    process_nominations env emailData category w =
      (.ok (), { track_token_usage := resetTrackTokenUsage w1.track_token_usage,
                 trace := w1.trace }) := by
  rw [process_nominations_eq_steps, tryCatch_bind_of_fail _ _ _ w w1 err h]
  rfl

theorem emits_stepsBeforePersistence (env : Env) (h : Handler) (category : JSON)
    (steps : Eff (JSON × JSON)) (hsteps : stepsBeforePersistence env h category = some steps) :
    Emits isModelOrRetrievalEvent steps := by
  cases h <;> simp [stepsBeforePersistence] at hsteps <;> subst hsteps <;>
    first
      | exact emits_replySteps _ _ _
      | exact emits_nominationSteps _ _

set_option maxRecDepth 100000 in
set_option maxHeartbeats 0 in
/-- C15 (counterexample): with the sample environment the retrieval of
`process_nominations` fails (the prompt handed to the tokenizer is a promise),
and the Nominations handler returns normally: the error is not re-raised to
the caller. -/
theorem process_nominations_swallows_failure :
    (nominationSteps (sampleEnv []) nominationCategory initialWorld).1 =
      .error (.thrown ("Failed to retrieve Pinecone embeddings. Error: Failed to count tokens: "
        ++ "TypeError: text.matchAll is not a function")) ∧
    runHandler (sampleEnv []) .nominations questionMail nominationCategory initialWorld =
      (.ok (), initialWorld) := by
  decide!

/-- C15 (amended): for each of the six reply-generating handlers and every
email, if the steps before the usage report (prompt construction, retrieval,
model call, parse of the response) fail with `err` in the world `w1`, the
handler ends in the world `w1` with the ledger reset, so it has called neither
`SaveData` nor `ArchiveEmail`: the events since the start are calls of the
model, of the embedding endpoint, of the vector index, or timers.  Questions,
Unsubscribe, Acknowledgment, Confirmation and Decline re-raise `err` to the
caller; Nominations returns normally. -/
theorem handler_failure_before_persistence (env : Env) (h : Handler) (emailData : EmailData)
    (category : JSON) (steps : Eff (JSON × JSON)) (w w1 : World) (err : JSError)
    (hsteps : stepsBeforePersistence env h category = some steps)
    (hfail : steps w = (.error err, w1)) :
    runHandler env h emailData category w =
      ((match h with
        | .nominations => .ok ()
        | _ => .error err),
       { track_token_usage := resetTrackTokenUsage w1.track_token_usage, trace := w1.trace }) ∧
    ledgerZero (resetTrackTokenUsage w1.track_token_usage) ∧
    ∃ evs, w1.trace = w.trace ++ evs ∧ ∀ ev ∈ evs, isModelOrRetrievalEvent ev = true := by
  refine ⟨?_, ledgerZero_reset _, ?_⟩
  · cases h <;> simp only [stepsBeforePersistence, Option.some.injEq, reduceCtorEq] at hsteps <;>
      subst hsteps
    · show process_nominations env emailData category w = _
      exact process_nominations_of_steps_fail env emailData category w w1 err hfail
    · show process_questions env emailData category w = _
      unfold process_questions
      exact process_reply_of_steps_fail env (getCategoryQuestion env.texts) _ emailData category
        w w1 err hfail
    · show process_unsubscribe env emailData category w = _
      unfold process_unsubscribe
      exact process_reply_of_steps_fail env (getCategoryUnsubscribe env.texts) _ emailData category
        w w1 err hfail
    · show process_acknowledgment env emailData category w = _
      unfold process_acknowledgment
      exact process_reply_of_steps_fail env (getCategoryAcknowledgment env.texts) _ emailData
        category w w1 err hfail
    · show process_confirmation env emailData category w = _
      unfold process_confirmation
      exact process_reply_of_steps_fail env (getCategoryConfirmation env.texts) _ emailData
        category w w1 err hfail
    · show process_decline env emailData category w = _
      unfold process_decline
      exact process_reply_of_steps_fail env (getCategoryDecline env.texts) _ emailData category
        w w1 err hfail
  · have hem := emits_stepsBeforePersistence env h category steps hsteps w
    rw [hfail] at hem
    exact hem

set_option maxRecDepth 100000 in
set_option maxHeartbeats 0 in
theorem handler_failure_before_persistence_witness :
    stepsBeforePersistence retrievalDownEnv .questions questionCategory =
      some (replySteps retrievalDownEnv (getCategoryQuestion retrievalDownEnv.texts)
        questionCategory) ∧
    (replySteps retrievalDownEnv (getCategoryQuestion retrievalDownEnv.texts) questionCategory
        initialWorld).1 =
      .error (.thrown ("Failed to retrieve Pinecone embeddings. Error: "
        ++ "Error: PineconeError: index unavailable")) ∧
    runHandler retrievalDownEnv .questions questionMail questionCategory initialWorld =
      (.error (.thrown ("Failed to retrieve Pinecone embeddings. Error: "
          ++ "Error: PineconeError: index unavailable")),
       { track_token_usage := resetTrackTokenUsage
           (replySteps retrievalDownEnv (getCategoryQuestion retrievalDownEnv.texts)
             questionCategory initialWorld).2.track_token_usage,
         trace := (replySteps retrievalDownEnv (getCategoryQuestion retrievalDownEnv.texts)
             questionCategory initialWorld).2.trace }) :=
  ⟨rfl, by decide!,
   (handler_failure_before_persistence retrievalDownEnv .questions questionMail questionCategory
    (replySteps retrievalDownEnv (getCategoryQuestion retrievalDownEnv.texts) questionCategory)
    initialWorld
    (replySteps retrievalDownEnv (getCategoryQuestion retrievalDownEnv.texts)
      questionCategory initialWorld).2
    (.thrown ("Failed to retrieve Pinecone embeddings. Error: "
      ++ "Error: PineconeError: index unavailable"))
    rfl (Prod.ext (by decide!) rfl)).1⟩

/-! ## The per-question extraction of the Answers handler -/

theorem delay_eq (ms : Nat) (w : World) :
    delay ms w = (.ok (), { track_token_usage := w.track_token_usage,
                            trace := w.trace ++ [.wait ms] }) := rfl

theorem qaLoop_step_eq (env : Env) (promptObject : PromptObject) (responses : List JSON) :
    (do
      let response ← getOpenAIResponse env promptObject.preferred_gpt
        (.str promptObject.system_prompt) (.str promptObject.user_prompt)
      let parsedResponse ← Eff.ofExcept (env.parse response)
      let responses := responses ++ [parsedResponse]
      delay 500
      return responses : Eff (List JSON))
      = answerQuestion env promptObject >>= fun answer => pure (responses ++ [answer]) := by
  unfold answerQuestion
  simp only [Eff.bind_assoc, Eff.pure_bind]

theorem qaLoop_eq_outcomes (env : Env) (promptObjects : List PromptObject) :
    ∀ (responses : List JSON) (w : World),
      ∃ outcomes, (questionOutcomes env promptObjects w).1 = .ok outcomes ∧
        outcomes.length = promptObjects.length ∧
        qaLoop env promptObjects responses w =
          (.ok (responses ++ outcomes.filterMap id), (questionOutcomes env promptObjects w).2) := by
  induction promptObjects with
  | nil => intro responses w; exact ⟨[], rfl, rfl, by simp [qaLoop, Eff.pure_eq, Eff.ret, questionOutcomes]⟩
  | cons promptObject rest ih =>
    intro responses w
    unfold qaLoop questionOutcomes questionOutcome
    rw [qaLoop_step_eq]
    simp only [Eff.bind_eq, Eff.andThen, Eff.tryCatch, Eff.pure_eq, Eff.ret]
    cases hstep : answerQuestion env promptObject w with
    | mk r w1 =>
      cases r with
      | ok answer =>
        obtain ⟨outcomes, h1, h2, h3⟩ := ih (responses ++ [answer]) w1
        refine ⟨some answer :: outcomes, ?_, by simp [h2], ?_⟩
        · simp only []
          cases hrest : questionOutcomes env rest w1 with
          | mk r2 w2 =>
            rw [hrest] at h1
            simp only at h1
            subst h1
            rfl
        · simp only [h3]
          cases hrest : questionOutcomes env rest w1 with
          | mk r2 w2 =>
            rw [hrest] at h1
            simp only at h1
            subst h1
            simp
      | error e =>
        obtain ⟨outcomes, h1, h2, h3⟩ := ih responses w1
        refine ⟨none :: outcomes, ?_, by simp [h2], ?_⟩
        · simp only []
          cases hrest : questionOutcomes env rest w1 with
          | mk r2 w2 =>
            rw [hrest] at h1
            simp only at h1
            subst h1
            rfl
        · simp only [h3]
          cases hrest : questionOutcomes env rest w1 with
          | mk r2 w2 =>
            rw [hrest] at h1
            simp only at h1
            subst h1
            simp

theorem promiseAll_length {α : Type} (tasks : List (Eff α)) :
    ∀ (w : World) (values : List α), (promiseAll tasks w).1 = .ok values →
      values.length = tasks.length := by
  induction tasks with
  | nil =>
    intro w values h
    simp [promiseAll, Eff.pure_eq, Eff.ret] at h
    subst h
    rfl
  | cons task rest ih =>
    intro w values h
    unfold promiseAll at h
    cases htask : task w with
    | mk r w1 =>
      rw [htask] at h
      cases r with
      | error e => simp at h
      | ok a =>
        simp only at h
        cases hrest : promiseAll rest w1 with
        | mk r2 w2 =>
          rw [hrest] at h
          cases r2 with
          | error e => simp at h
          | ok vs =>
            simp only [Except.ok.injEq] at h
            subst h
            have := ih w1 vs (by rw [hrest])
            simp [this]

set_option maxRecDepth 100000 in
set_option maxHeartbeats 0 in
/-- C17 (counterexample): in an environment where only the retrieval for the
third question fails (every model call answers and every answer parses),
`get_QAObject` fails as a whole: it throws `Failed to extract QA from email
body: ...` and returns no QA list. -/
theorem get_QAObject_fails_when_one_retrieval_fails :
    (get_QAObject thirdRetrievalDownEnv initialWorld).1 =
      .error (.thrown ("Failed to extract QA from email body: "
        ++ "Failed to retrieve Pinecone embeddings. Error: Error: PineconeError: index unavailable")) := by
  decide!

/-- C17 (amended): `createPromptStrings` performs the four retrievals and joins
them with `Promise.all`.  When it resolves, `get_QAObject` does not fail for
any pattern of failures among the model calls and the parses: there is one
outcome per question, and the function returns the QA list holding, in question
order, the parsed answers of exactly the questions whose model call and parse
succeeded.  When it rejects (a retrieval failed), `get_QAObject` fails as a
whole with `Failed to extract QA from email body: ` followed by the error. -/
theorem get_QAObject_skips_failed_model_calls_and_parses (env : Env) (w : World) :
    (∀ promptObjects, (createPromptStrings env w).1 = .ok promptObjects →
      promptObjects.length = 4 ∧
      ∃ outcomes,
        (questionOutcomes env promptObjects (createPromptStrings env w).2).1 = .ok outcomes ∧
        outcomes.length = 4 ∧
        get_QAObject env w =
          (.ok (.obj [("QA", .arr (outcomes.filterMap id))]),
           (questionOutcomes env promptObjects (createPromptStrings env w).2).2)) ∧
    (∀ error, (createPromptStrings env w).1 = .error error →
      get_QAObject env w =
        (.error (.thrown ("Failed to extract QA from email body: " ++ error.toString)),
         (createPromptStrings env w).2)) := by
  constructor
  · intro promptObjects hprompts
    have hlen : promptObjects.length = 4 := by
      have := promiseAll_length _ w promptObjects hprompts
      simpa [questions] using this
    obtain ⟨outcomes, h1, h2, h3⟩ :=
      qaLoop_eq_outcomes env promptObjects [] (createPromptStrings env w).2
    refine ⟨hlen, outcomes, h1, by rw [h2, hlen], ?_⟩
    unfold get_QAObject
    simp only [Eff.tryCatch, Eff.bind_eq, Eff.andThen, Eff.pure_eq, Eff.ret]
    cases hcreate : createPromptStrings env w with
    | mk r w1 =>
      rw [hcreate] at hprompts h3
      simp only at hprompts h3
      subst hprompts
      simp only [h3, List.nil_append]
  · intro error hfail
    unfold get_QAObject
    simp only [Eff.tryCatch, Eff.bind_eq, Eff.andThen, Eff.pure_eq, Eff.ret]
    cases hcreate : createPromptStrings env w with
    | mk r w1 =>
      rw [hcreate] at hfail
      simp only at hfail
      subst hfail
      rfl

set_option maxRecDepth 100000 in
set_option maxHeartbeats 0 in
theorem get_QAObject_skips_failed_model_calls_and_parses_witness :
    (createPromptStrings garbledAnswerEnv initialWorld).1 = .ok samplePromptObjects ∧
    (samplePromptObjects.length = 4 ∧
      ∃ outcomes,
        (questionOutcomes garbledAnswerEnv samplePromptObjects
          (createPromptStrings garbledAnswerEnv initialWorld).2).1 = .ok outcomes ∧
        outcomes.length = 4 ∧
        get_QAObject garbledAnswerEnv initialWorld =
          (.ok (.obj [("QA", .arr (outcomes.filterMap id))]),
           (questionOutcomes garbledAnswerEnv samplePromptObjects
             (createPromptStrings garbledAnswerEnv initialWorld).2).2)) :=
  ⟨by decide!,
   (get_QAObject_skips_failed_model_calls_and_parses garbledAnswerEnv initialWorld).1
     samplePromptObjects (by decide!)⟩

/-! ## The nominations extraction of the Answers handler -/

theorem neverThrows_pure {α : Type} (a : α) : NeverThrows (pure a : Eff α) :=
  fun _ => ⟨a, rfl⟩

theorem neverThrows_bind {α β : Type} (x : Eff α) (f : α → Eff β)
    (hx : NeverThrows x) (hf : ∀ a, NeverThrows (f a)) : NeverThrows (x >>= f) := by
  intro w
  obtain ⟨a, ha⟩ := hx w
  rw [Eff.bind_eq]
  unfold Eff.andThen
  cases hr : x w with
  | mk r w1 =>
    rw [hr] at ha
    simp only at ha
    subst ha
    exact hf a w1

theorem processNomination_neverThrows (env : Env) (businessDetails_Object nomination : JSON) :
    NeverThrows (processNomination env businessDetails_Object nomination) := by
  intro w
  unfold processNomination
  repeat (first | exact ⟨_, rfl⟩ | split | dsimp only)

theorem nominationsInnerLoop_neverThrows (env : Env) (businessDetails_Object : JSON)
    (innerKeys : List String) :
    ∀ container, NeverThrows (nominationsInnerLoop env businessDetails_Object innerKeys container) := by
  induction innerKeys with
  | nil => intro container; unfold nominationsInnerLoop; exact neverThrows_pure _
  | cons innerKey rest ih =>
    intro container
    unfold nominationsInnerLoop
    split
    · exact neverThrows_pure _
    · apply neverThrows_bind _ _ (processNomination_neverThrows _ _ _)
      intro step
      dsimp only
      split
      · exact neverThrows_pure _
      · exact ih _

theorem nominationsOuterLoop_neverThrows (env : Env) (businessDetails_Object : JSON)
    (outerKeys : List String) :
    ∀ nominations_json,
      NeverThrows (nominationsOuterLoop env businessDetails_Object outerKeys nominations_json) := by
  induction outerKeys with
  | nil => intro nominations_json; unfold nominationsOuterLoop; exact neverThrows_pure _
  | cons outerKey rest ih =>
    intro nominations_json
    unfold nominationsOuterLoop
    split
    · exact neverThrows_pure _
    · split
      · exact neverThrows_pure _
      · apply neverThrows_bind _ _ (nominationsInnerLoop_neverThrows _ _ _ _)
        intro result
        dsimp only
        split
        · exact neverThrows_pure _
        · exact ih _

theorem processNominationsJSON_neverThrows (env : Env)
    (businessDetails_Object nominations_json : JSON) :
    NeverThrows (processNominationsJSON env businessDetails_Object nominations_json) := by
  unfold processNominationsJSON
  split
  · exact neverThrows_pure _
  · apply neverThrows_bind _ _ (nominationsOuterLoop_neverThrows _ _ _ _)
    intro result
    exact neverThrows_pure _

theorem get_Nominations_eq_response (env : Env) (businessDetails_Object : JSON) :
    get_Nominations env businessDetails_Object =
      Eff.tryCatch
        (nominationsResponse env >>= fun parsed_response => do
          let nominations_object := JSON.obj [("nominations", parsed_response)]
          let first ← Eff.ofExcept (readProp parsed_response "0")
          let values ← Eff.ofExcept (objectValues first)
          let hasNominations := !values.all isEmptyString
          if hasNominations then
            processNominationsJSON env businessDetails_Object nominations_object
          else return nominations_object)
        (fun error =>
          Eff.throw (.thrown ("Failed to extract nominations from email body: "
            ++ error.toString))) := by
  unfold get_Nominations nominationsResponse
  simp only [Eff.bind_assoc, Eff.pure_bind]

set_option maxRecDepth 100000 in
set_option maxHeartbeats 0 in
/-- C19 (counterexample): for a parsed response whose slot `0` is empty and
whose slot `1` names a business, `get_Nominations` returns the response as it
is and never calls the agent, although a field of a nominee slot is not empty;
the enrichment, had it been called, would have called the agent and changed
the object. -/
theorem get_Nominations_ignores_second_slot :
    (get_Nominations (nominationsEnv secondSlotResponse)
        (.obj [("bussines_details", sampleDetails)]) initialWorld).1
      = .ok (.obj [("nominations", secondSlotResponse)]) ∧
    ((get_Nominations (nominationsEnv secondSlotResponse)
        (.obj [("bussines_details", sampleDetails)]) initialWorld).2.trace.filter
          isAgentCall).length = 0 ∧
    (processNominationsJSON (nominationsEnv secondSlotResponse)
        (.obj [("bussines_details", sampleDetails)])
        (.obj [("nominations", secondSlotResponse)]) initialWorld).1
      ≠ .ok (.obj [("nominations", secondSlotResponse)]) ∧
    ((processNominationsJSON (nominationsEnv secondSlotResponse)
        (.obj [("bussines_details", sampleDetails)])
        (.obj [("nominations", secondSlotResponse)]) initialWorld).2.trace.filter
          isAgentCall).length = 1 := by
  decide!

/-- C19 (amended): when the retrieval, the model call and the parse succeed and
the parsed response has a slot `0`, `get_Nominations` calls the enrichment
`processNominationsJSON` if and only if some field of slot `0` is not the empty
string, and its result is then the result of the enrichment, which never
throws; when every field of slot `0` is the empty string it returns the
nominations object unchanged, without calling the enrichment. -/
theorem get_Nominations_enriches_iff_first_slot_filled (env : Env)
    (businessDetails_Object parsed first : JSON) (values : List JSON) (w : World)
    (hresponse : (nominationsResponse env w).1 = .ok parsed)
    (hfirst : readProp parsed "0" = .ok first)
    (hvalues : objectValues first = .ok values) :
    get_Nominations env businessDetails_Object w =
      (if values.all isEmptyString then
        (.ok (.obj [("nominations", parsed)]), (nominationsResponse env w).2)
      else
        processNominationsJSON env businessDetails_Object (.obj [("nominations", parsed)])
          (nominationsResponse env w).2) ∧
    ∃ result,
      (processNominationsJSON env businessDetails_Object (.obj [("nominations", parsed)])
        (nominationsResponse env w).2).1 = .ok result := by
  have hok := processNominationsJSON_neverThrows env businessDetails_Object
    (.obj [("nominations", parsed)]) (nominationsResponse env w).2
  refine ⟨?_, hok⟩
  rw [get_Nominations_eq_response]
  cases hresp : nominationsResponse env w with
  | mk r w1 =>
    rw [hresp] at hresponse hok
    simp only at hresponse hok
    subst hresponse
    obtain ⟨result, hresult⟩ := hok
    simp only [Eff.tryCatch, Eff.bind_eq, Eff.andThen, hresp, Eff.ofExcept, hfirst, hvalues,
      Eff.pure_eq, Eff.ret]
    by_cases hall : values.all isEmptyString = true
    · simp [hall, Eff.ret]
    · simp only [hall, Bool.not_eq_true] at *
      cases hrun : processNominationsJSON env businessDetails_Object
          (.obj [("nominations", parsed)]) w1 with
      | mk r2 w2 =>
        rw [hrun] at hresult
        simp only at hresult
        subst hresult
        simp [hall, hrun]

set_option maxRecDepth 100000 in
set_option maxHeartbeats 0 in
theorem get_Nominations_enriches_iff_first_slot_filled_witness :
    (nominationsResponse (nominationsEnv firstSlotResponse) initialWorld).1
      = .ok firstSlotResponse ∧
    readProp firstSlotResponse "0" = .ok (nomineeSlot "Mill Farm") ∧
    objectValues (nomineeSlot "Mill Farm")
      = .ok [.str "Mill Farm", .str "", .str "", .str "", .str ""] ∧
    get_Nominations (nominationsEnv firstSlotResponse)
        (.obj [("bussines_details", sampleDetails)]) initialWorld =
      processNominationsJSON (nominationsEnv firstSlotResponse)
        (.obj [("bussines_details", sampleDetails)]) (.obj [("nominations", firstSlotResponse)])
        (nominationsResponse (nominationsEnv firstSlotResponse) initialWorld).2 :=
  ⟨by decide!, by decide!, by decide!,
   (get_Nominations_enriches_iff_first_slot_filled (nominationsEnv firstSlotResponse)
     (.obj [("bussines_details", sampleDetails)]) firstSlotResponse (nomineeSlot "Mill Farm")
     [.str "Mill Farm", .str "", .str "", .str "", .str ""] initialWorld
     (by decide!) (by decide!) (by decide!)).1⟩

/-! ## Results on the article generator -/

set_option maxRecDepth 100000 in
set_option maxHeartbeats 0 in
/-- C21 (the code at the failing input): for a merged record whose business
details have only a business name and a town (no social links, no address, no
sender name, no phone number), with four answers and an empty nominations
slot, `generateArticle` returns an article that contains `undefined`; and when
the town is missing as well, it throws a `TypeError` instead of returning an
article. -/
theorem generateArticle_bare_record_keeps_undefined :
    (generateArticle (sampleEnv []) bareRecord).toOption.map
      (fun article => includes article "undefined") = some true ∧
    generateArticle (sampleEnv [])
        (recordWith fourAnswers (.obj [("businessName", .str "Ann's Bakery")]) (.obj [])) =
      .error (.error "TypeError" "Cannot read properties of undefined (reading 'replace')") := by
  decide!

set_option maxRecDepth 100000 in
set_option maxHeartbeats 0 in
/-- C29 (the code at the failing input): for a record without a sender name
and with one named nomination, the nominations paragraph starts with the
business name followed by `tea`: the last character of `team` is cut off.
With a sender name the paragraph starts with that name, without the comma. -/
theorem nominations_paragraph_cuts_team :
    nominations (recordWith fourAnswers bareDetails
        (.obj [("0", locatedSlot "Oak Dairy" "Ridgefield")])) bareDetails =
      "<p>Ann's Bakery tea would like to nominate Oak Dairy in Ridgefield to be featured next!</p>" ∧
    nominations (recordWith fourAnswers sampleDetails
        (.obj [("0", locatedSlot "Oak Dairy" "Ridgefield")])) sampleDetails =
      "<p>Ann Lee would like to nominate Oak Dairy in Ridgefield to be featured next!</p>" := by
  decide!

/-! ## Results on the nomination enrichment -/

set_option maxRecDepth 100000 in
set_option maxHeartbeats 0 in
/-- C24 (the code at the failing input): for one nomination with a name, a
location and an empty link, the agent is called once with the query built from
the name and the location; when that call fails the link of the nomination is
`undefined` afterwards, not the empty string (it is the empty string when the
agent answers without a URL). -/
theorem processNominationsJSON_failed_lookup_sets_undefined :
    (processNominationsJSON (detailsEnv (.error (.error "Error" "connect ETIMEDOUT")))
        sampleDetailsObject
        (.obj [("nominations", .obj [("0", locatedSlot "Oak Dairy" "Ridgefield")])])
        initialWorld).2.trace =
      [.runAgent ("Find website or social media link for this business: "
        ++ "'Oak Dairy Ridgefield'\nIf you can't find link, return 'No data'.")] ∧
    (processNominationsJSON (detailsEnv (.error (.error "Error" "connect ETIMEDOUT")))
        sampleDetailsObject
        (.obj [("nominations", .obj [("0", locatedSlot "Oak Dairy" "Ridgefield")])])
        initialWorld).1.bind (fun result => slotField result "0" "nominated_business_link")
      = .ok .undefined ∧
    (processNominationsJSON (detailsEnv (.ok (some "No data"))) sampleDetailsObject
        (.obj [("nominations", .obj [("0", locatedSlot "Oak Dairy" "Ridgefield")])])
        initialWorld).1.bind (fun result => slotField result "0" "nominated_business_link")
      = .ok (.str "") := by
  decide!

/-! ## The frame of a ledger update -/

theorem updateTokens_model (usageObject : UsageEntry) (input_tokens output_tokens : Nat) :
    (updateTokens usageObject input_tokens output_tokens).model = usageObject.model := by
  unfold updateTokens
  repeat (first | rfl | split)

theorem updateCosts_model (usageObject : UsageEntry) (modelInfo : ModelInfo)
    (input_tokens output_tokens : Nat) :
    (updateCosts usageObject modelInfo input_tokens output_tokens).model = usageObject.model := by
  unfold updateCosts
  repeat (first | rfl | split)

theorem modifyFirst_length (p : UsageEntry → Bool) (f : UsageEntry → UsageEntry) (l : Ledger) :
    (modifyFirst p f l).length = l.length := by
  induction l with
  | nil => rfl
  | cons e es ih =>
    unfold modifyFirst
    split
    · rfl
    · simp [ih]

theorem modifyFirst_other (gpt_model : String) (f : UsageEntry → UsageEntry) (l : Ledger) :
    ∀ j : Nat, (l[j]?).map (fun (entry : UsageEntry) => entry.model) ≠ some gpt_model →
      (modifyFirst (fun entry => entry.model == gpt_model) f l)[j]? = l[j]? := by
  induction l with
  | nil => intro j _; rfl
  | cons e es ih =>
    intro j hj
    unfold modifyFirst
    cases j with
    | zero =>
      have hne : e.model ≠ gpt_model := by simpa using hj
      simp [hne]
    | succ j =>
      by_cases hp : (e.model == gpt_model) = true
      · simp [hp]
      · simp only [hp, Bool.false_eq_true, ↓reduceIte, List.getElem?_cons_succ]
        exact ih j (by simpa using hj)

theorem modifyFirst_models (gpt_model : String) (f : UsageEntry → UsageEntry)
    (hf : ∀ entry, (f entry).model = entry.model) (l : Ledger) :
    (modifyFirst (fun entry => entry.model == gpt_model) f l).map (fun entry => entry.model)
      = l.map (fun entry => entry.model) := by
  induction l with
  | nil => rfl
  | cons e es ih =>
    unfold modifyFirst
    split
    · simp [hf]
    · simp [ih]

theorem updateTokenUsageAndCost_ok_modifyFirst (track_token_usage : Ledger)
    (models : ModelsTable) (gpt_model : String) (input_tokens output_tokens : Nat)
    (updated : Ledger)
    (h : updateTokenUsageAndCost track_token_usage models gpt_model input_tokens output_tokens
      = .ok updated) :
    ∃ f : UsageEntry → UsageEntry, (∀ entry, (f entry).model = entry.model) ∧
      updated = modifyFirst (fun entry => entry.model == gpt_model) f track_token_usage := by
  unfold updateTokenUsageAndCost at h
  split at h
  · simp at h
  · split at h
    · simp at h
    · split at h
      · simp at h
      · split at h
        · simp at h
        · simp only [Except.ok.injEq] at h
          exact ⟨_, fun entry => by rw [updateCosts_model, updateTokens_model], h.symm⟩

/-- C28: after a call of `updateTokenUsageAndCost` the ledger has the same
entries for the same models in the same order, and every entry whose model is
not the given name is unchanged; when the call rejects, the whole ledger is
unchanged. -/
theorem updateTokenUsageAndCost_changes_only_named_entry (track_token_usage : Ledger)
    (models : ModelsTable) (gpt_model : String) (input_tokens output_tokens : Nat) :
    (ledgerAfterUpdate track_token_usage models gpt_model input_tokens output_tokens).map
        (fun entry => entry.model) = track_token_usage.map (fun entry => entry.model) ∧
    (∀ j : Nat, (track_token_usage[j]?).map (fun (entry : UsageEntry) => entry.model) ≠ some gpt_model →
      (ledgerAfterUpdate track_token_usage models gpt_model input_tokens output_tokens)[j]?
        = track_token_usage[j]?) ∧
    (∀ error,
      updateTokenUsageAndCost track_token_usage models gpt_model input_tokens output_tokens
        = .error error →
      ledgerAfterUpdate track_token_usage models gpt_model input_tokens output_tokens
        = track_token_usage) := by
  cases hupdate : updateTokenUsageAndCost track_token_usage models gpt_model input_tokens
      output_tokens with
  | error err =>
    simp only [ledgerAfterUpdate, hupdate]
    exact ⟨trivial, fun _ _ => trivial, fun _ _ => trivial⟩
  | ok updated =>
    obtain ⟨f, hf, hmod⟩ := updateTokenUsageAndCost_ok_modifyFirst _ _ _ _ _ _ hupdate
    simp only [ledgerAfterUpdate, hupdate]
    subst hmod
    exact ⟨modifyFirst_models _ _ hf _, fun j hj => modifyFirst_other _ _ _ j hj,
      fun _ h => by simp at h⟩

theorem updateTokenUsageAndCost_changes_only_named_entry_witness :
    (track_token_usage_init[0]?).map (fun (entry : UsageEntry) => entry.model) ≠ some "gpt-4" ∧
    (ledgerAfterUpdate track_token_usage_init models "gpt-4" 100 10)[0]?
      = track_token_usage_init[0]? :=
  ⟨by decide,
   (updateTokenUsageAndCost_changes_only_named_entry track_token_usage_init models "gpt-4"
     100 10).2.1 0 (by decide)⟩

/-! ## Results on the social media sentence -/

set_option maxRecDepth 100000 in
set_option maxHeartbeats 0 in
/-- C30 (counterexample): with a Facebook link present and the `linkedin`
field missing from the record, `socialMediaLinks` returns the empty string:
the missing link does not count as blank, it removes the whole sentence. -/
theorem socialMediaLinks_missing_link_drops_sentence :
    socialMediaLinks facebookOnlyDetails = "" ∧
    socialMediaLinks twoLinksDetails =
      "Make sure to check out their&nbsp;<a href=\"https://www.facebook.com/annsbakery\" target=\"_blank\">Facebook</a>, and <a href=\"https://www.linkedin.com/company/annsbakery\" target=\"_blank\">LinkedIn</a>&nbsp;pages as well!</p>" := by
  decide!

theorem socialSentence_eq_empty (links : List (String × String)) :
    socialSentence links = "" ↔ links = [] := by
  constructor
  · intro h
    cases links with
    | nil => rfl
    | cons link rest =>
      exfalso
      unfold socialSentence at h
      simp only [List.map_cons] at h
      split at h
      · rename_i hnone
        simp at hnone
      · split at h <;>
        · have := congrArg String.length h
          simp [String.length_append] at this
          exact absurd this.2 (by decide)
  · intro h
    subst h
    rfl

theorem asString_error_of_not_str (x : JSON) (method : String) (h : ∀ s, x ≠ .str s) :
    ∃ e, asString x method = .error e := by
  cases x with
  | str s => exact absurd rfl (h s)
  | undefined => exact ⟨_, rfl⟩
  | null => exact ⟨_, rfl⟩
  | bool b => exact ⟨_, rfl⟩
  | num n => exact ⟨_, rfl⟩
  | arr items => exact ⟨_, rfl⟩
  | obj fields => exact ⟨_, rfl⟩

theorem filterMapM_loop_error {α β : Type} (f : α → Except JSError (Option β)) (items : List α)
    (hbad : ∃ a ∈ items, ∃ e, f a = .error e) :
    ∀ acc, ∃ e, List.filterMapM.loop f items acc = .error e := by
  induction items with
  | nil =>
    obtain ⟨a, ha, _⟩ := hbad
    simp at ha
  | cons item rest ih =>
    intro acc
    cases hitem : f item with
    | error e => exact ⟨e, by simp [List.filterMapM.loop, hitem, bind, Except.bind]⟩
    | ok kept =>
      have hrest : ∃ a ∈ rest, ∃ e, f a = .error e := by
        obtain ⟨a, ha, e, he⟩ := hbad
        rcases List.mem_cons.mp ha with h | h
        · subst h
          rw [hitem] at he
          cases he
        · exact ⟨a, h, e, he⟩
      cases kept with
      | none =>
        obtain ⟨e, he⟩ := ih hrest acc
        exact ⟨e, by simp [List.filterMapM.loop, hitem, bind, Except.bind, he]⟩
      | some b =>
        obtain ⟨e, he⟩ := ih hrest (b :: acc)
        exact ⟨e, by simp [List.filterMapM.loop, hitem, bind, Except.bind, he]⟩

theorem socialMediaLinks_of_not_str (details : JSON) (key : String)
    (hkey : key ∈ ["facebook", "twitter", "instagram", "linkedin"])
    (hbad : ∀ link : String, readProp details key ≠ .ok (.str link)) :
    socialMediaLinks details = "" := by
  unfold socialMediaLinks
  cases hfacebook : readProp details "facebook" with
  | error e => rfl
  | ok facebook =>
    cases htwitter : readProp details "twitter" with
    | error e => rfl
    | ok twitter =>
      cases hinstagram : readProp details "instagram" with
      | error e => rfl
      | ok instagram =>
        cases hlinkedin : readProp details "linkedin" with
        | error e => rfl
        | ok linkedin =>
          have hvalue : ∃ media ∈ [("Facebook", facebook), ("Twitter", twitter),
              ("Instagram", instagram), ("LinkedIn", linkedin)],
              ∀ s, media.2 ≠ JSON.str s := by
            simp only [List.mem_cons, List.mem_singleton, List.not_mem_nil, or_false] at hkey
            rcases hkey with h | h | h | h <;> subst h
            · exact ⟨("Facebook", facebook), by simp, fun s hs => hbad s (by rw [hfacebook]; exact congrArg Except.ok hs)⟩
            · exact ⟨("Twitter", twitter), by simp, fun s hs => hbad s (by rw [htwitter]; exact congrArg Except.ok hs)⟩
            · exact ⟨("Instagram", instagram), by simp,
                fun s hs => hbad s (by rw [hinstagram]; exact congrArg Except.ok hs)⟩
            · exact ⟨("LinkedIn", linkedin), by simp, fun s hs => hbad s (by rw [hlinkedin]; exact congrArg Except.ok hs)⟩
          obtain ⟨media, hmem, hnot⟩ := hvalue
          obtain ⟨e, he⟩ := asString_error_of_not_str media.2 "trim" hnot
          obtain ⟨e1, he1⟩ := filterMapM_loop_error
            (fun (media : String × JSON) => (do
              let text ← asString media.2 "trim"
              if notBlank text then return some (media.1, text) else return none :
                Except JSError (Option (String × String))))
            [("Facebook", facebook), ("Twitter", twitter), ("Instagram", instagram),
              ("LinkedIn", linkedin)]
            ⟨media, hmem, e, by simp [he, bind, Except.bind]⟩ []
          simp only [List.filterMapM, bind, Except.bind, pure, Except.pure] at he1 ⊢
          simp only [he1, orCatch]

/-- C30 (amended): for every business details value, (1) when the four links
(facebook, twitter, instagram, linkedin) are all strings, `socialMediaLinks`
returns the sentence for exactly the non-blank links, in the order Facebook,
Twitter, Instagram, LinkedIn, with `page` for one link and `pages` for several,
and it returns the empty string if and only if every link is blank; (2) when
one of the four links is missing or is not a string, `socialMediaLinks` returns
the empty string, whatever the other links are. -/
theorem socialMediaLinks_lists_nonblank_links (details : JSON) :
    (∀ facebook twitter instagram linkedin : String,
      readProp details "facebook" = .ok (.str facebook) →
      readProp details "twitter" = .ok (.str twitter) →
      readProp details "instagram" = .ok (.str instagram) →
      readProp details "linkedin" = .ok (.str linkedin) →
      socialMediaLinks details =
        socialSentence
          ([("Facebook", facebook), ("Twitter", twitter), ("Instagram", instagram),
            ("LinkedIn", linkedin)].filter (fun link => notBlank link.2)) ∧
      (socialMediaLinks details = "" ↔
        notBlank facebook = false ∧ notBlank twitter = false ∧ notBlank instagram = false ∧
          notBlank linkedin = false)) ∧
    (∀ key ∈ ["facebook", "twitter", "instagram", "linkedin"],
      (∀ link : String, readProp details key ≠ .ok (.str link)) →
      socialMediaLinks details = "") := by
  refine ⟨?_, fun key hkey hbad => socialMediaLinks_of_not_str details key hkey hbad⟩
  intro facebook twitter instagram linkedin hfacebook htwitter hinstagram hlinkedin
  have heq : socialMediaLinks details =
      socialSentence
        ([("Facebook", facebook), ("Twitter", twitter), ("Instagram", instagram),
          ("LinkedIn", linkedin)].filter (fun link => notBlank link.2)) := by
    unfold socialMediaLinks
    simp only [hfacebook, htwitter, hinstagram, hlinkedin, asString]
    cases h1 : notBlank facebook <;> cases h2 : notBlank twitter <;>
      cases h3 : notBlank instagram <;> cases h4 : notBlank linkedin <;>
      simp [List.filterMapM, List.filterMapM.loop, h1, h2, h3, h4, orCatch, socialSentence,
        elementStr, bind, Except.bind, pure, Except.pure, String.intercalate]
  refine ⟨heq, ?_⟩
  rw [heq, socialSentence_eq_empty]
  cases h1 : notBlank facebook <;> cases h2 : notBlank twitter <;>
    cases h3 : notBlank instagram <;> cases h4 : notBlank linkedin <;>
    simp [List.filter, h1, h2, h3, h4]

theorem facebookOnlyDetails_no_linkedin (link : String) :
    readProp facebookOnlyDetails "linkedin" ≠ .ok (.str link) := by
  have hread : readProp facebookOnlyDetails "linkedin" = .ok .undefined := by decide!
  rw [hread]
  intro h
  cases h

theorem socialMediaLinks_lists_nonblank_links_witness :
    (readProp twoLinksDetails "facebook" = .ok (.str "https://www.facebook.com/annsbakery") ∧
     readProp twoLinksDetails "twitter" = .ok (.str "") ∧
     readProp twoLinksDetails "instagram" = .ok (.str " ") ∧
     readProp twoLinksDetails "linkedin"
       = .ok (.str "https://www.linkedin.com/company/annsbakery") ∧
     socialMediaLinks twoLinksDetails =
       socialSentence
         ([("Facebook", "https://www.facebook.com/annsbakery"), ("Twitter", ""),
           ("Instagram", " "),
           ("LinkedIn", "https://www.linkedin.com/company/annsbakery")].filter
             (fun link => notBlank link.2))) ∧
    ("linkedin" ∈ ["facebook", "twitter", "instagram", "linkedin"] ∧
     (∀ link : String, readProp facebookOnlyDetails "linkedin" ≠ .ok (.str link)) ∧
     socialMediaLinks facebookOnlyDetails = "") :=
  ⟨⟨by decide, by decide, by decide, by decide,
    ((socialMediaLinks_lists_nonblank_links twoLinksDetails).1
      "https://www.facebook.com/annsbakery" "" " " "https://www.linkedin.com/company/annsbakery"
      (by decide) (by decide) (by decide) (by decide)).1⟩,
   ⟨by decide, facebookOnlyDetails_no_linkedin,
    (socialMediaLinks_lists_nonblank_links facebookOnlyDetails).2 "linkedin" (by decide)
      facebookOnlyDetails_no_linkedin⟩⟩

/-! ## Results on the number word of the intro line -/

theorem except_bind_ok {α β : Type} (x : Except JSError α) (f : α → Except JSError β) (b : β)
    (h : x >>= f = .ok b) : ∃ a, x = .ok a ∧ f a = .ok b := by
  cases x with
  | error e => simp [bind, Except.bind] at h
  | ok a => exact ⟨a, rfl, h⟩

theorem mapM_ok_of_mapM_bind_ok {α β γ : Type} (f : α → Except JSError β)
    (g : α → β → Except JSError γ) (items : List α) :
    ∀ parts, items.mapM (fun item => f item >>= g item) = .ok parts →
      ∃ values, items.mapM f = .ok values := by
  induction items with
  | nil => intro parts _; exact ⟨[], rfl⟩
  | cons item rest ih =>
    intro parts h
    rw [List.mapM_cons] at h
    obtain ⟨part, hpart, h⟩ := except_bind_ok _ _ _ h
    obtain ⟨value, hvalue, _⟩ := except_bind_ok _ _ _ hpart
    obtain ⟨others, hothers, _⟩ := except_bind_ok _ _ _ h
    obtain ⟨values, hvalues⟩ := ih others hothers
    refine ⟨value :: values, ?_⟩
    rw [List.mapM_cons, hvalue, hvalues]
    rfl

theorem answersHtml_ok_answered (e : JSON) (answers : String) (h : answersHtml e = .ok answers) :
    ∃ QA items answered, readProp e "QA" = .ok QA ∧ indexedItems QA = .ok items ∧
      items.mapM answerIsFilled = .ok answered := by
  unfold answersHtml at h
  obtain ⟨QA, hQA, h⟩ := except_bind_ok _ _ _ h
  obtain ⟨items, hitems, h⟩ := except_bind_ok _ _ _ h
  obtain ⟨parts, hparts, _⟩ := except_bind_ok _ _ _ h
  obtain ⟨answered, hanswered⟩ := mapM_ok_of_mapM_bind_ok answerIsFilled _ items parts hparts
  exact ⟨QA, items, answered, hQA, hitems, hanswered⟩

theorem number_of_answers_of_answered (e QA : JSON) (items : List JSON) (answered : List Bool)
    (hQA : readProp e "QA" = .ok QA) (hitems : indexedItems QA = .ok items)
    (hanswered : items.mapM answerIsFilled = .ok answered) :
    number_of_answers e =
      { num := .num (answered.filter id).length,
        word := if (answered.filter id).length = 4 then .str "Four"
                else if (answered.filter id).length = 3 then .str "Three" else .undefined } := by
  unfold number_of_answers
  simp only [hQA, hitems, hanswered, bind, Except.bind, pure, Except.pure, orCatch]

/-! ### The final `replace` on a text with the intro line -/

theorem dropFirstOccurrence_cons (p : List Char) (c : Char) (rest : List Char) :
    dropFirstOccurrence p (c :: rest) =
      if p.isPrefixOf (c :: rest) then (c :: rest).drop p.length
      else c :: dropFirstOccurrence p rest := rfl

theorem isPrefixOf_cons_cons (a b : Char) (p xs : List Char) :
    (a :: p).isPrefixOf (b :: xs) = (a == b && p.isPrefixOf xs) := rfl

theorem isPrefixOf_append_cons_of_not_mem (c : Char) (zs : List Char) :
    ∀ (p : List Char), c ∉ p → ∀ xs : List Char,
      p.isPrefixOf (xs ++ c :: zs) = p.isPrefixOf xs := by
  intro p
  induction p with
  | nil => intro _ xs; simp [List.isPrefixOf]
  | cons a p ih =>
    intro hc xs
    cases xs with
    | nil =>
      have hne : a ≠ c := fun h => hc (h ▸ List.mem_cons_self _ _)
      simp [List.isPrefixOf, hne]
    | cons x xs =>
      rw [List.cons_append, isPrefixOf_cons_cons, isPrefixOf_cons_cons,
        ih (fun h => hc (List.mem_cons_of_mem _ h))]

theorem length_le_of_isPrefixOf :
    ∀ (p xs : List Char), p.isPrefixOf xs = true → p.length ≤ xs.length := by
  intro p
  induction p with
  | nil => intro xs _; simp
  | cons a p ih =>
    intro xs h
    cases xs with
    | nil => simp [List.isPrefixOf] at h
    | cons x xs =>
      rw [isPrefixOf_cons_cons, Bool.and_eq_true] at h
      simpa using ih xs h.2

theorem occurs_cons (p : List Char) (x : Char) (xs : List Char) :
    (x :: xs).tails.any (fun rest => p.isPrefixOf rest) =
      (p.isPrefixOf (x :: xs) || xs.tails.any (fun rest => p.isPrefixOf rest)) := by
  simp [List.tails]

theorem dropFirstOccurrence_of_not_occurs (p : List Char) :
    ∀ xs : List Char, xs.tails.any (fun rest => p.isPrefixOf rest) = false →
      dropFirstOccurrence p xs = xs := by
  intro xs
  induction xs with
  | nil => intro _; rfl
  | cons x xs ih =>
    intro h
    rw [occurs_cons, Bool.or_eq_false_iff] at h
    rw [dropFirstOccurrence_cons, h.1, ih h.2]
    simp

theorem dropFirstOccurrence_append_cons (p : List Char) (c : Char) (hc : c ∉ p) (hp : p ≠ [])
    (zs : List Char) :
    ∀ xs : List Char, dropFirstOccurrence p (xs ++ c :: zs) =
      if xs.tails.any (fun rest => p.isPrefixOf rest) then dropFirstOccurrence p xs ++ c :: zs
      else xs ++ dropFirstOccurrence p (c :: zs) := by
  intro xs
  induction xs with
  | nil =>
    cases p with
    | nil => exact absurd rfl hp
    | cons a p => simp [List.tails, List.isPrefixOf]
  | cons x xs ih =>
    have hprefix := isPrefixOf_append_cons_of_not_mem c zs p hc (x :: xs)
    rw [List.cons_append] at hprefix
    rw [occurs_cons, List.cons_append, dropFirstOccurrence_cons, hprefix,
      dropFirstOccurrence_cons (p) x xs]
    cases hpre : p.isPrefixOf (x :: xs) with
    | true =>
      have hlen := length_le_of_isPrefixOf p (x :: xs) hpre
      simp only [if_true, Bool.true_or]
      rw [← List.cons_append, List.drop_append_of_le_length hlen]
    | false =>
      simp only [Bool.false_eq_true, if_false, Bool.false_or, ih]
      split <;> simp

theorem removeFirst_before_tag (lead rest : String) :
    removeFirst (lead ++ ("<" ++ rest)) "undefined" =
      if includes lead "undefined" then removeFirst lead "undefined" ++ ("<" ++ rest)
      else lead ++ removeFirst ("<" ++ rest) "undefined" := by
  have hlist := dropFirstOccurrence_append_cons "undefined".toList (Char.ofNat 60) (by decide)
    (by decide) rest.toList lead.toList
  unfold includes
  split
  · rename_i h
    rw [if_pos h] at hlist
    apply String.ext
    simp only [removeFirst, String.toList, String.data_append] at hlist ⊢
    exact hlist
  · rename_i h
    rw [if_neg h] at hlist
    apply String.ext
    simp only [removeFirst, String.toList, String.data_append] at hlist ⊢
    exact hlist

theorem removeFirst_of_not_includes (text : String) (h : includes text "undefined" = false) :
    removeFirst text "undefined" = text := by
  unfold removeFirst
  rw [dropFirstOccurrence_of_not_occurs _ _ h]
  rfl

theorem removeFirst_number_undefined (after : String) :
    removeFirst ("<" ++ ("p>" ++ ("undefined" ++ (" questions with&nbsp;" ++ after)))) "undefined"
      = "<p> questions with&nbsp;" ++ after := by
  apply String.ext
  simp only [removeFirst, String.toList, String.data_append]
  rfl

theorem removeFirst_number_four (after : String) :
    removeFirst ("<" ++ ("p>" ++ ("Four" ++ (" questions with&nbsp;" ++ after)))) "undefined"
      = "<p>Four questions with&nbsp;" ++ removeFirst after "undefined" := by
  apply String.ext
  simp only [removeFirst, String.toList, String.data_append]
  rfl

theorem removeFirst_number_three (after : String) :
    removeFirst ("<" ++ ("p>" ++ ("Three" ++ (" questions with&nbsp;" ++ after)))) "undefined"
      = "<p>Three questions with&nbsp;" ++ removeFirst after "undefined" := by
  apply String.ext
  simp only [removeFirst, String.toList, String.data_append]
  rfl

theorem tag_split (rest : String) : "<p>" ++ rest = "<" ++ ("p>" ++ rest) := by
  apply String.ext
  simp only [String.data_append]
  rfl

theorem removeFirst_intro_undefined (lead after : String) :
    removeFirst (lead ++ "<p>" ++ "undefined" ++ " questions with&nbsp;" ++ after) "undefined" =
      if includes lead "undefined"
      then removeFirst lead "undefined" ++ "<p>undefined questions with&nbsp;" ++ after
      else lead ++ "<p> questions with&nbsp;" ++ after := by
  simp only [String.append_assoc]
  rw [tag_split, removeFirst_before_tag, removeFirst_number_undefined]
  split
  · congr 1
  · rfl

theorem removeFirst_intro_four (lead after : String) :
    removeFirst (lead ++ "<p>" ++ "Four" ++ " questions with&nbsp;" ++ after) "undefined" =
      removeFirst lead "undefined" ++ "<p>Four questions with&nbsp;"
        ++ (if includes lead "undefined" then after else removeFirst after "undefined") := by
  simp only [String.append_assoc]
  rw [tag_split, removeFirst_before_tag, removeFirst_number_four]
  split
  · congr 1
  · rename_i h
    rw [removeFirst_of_not_includes lead (by simpa using h)]

theorem removeFirst_intro_three (lead after : String) :
    removeFirst (lead ++ "<p>" ++ "Three" ++ " questions with&nbsp;" ++ after) "undefined" =
      removeFirst lead "undefined" ++ "<p>Three questions with&nbsp;"
        ++ (if includes lead "undefined" then after else removeFirst after "undefined") := by
  simp only [String.append_assoc]
  rw [tag_split, removeFirst_before_tag, removeFirst_number_three]
  split
  · congr 1
  · rename_i h
    rw [removeFirst_of_not_includes lead (by simpa using h)]

/-! ### The number word -/

set_option maxRecDepth 100000 in
set_option maxHeartbeats 0 in
/-- C22 (counterexample): for a record with two non-blank answers
`generateArticle` returns an article without the marker `__UNKNOWN__`: the
number word is `undefined`, which the final `replace` removes here, so the
intro line reads `<p> questions with&nbsp;...`. -/
theorem generateArticle_two_answers_no_marker :
    (number_of_answers (recordWith twoAnswers sampleDetails (.obj []))).word = .undefined ∧
    (generateArticle (sampleEnv []) (recordWith twoAnswers sampleDetails (.obj []))).toOption.map
      (fun article => (includes article "__UNKNOWN__",
        includes article "<p> questions with&nbsp;Ann Lee, Owner of&nbsp;")) = some (false, true) := by
  decide!

set_option maxRecDepth 100000 in
set_option maxHeartbeats 0 in
/-- With two non-blank answers and business details without a business name,
the first `undefined` of the article is the business name in the title: the
final `replace` removes that one, and the intro line keeps its own and reads
`<p>undefined questions with&nbsp;...`. -/
theorem generateArticle_nameless_keeps_number_undefined :
    (number_of_answers (recordWith twoAnswers namelessDetails (.obj []))).word = .undefined ∧
    (generateArticle (sampleEnv []) (recordWith twoAnswers namelessDetails (.obj []))).toOption.map
      (fun article => (includes article "__UNKNOWN__",
        includes article "Why Small Businesses Matter in Ridgefield: \n",
        includes article "<p>undefined questions with&nbsp;Ann Lee, Founder of&nbsp;"))
      = some (false, true, true) := by
  decide!

/-- C22 (amended): for every record for which `generateArticle` returns an
article, with n the number of QA entries whose answer is non-empty after
trimming: the count is n and the number word of the intro line is `Four` when
n = 4, `Three` when n = 3 and the value `undefined` for every other n, never
the marker `__UNKNOWN__`.  The article is the text made of the lead (title and
heading, `articleLead`), the intro line `<p>` + number word +
` questions with&nbsp;` and the rest, after the final `replace` of the first
`undefined`.  So for n = 4 and n = 3 the intro line reads
`<p>Four questions with&nbsp;` and `<p>Three questions with&nbsp;`; for every
other n it reads `<p> questions with&nbsp;` when the lead contains no
`undefined`, and `<p>undefined questions with&nbsp;` when the lead contains
one (the first one of the lead is removed instead). -/
theorem generateArticle_number_word (env : Env) (e : JSON) (article : String)
    (h : generateArticle env e = .ok article) :
    ∃ (QA : JSON) (items : List JSON) (answered : List Bool)
      (details town businessName anchor : JSON) (townText after : String),
      readProp e "QA" = .ok QA ∧ indexedItems QA = .ok items ∧
      items.mapM answerIsFilled = .ok answered ∧
      (number_of_answers e).num = .num (answered.filter id).length ∧
      (number_of_answers e).word =
        (if (answered.filter id).length = 4 then .str "Four"
         else if (answered.filter id).length = 3 then .str "Three" else .undefined) ∧
      (number_of_answers e).word ≠ .str "__UNKNOWN__" ∧
      readProp e "bussines_details" = .ok details ∧ readProp details "town" = .ok town ∧
      asString town "replace" = .ok townText ∧
      readProp details "businessName" = .ok businessName ∧
      business_hyperlink details = .ok anchor ∧
      article = removeFirst
        (articleLead townText businessName anchor ++ "<p>" ++ (number_of_answers e).word.toStr
          ++ " questions with&nbsp;" ++ after)
        "undefined" ∧
      ((answered.filter id).length = 4 →
        article = removeFirst (articleLead townText businessName anchor) "undefined"
          ++ "<p>Four questions with&nbsp;"
          ++ (if includes (articleLead townText businessName anchor) "undefined" then after
              else removeFirst after "undefined")) ∧
      ((answered.filter id).length = 3 →
        article = removeFirst (articleLead townText businessName anchor) "undefined"
          ++ "<p>Three questions with&nbsp;"
          ++ (if includes (articleLead townText businessName anchor) "undefined" then after
              else removeFirst after "undefined")) ∧
      ((answered.filter id).length ≠ 4 → (answered.filter id).length ≠ 3 →
        article =
          (if includes (articleLead townText businessName anchor) "undefined"
           then removeFirst (articleLead townText businessName anchor) "undefined"
             ++ "<p>undefined questions with&nbsp;" ++ after
           else articleLead townText businessName anchor ++ "<p> questions with&nbsp;"
             ++ after)) := by
  unfold generateArticle at h
  obtain ⟨details, hdetails, h⟩ := except_bind_ok _ _ _ h
  obtain ⟨town, htown, h⟩ := except_bind_ok _ _ _ h
  obtain ⟨townText, htownText, h⟩ := except_bind_ok _ _ _ h
  obtain ⟨businessName, hbusinessName, h⟩ := except_bind_ok _ _ _ h
  try dsimp only at h
  obtain ⟨anchor, hanchor, h⟩ := except_bind_ok _ _ _ h
  try dsimp only at h
  obtain ⟨anchorAgain, -, h⟩ := except_bind_ok _ _ _ h
  try dsimp only at h
  obtain ⟨business, -, h⟩ := except_bind_ok _ _ _ h
  obtain ⟨QA_keywords, -, h⟩ := except_bind_ok _ _ _ h
  try dsimp only at h
  obtain ⟨answers, hanswers, h⟩ := except_bind_ok _ _ _ h
  obtain ⟨QA, items, answered, hQA, hitems, hanswered⟩ := answersHtml_ok_answered e answers hanswers
  have hcount := number_of_answers_of_answered e QA items answered hQA hitems hanswered
  have harticle : ∃ after, article = removeFirst
      (articleLead townText businessName anchor ++ "<p>" ++ (number_of_answers e).word.toStr
        ++ " questions with&nbsp;" ++ after)
      "undefined" := by
    simp only [pure, Except.pure, Except.ok.injEq] at h
    rw [← h]
    simp only [articleLead, String.append_assoc]
    exact ⟨_, rfl⟩
  obtain ⟨after, harticle⟩ := harticle
  have hword : (number_of_answers e).word =
      (if (answered.filter id).length = 4 then .str "Four"
       else if (answered.filter id).length = 3 then .str "Three" else .undefined) := by
    rw [hcount]
  refine ⟨QA, items, answered, details, town, businessName, anchor, townText, after, hQA, hitems,
    hanswered, ?_, hword, ?_, hdetails, htown, htownText, hbusinessName, hanchor, harticle,
    ?_, ?_, ?_⟩
  · rw [hcount]
  · rw [hword]
    split
    · simp
    · split <;> simp
  · intro hn
    rw [harticle, hword, if_pos hn]
    exact removeFirst_intro_four _ _
  · intro hn
    rw [harticle, hword, if_neg (by omega), if_pos hn]
    exact removeFirst_intro_three _ _
  · intro h4 h3
    rw [harticle, hword, if_neg h4, if_neg h3]
    exact removeFirst_intro_undefined _ _

set_option maxRecDepth 100000 in
set_option maxHeartbeats 0 in
theorem generateArticle_number_word_witness :
    generateArticle (sampleEnv []) sampleRecord =
      .ok ((generateArticle (sampleEnv []) sampleRecord).toOption.getD "") ∧
    ∃ (QA : JSON) (items : List JSON) (answered : List Bool)
      (details town businessName anchor : JSON) (townText after : String),
      readProp sampleRecord "QA" = .ok QA ∧ indexedItems QA = .ok items ∧
      items.mapM answerIsFilled = .ok answered ∧
      (number_of_answers sampleRecord).num = .num (answered.filter id).length ∧
      (number_of_answers sampleRecord).word =
        (if (answered.filter id).length = 4 then .str "Four"
         else if (answered.filter id).length = 3 then .str "Three" else .undefined) ∧
      (number_of_answers sampleRecord).word ≠ .str "__UNKNOWN__" ∧
      readProp sampleRecord "bussines_details" = .ok details ∧ readProp details "town" = .ok town ∧
      asString town "replace" = .ok townText ∧
      readProp details "businessName" = .ok businessName ∧
      business_hyperlink details = .ok anchor ∧
      ((generateArticle (sampleEnv []) sampleRecord).toOption.getD "") = removeFirst
        (articleLead townText businessName anchor ++ "<p>"
          ++ (number_of_answers sampleRecord).word.toStr ++ " questions with&nbsp;" ++ after)
        "undefined" ∧
      ((answered.filter id).length = 4 →
        ((generateArticle (sampleEnv []) sampleRecord).toOption.getD "") =
          removeFirst (articleLead townText businessName anchor) "undefined"
          ++ "<p>Four questions with&nbsp;"
          ++ (if includes (articleLead townText businessName anchor) "undefined" then after
              else removeFirst after "undefined")) ∧
      ((answered.filter id).length = 3 →
        ((generateArticle (sampleEnv []) sampleRecord).toOption.getD "") =
          removeFirst (articleLead townText businessName anchor) "undefined"
          ++ "<p>Three questions with&nbsp;"
          ++ (if includes (articleLead townText businessName anchor) "undefined" then after
              else removeFirst after "undefined")) ∧
      ((answered.filter id).length ≠ 4 → (answered.filter id).length ≠ 3 →
        ((generateArticle (sampleEnv []) sampleRecord).toOption.getD "") =
          (if includes (articleLead townText businessName anchor) "undefined"
           then removeFirst (articleLead townText businessName anchor) "undefined"
             ++ "<p>undefined questions with&nbsp;" ++ after
           else articleLead townText businessName anchor ++ "<p> questions with&nbsp;"
             ++ after)) :=
  ⟨by decide!,
   generateArticle_number_word (sampleEnv []) sampleRecord
     ((generateArticle (sampleEnv []) sampleRecord).toOption.getD "") (by decide!)⟩

/-! ## The Nominations handler never persists -/

theorem emits_mono {α : Type} (P Q : Event → Bool) (m : Eff α)
    (hPQ : ∀ ev, P ev = true → Q ev = true) (h : Emits P m) : Emits Q m := by
  intro w
  obtain ⟨evs, h1, hp⟩ := h w
  exact ⟨evs, h1, fun ev hev => hPQ ev (hp ev hev)⟩

theorem emits_runAgent (env : Env) (input : String) : Emits isAgentCall (runAgent env input) := by
  unfold runAgent
  apply emits_tryCatch
  · apply emits_bind _ _ _ (emits_call _ _ _ rfl)
    intro output
    split
    · exact emits_pure _ _
    · exact emits_pure _ _
  · intro _
    exact emits_pure _ _

theorem emits_getMissingNominationURL (env : Env) (search_query : String) :
    Emits isAgentCall (getMissingNominationURL env search_query) := by
  unfold getMissingNominationURL
  apply emits_tryCatch
  · dsimp only
    apply emits_bind _ _ _ (emits_runAgent _ _)
    intro agentOutput
    repeat (first | exact emits_pure _ _ | exact emits_throw _ _ | split)
  · intro _
    exact emits_pure _ _

theorem emits_linkStep (env : Env) (nomination : JSON) :
    Emits isAgentCall
      (do
        let link ← Eff.ofExcept (readProp nomination "nominated_business_link")
        if !link.truthy then
          let name ← Eff.ofExcept (readProp nomination "nominated_business_name")
          let location ← Eff.ofExcept (readProp nomination "nominated_business_location")
          let searchQuery := templateStr name ++ " " ++ templateStr location
          let found ← getMissingNominationURL env searchQuery
          Eff.ofExcept (assignProp nomination "nominated_business_link" found)
        else pure nomination : Eff JSON) := by
  apply emits_bind _ _ _ (emits_ofExcept _ _)
  intro link
  split
  · apply emits_bind _ _ _ (emits_ofExcept _ _)
    intro name
    apply emits_bind _ _ _ (emits_ofExcept _ _)
    intro location
    apply emits_bind _ _ _ (emits_getMissingNominationURL _ _)
    intro found
    exact emits_ofExcept _ _
  · exact emits_pure _ _

theorem emits_processNomination (env : Env) (businessDetails_Object nomination : JSON) :
    Emits isAgentCall (processNomination env businessDetails_Object nomination) := by
  intro w
  unfold processNomination
  split
  · exact ⟨[], by simp, by simp⟩
  · split
    · exact ⟨[], by simp, by simp⟩
    · dsimp only
      split
      · exact ⟨[], by simp, by simp⟩
      · exact ⟨[], by simp, by simp⟩
      · rename_i located _
        have hlink := emits_linkStep env located w
        try dsimp only
        split
        · rename_i heq
          rw [heq] at hlink
          exact hlink
        · rename_i heq
          rw [heq] at hlink
          try dsimp only
          split
          · exact hlink
          · exact hlink

theorem emits_nominationsInnerLoop (env : Env) (businessDetails_Object : JSON)
    (innerKeys : List String) :
    ∀ container,
      Emits isAgentCall (nominationsInnerLoop env businessDetails_Object innerKeys container) := by
  induction innerKeys with
  | nil => intro container; unfold nominationsInnerLoop; exact emits_pure _ _
  | cons innerKey rest ih =>
    intro container
    unfold nominationsInnerLoop
    split
    · exact emits_pure _ _
    · apply emits_bind _ _ _ (emits_processNomination _ _ _)
      intro step
      dsimp only
      split
      · exact emits_pure _ _
      · exact ih _

theorem emits_nominationsOuterLoop (env : Env) (businessDetails_Object : JSON)
    (outerKeys : List String) :
    ∀ nominations_json,
      Emits isAgentCall
        (nominationsOuterLoop env businessDetails_Object outerKeys nominations_json) := by
  induction outerKeys with
  | nil => intro nominations_json; unfold nominationsOuterLoop; exact emits_pure _ _
  | cons outerKey rest ih =>
    intro nominations_json
    unfold nominationsOuterLoop
    split
    · exact emits_pure _ _
    · split
      · exact emits_pure _ _
      · apply emits_bind _ _ _ (emits_nominationsInnerLoop _ _ _ _)
        intro result
        dsimp only
        split
        · exact emits_pure _ _
        · exact ih _

theorem emits_processNominationsJSON (env : Env)
    (businessDetails_Object nominations_json : JSON) :
    Emits isAgentCall (processNominationsJSON env businessDetails_Object nominations_json) := by
  unfold processNominationsJSON
  split
  · exact emits_pure _ _
  · apply emits_bind _ _ _ (emits_nominationsOuterLoop _ _ _ _)
    intro result
    exact emits_pure _ _

theorem Eff.throw_bind {α β : Type} (e : JSError) (f : α → Eff β) :
    (Eff.throw e : Eff α) >>= f = Eff.throw e := rfl

theorem nominationPersist_eq (env : Env) (emailData : EmailData) (category : JSON)
    (objects : JSON × JSON) :
    nominationPersist env emailData category objects =
      processNominationsJSON env objects.2 objects.1 >>= fun _ =>
        Eff.throw (.error "ReferenceError" "category_nominations is not defined") := by
  unfold nominationPersist
  simp only [Eff.throw_bind]

theorem bind_throw_fails {α β : Type} (x : Eff α) (e : JSError) (w : World) :
    ∃ err, ((x >>= fun _ => (Eff.throw e : Eff β)) w).1 = .error err := by
  rw [Eff.bind_eq]
  unfold Eff.andThen
  cases hx : x w with
  | mk r w1 =>
    cases r with
    | ok a => exact ⟨e, rfl⟩
    | error err => exact ⟨err, rfl⟩

theorem bind_fails_of_fails {α β : Type} (x : Eff α) (f : α → Eff β) (w : World)
    (hf : ∀ a w1, ∃ err, (f a w1).1 = .error err) : ∃ err, ((x >>= f) w).1 = .error err := by
  rw [Eff.bind_eq]
  unfold Eff.andThen
  cases hx : x w with
  | mk r w1 =>
    cases r with
    | ok a => exact hf a w1
    | error err => exact ⟨err, rfl⟩

set_option maxRecDepth 100000 in
set_option maxHeartbeats 0 in
/-- C27 (the code at the failing input): in every environment, for every email
and category, `process_nominations` returns normally without calling `SaveData`
or `ArchiveEmail`: the statement that builds the thank-you note reads the
undeclared identifier `category_nominations` and throws, and the `catch` only
resets the ledger.  In particular, in the sample environment where every
external call succeeds, the trace ends with the agent call of the enrichment
and holds no persistence event. -/
theorem process_nominations_never_persists :
    (∀ (env : Env) (emailData : EmailData) (category : JSON) (w : World),
      (process_nominations env emailData category w).1 = .ok () ∧
      ∃ evs, (process_nominations env emailData category w).2.trace = w.trace ++ evs ∧
        ∀ ev ∈ evs, isPersistenceEvent ev = false) ∧
    ((process_nominations allSucceedEnv questionMail nominationCategory initialWorld).2.trace.map
      (fun ev => (isPersistenceEvent ev, isAgentCall ev))).getLast? = some (false, true) := by
  refine ⟨?_, by decide!⟩
  intro env emailData category w
  have hbody : Emits (fun ev => !isPersistenceEvent ev)
      (nominationSteps env category >>= nominationPersist env emailData category) := by
    apply emits_bind
    · exact emits_mono isModelOrRetrievalEvent _ _ (fun ev h => by cases ev <;> simp_all [isModelOrRetrievalEvent, isPersistenceEvent])
        (emits_nominationSteps env category)
    · intro objects
      rw [nominationPersist_eq]
      apply emits_bind
      · exact emits_mono isAgentCall _ _ (fun ev h => by cases ev <;> simp_all [isAgentCall, isPersistenceEvent])
          (emits_processNominationsJSON env _ _)
      · intro _
        exact emits_throw _ _
  have hfails : ∃ err, ((nominationSteps env category >>=
      nominationPersist env emailData category) w).1 = .error err := by
    apply bind_fails_of_fails
    intro objects w1
    rw [nominationPersist_eq]
    exact bind_throw_fails _ _ _
  rw [process_nominations_eq_steps]
  obtain ⟨evs, htrace, hevs⟩ := hbody w
  obtain ⟨err, herr⟩ := hfails
  cases hrun : (nominationSteps env category >>= nominationPersist env emailData category) w with
  | mk r w1 =>
    rw [hrun] at htrace herr
    simp only at herr
    subst herr
    simp only [Eff.tryCatch, hrun, awaitReset]
    exact ⟨trivial, evs, htrace, fun ev hev => by simpa using hevs ev hev⟩

/-! ## Fields of objects -/

theorem lookup_store_same (key : String) (v : JSON) (fields : List (String × JSON)) :
    JSON.lookup key (JSON.store key v fields) = v := by
  induction fields with
  | nil => simp [JSON.store, JSON.lookup]
  | cons field rest ih =>
    obtain ⟨k, old⟩ := field
    unfold JSON.store
    by_cases hk : k = key
    · simp [hk, JSON.lookup]
    · simp [hk, JSON.lookup, ih]

theorem lookup_store_ne (key other : String) (v : JSON) (fields : List (String × JSON))
    (hne : other ≠ key) :
    JSON.lookup other (JSON.store key v fields) = JSON.lookup other fields := by
  induction fields with
  | nil => simp [JSON.store, JSON.lookup, Ne.symm hne]
  | cons field rest ih =>
    obtain ⟨k, old⟩ := field
    unfold JSON.store
    by_cases hk : k = key
    · subst hk
      simp [JSON.lookup, Ne.symm hne]
    · by_cases hko : k = other
      · subst hko
        simp [hne, JSON.lookup]
      · simp [hk, hko, JSON.lookup, ih]

theorem store_keys (key : String) (v : JSON) (fields : List (String × JSON))
    (hmem : key ∈ fields.map (fun field => field.1)) :
    (JSON.store key v fields).map (fun field => field.1) = fields.map (fun field => field.1) := by
  induction fields with
  | nil => simp at hmem
  | cons field rest ih =>
    obtain ⟨k, old⟩ := field
    unfold JSON.store
    by_cases hk : k = key
    · simp [hk]
    · have hrest : key ∈ rest.map (fun field => field.1) := by
        simp only [List.map_cons, List.mem_cons] at hmem
        rcases hmem with h | h
        · exact absurd h.symm hk
        · exact h
      simp [hk, ih hrest]

theorem orderedKeys_perm (fields : List (String × JSON)) :
    (JSON.orderedKeys fields).Perm (fields.map (fun field => field.1)) := by
  unfold JSON.orderedKeys
  refine List.Perm.trans (List.Perm.append_right _ (List.perm_insertionSort _ _)) ?_
  exact List.filter_append_perm _ _

theorem letter_of_records (details nomination : List (String × JSON)) :
    ∃ message,
      generateInvitationToInterviewLetter (.obj details) (.obj nomination) =
        .ok (.obj [("subject", .str ("Invitation to interview - hamlethub.com and "
                      ++ templateStr (JSON.lookup "businessName" details))),
                   ("message", .str message)]) := by
  unfold generateInvitationToInterviewLetter
  simp only [readProp, bind, Except.bind, pure, Except.pure]
  exact ⟨_, rfl⟩

/-! ## One iteration of the enrichment on a record -/

theorem readProp_obj (fields : List (String × JSON)) (key : String) :
    readProp (.obj fields) key = .ok (JSON.lookup key fields) := rfl

theorem assignProp_obj (fields : List (String × JSON)) (key : String) (v : JSON) :
    assignProp (.obj fields) key v = .ok (.obj (JSON.store key v fields)) := rfl

theorem processNomination_unnamed (env : Env) (businessDetails_Object : JSON)
    (fields : List (String × JSON)) (w : World)
    (hname : (JSON.lookup "nominated_business_name" fields).truthy = false) :
    processNomination env businessDetails_Object (.obj fields) w =
      (.ok ⟨.obj fields, none⟩, w) := by
  simp [processNomination, readProp_obj, hname]

theorem processNomination_no_town (env : Env) (businessDetails_Object : JSON)
    (details fields : List (String × JSON)) (w : World)
    (hdetails : readProp businessDetails_Object "bussines_details" = .ok (.obj details))
    (hlocation : (JSON.lookup "nominated_business_location" fields).truthy = false)
    (htown : (JSON.lookup "town" details).truthy = false) :
    processNomination env businessDetails_Object (.obj fields) w =
      (.ok ⟨.obj fields, none⟩, w) := by
  unfold processNomination
  simp only [readProp_obj]
  split
  · rfl
  · simp [hlocation, hdetails, htown, readProp_obj, bind, Except.bind, pure, Except.pure]

theorem getMissingNominationURL_ok (env : Env) (search_query : String) (w : World) :
    ∃ found w1, getMissingNominationURL env search_query w = (.ok found, w1) := by
  unfold getMissingNominationURL Eff.tryCatch
  dsimp only
  split
  · exact ⟨_, _, rfl⟩
  · exact ⟨_, _, rfl⟩

theorem linkAndLetter_record (env : Env) (businessDetails_Object : JSON)
    (details located : List (String × JSON)) (w : World)
    (hdetails : readProp businessDetails_Object "bussines_details" = .ok (.obj details)) :
    ∃ fields1 w1 message,
      linkAndLetter env businessDetails_Object (.obj located) w =
        (.ok ⟨.obj fields1, none⟩, w1) ∧
      JSON.lookup "email_template" fields1 =
        .obj [("subject", .str ("Invitation to interview - hamlethub.com and "
                 ++ templateStr (JSON.lookup "businessName" details))),
              ("message", .str message)] ∧
      JSON.lookup "nominated_business_location" fields1 =
        JSON.lookup "nominated_business_location" located ∧
      JSON.lookup "nominated_business_name" fields1 =
        JSON.lookup "nominated_business_name" located := by
  unfold linkAndLetter
  simp only [readProp_obj, assignProp_obj, hdetails, bind, Except.bind, pure, Except.pure,
    Eff.bind_eq, Eff.andThen, Eff.ofExcept, Eff.pure_eq, Eff.ret]
  by_cases hlink : (JSON.lookup "nominated_business_link" located).truthy = true
  · obtain ⟨message, hletter⟩ := letter_of_records details located
    simp only [hlink, Bool.not_true, Bool.false_eq_true, ↓reduceIte, Eff.ret, hletter,
      assignProp_obj]
    exact ⟨_, _, message, rfl, lookup_store_same _ _ _,
      lookup_store_ne "email_template" "nominated_business_location" _ _ (by decide),
      lookup_store_ne "email_template" "nominated_business_name" _ _ (by decide)⟩
  · obtain ⟨found, w1, hfound⟩ := getMissingNominationURL_ok env
      (templateStr (JSON.lookup "nominated_business_name" located) ++ " "
        ++ templateStr (JSON.lookup "nominated_business_location" located)) w
    obtain ⟨message, hletter⟩ := letter_of_records details
      (JSON.store "nominated_business_link" found located)
    simp only [hlink, Bool.not_false, ↓reduceIte, Eff.andThen, Eff.ofExcept, hfound, hletter,
      assignProp_obj]
    refine ⟨_, _, message, rfl, lookup_store_same _ _ _, ?_, ?_⟩
    · rw [lookup_store_ne "email_template" "nominated_business_location" _ _ (by decide),
        lookup_store_ne "nominated_business_link" "nominated_business_location" _ _ (by decide)]
    · rw [lookup_store_ne "email_template" "nominated_business_name" _ _ (by decide),
        lookup_store_ne "nominated_business_link" "nominated_business_name" _ _ (by decide)]

theorem processNomination_located (env : Env) (businessDetails_Object : JSON)
    (details fields : List (String × JSON)) (w : World)
    (hdetails : readProp businessDetails_Object "bussines_details" = .ok (.obj details))
    (hname : (JSON.lookup "nominated_business_name" fields).truthy = true)
    (hplace : (JSON.lookup "nominated_business_location" fields).truthy = true ∨
      (JSON.lookup "town" details).truthy = true) :
    ∃ fields1 w1 message,
      processNomination env businessDetails_Object (.obj fields) w =
        (.ok ⟨.obj fields1, none⟩, w1) ∧
      JSON.lookup "email_template" fields1 =
        .obj [("subject", .str ("Invitation to interview - hamlethub.com and "
                 ++ templateStr (JSON.lookup "businessName" details))),
              ("message", .str message)] ∧
      JSON.lookup "nominated_business_location" fields1 =
        (if (JSON.lookup "nominated_business_location" fields).truthy
         then JSON.lookup "nominated_business_location" fields
         else JSON.lookup "town" details) ∧
      JSON.lookup "nominated_business_name" fields1 =
        JSON.lookup "nominated_business_name" fields := by
  by_cases hlocation : (JSON.lookup "nominated_business_location" fields).truthy = true
  · have hstep : processNomination env businessDetails_Object (.obj fields) w =
        linkAndLetter env businessDetails_Object (.obj fields) w := by
      unfold processNomination linkAndLetter
      simp only [readProp_obj, hname, hlocation, Bool.not_true, Bool.false_eq_true, ↓reduceIte,
        bind, Except.bind, pure, Except.pure]
    obtain ⟨fields1, w1, message, hrun, hletter, hloc, hnm⟩ :=
      linkAndLetter_record env businessDetails_Object details fields w hdetails
    rw [hstep]
    simp only [hlocation, ↓reduceIte]
    exact ⟨fields1, w1, message, hrun, hletter, hloc, hnm⟩
  · have htown : (JSON.lookup "town" details).truthy = true := by
      rcases hplace with h | h
      · exact absurd h hlocation
      · exact h
    have hstep : processNomination env businessDetails_Object (.obj fields) w =
        linkAndLetter env businessDetails_Object
          (.obj (JSON.store "nominated_business_location" (JSON.lookup "town" details) fields))
          w := by
      unfold processNomination linkAndLetter
      simp only [readProp_obj, assignProp_obj, hname, hlocation, htown, hdetails, Bool.not_true,
        Bool.not_false, Bool.false_eq_true, ↓reduceIte, bind, Except.bind, pure, Except.pure]
    obtain ⟨fields1, w1, message, hrun, hletter, hloc, hnm⟩ :=
      linkAndLetter_record env businessDetails_Object details
        (JSON.store "nominated_business_location" (JSON.lookup "town" details) fields) w hdetails
    rw [hstep]
    simp only [hlocation, Bool.false_eq_true, ↓reduceIte]
    refine ⟨fields1, w1, message, hrun, hletter, ?_, ?_⟩
    · rw [hloc, lookup_store_same]
    · rw [hnm, lookup_store_ne "nominated_business_location" "nominated_business_name" _ _
        (by decide)]
theorem processNomination_record (env : Env) (businessDetails_Object : JSON)
    (details fields : List (String × JSON)) (w : World)
    (hdetails : readProp businessDetails_Object "bussines_details" = .ok (.obj details)) :
    ∃ fields1 w1, processNomination env businessDetails_Object (.obj fields) w =
      (.ok ⟨.obj fields1, none⟩, w1) := by
  cases hname : (JSON.lookup "nominated_business_name" fields).truthy with
  | false => exact ⟨fields, w, processNomination_unnamed env _ fields w hname⟩
  | true =>
    cases hlocation : (JSON.lookup "nominated_business_location" fields).truthy with
    | true =>
      obtain ⟨fields1, w1, _, hrun, _⟩ := processNomination_located env _ details fields w
        hdetails hname (Or.inl hlocation)
      exact ⟨fields1, w1, hrun⟩
    | false =>
      cases htown : (JSON.lookup "town" details).truthy with
      | true =>
        obtain ⟨fields1, w1, _, hrun, _⟩ := processNomination_located env _ details fields w
          hdetails hname (Or.inr htown)
        exact ⟨fields1, w1, hrun⟩
      | false =>
        exact ⟨fields, w, processNomination_no_town env _ details fields w hdetails hlocation htown⟩

/-! ## The loops of the enrichment on a batch of records -/

theorem nominationsInnerLoop_records (env : Env) (businessDetails_Object : JSON)
    (details : List (String × JSON))
    (hdetails : readProp businessDetails_Object "bussines_details" = .ok (.obj details))
    (innerKeys : List String) :
    ∀ (container : List (String × JSON)) (w : World), innerKeys.Nodup →
      (∀ key ∈ innerKeys, key ∈ container.map (fun field => field.1)) →
      (∀ key ∈ innerKeys, ∃ fields, JSON.lookup key container = .obj fields) →
      ∃ container1 w1,
        nominationsInnerLoop env businessDetails_Object innerKeys (.obj container) w =
          (.ok (.obj container1, none), w1) ∧
        container1.map (fun field => field.1) = container.map (fun field => field.1) ∧
        (∀ key, key ∉ innerKeys → JSON.lookup key container1 = JSON.lookup key container) ∧
        (∀ key ∈ innerKeys, Enriched env businessDetails_Object (JSON.lookup key container)
          (JSON.lookup key container1)) := by
  induction innerKeys with
  | nil =>
    intro container w _ _ _
    exact ⟨container, w, rfl, rfl, fun _ _ => rfl, fun key hkey => by simp at hkey⟩
  | cons innerKey rest ih =>
    intro container w hnodup hkeys hrecords
    obtain ⟨fields, hfields⟩ := hrecords innerKey (List.mem_cons_self _ _)
    obtain ⟨fields1, w1, hstep⟩ := processNomination_record env businessDetails_Object details
      fields w hdetails
    have hnotin : innerKey ∉ rest := (List.nodup_cons.mp hnodup).1
    have hkey : innerKey ∈ container.map (fun field => field.1) :=
      hkeys innerKey (List.mem_cons_self _ _)
    obtain ⟨container1, w2, hloop, hnames, hframe, henriched⟩ :=
      ih (JSON.store innerKey (.obj fields1) container) w1 (List.nodup_cons.mp hnodup).2
        (fun key hk => by
          rw [store_keys innerKey _ container hkey]
          exact hkeys key (List.mem_cons_of_mem _ hk))
        (fun key hk => by
          have hne : key ≠ innerKey := fun h => hnotin (h ▸ hk)
          rw [lookup_store_ne innerKey key _ _ hne]
          exact hrecords key (List.mem_cons_of_mem _ hk))
    refine ⟨container1, w2, ?_, ?_, ?_, ?_⟩
    · unfold nominationsInnerLoop
      simp only [readProp_obj, hfields, Eff.bind_eq, Eff.andThen, hstep, assignProp_obj,
        Eff.pure_eq, Eff.ret]
      exact hloop
    · rw [hnames, store_keys innerKey _ container hkey]
    · intro key hk
      have hne : key ≠ innerKey := fun h => hk (h ▸ List.mem_cons_self _ _)
      rw [hframe key (fun h => hk (List.mem_cons_of_mem _ h)), lookup_store_ne innerKey key _ _ hne]
    · intro key hk
      rcases List.mem_cons.mp hk with h | h
      · subst h
        rw [hframe key hnotin, lookup_store_same, hfields]
        exact ⟨w, _, w1, hstep, rfl, rfl⟩
      · have hne : key ≠ innerKey := fun h' => hnotin (h' ▸ h)
        have := henriched key h
        rw [lookup_store_ne innerKey key _ _ hne] at this
        exact this

theorem lookup_of_mem (fields : List (String × JSON)) (key : String) (value : JSON)
    (hnodup : (fields.map (fun field => field.1)).Nodup) (hmem : (key, value) ∈ fields) :
    JSON.lookup key fields = value := by
  induction fields with
  | nil => simp at hmem
  | cons field rest ih =>
    obtain ⟨k, v⟩ := field
    simp only [List.map_cons, List.nodup_cons] at hnodup
    rcases List.mem_cons.mp hmem with h | h
    · simp only [Prod.mk.injEq] at h
      simp [JSON.lookup, h.1, h.2]
    · have hne : k ≠ key := fun hk =>
        hnodup.1 (hk ▸ List.mem_map.mpr ⟨(key, value), h, rfl⟩)
      simp [JSON.lookup, hne, ih hnodup.2 h]

theorem orderedKeys_single (value : JSON) :
    JSON.orderedKeys [("nominations", value)] = ["nominations"] := by
  have h : JSON.isIndexKey "nominations" = false := by decide!
  simp [JSON.orderedKeys, h]

theorem processNominationsJSON_records (env : Env) (businessDetails_Object : JSON)
    (details slots : List (String × JSON)) (w : World)
    (hdetails : readProp businessDetails_Object "bussines_details" = .ok (.obj details))
    (hnodup : (slots.map (fun slot => slot.1)).Nodup)
    (hrecords : ∀ slot ∈ slots, ∃ fields, slot.2 = .obj fields) :
    ∃ slots1 w1,
      processNominationsJSON env businessDetails_Object (.obj [("nominations", .obj slots)]) w =
        (.ok (.obj [("nominations", .obj slots1)]), w1) ∧
      slots1.map (fun slot => slot.1) = slots.map (fun slot => slot.1) ∧
      (∀ key value, (key, value) ∈ slots →
        Enriched env businessDetails_Object value (JSON.lookup key slots1)) := by
  have hperm := orderedKeys_perm slots
  obtain ⟨slots1, w1, hloop, hnames, _, henriched⟩ :=
    nominationsInnerLoop_records env businessDetails_Object details hdetails
      (JSON.orderedKeys slots) slots w (hperm.nodup_iff.mpr hnodup)
      (fun key hk => hperm.mem_iff.mp hk)
      (fun key hk => by
        obtain ⟨slot, hslot, hkey⟩ := List.mem_map.mp (hperm.mem_iff.mp hk)
        obtain ⟨fields, hfields⟩ := hrecords slot hslot
        refine ⟨fields, ?_⟩
        rw [lookup_of_mem slots key slot.2 hnodup (by rw [← hkey]; exact hslot), hfields])
  refine ⟨slots1, w1, ?_, hnames, ?_⟩
  · unfold processNominationsJSON
    simp only [objectKeys, orderedKeys_single]
    unfold nominationsOuterLoop
    simp only [readProp_obj, JSON.lookup, ↓reduceIte, objectKeys, Eff.bind_eq, Eff.andThen, hloop,
      assignProp_obj, JSON.store, Eff.pure_eq, Eff.ret]
    unfold nominationsOuterLoop
    rfl
  · intro key value hmem
    have hk : key ∈ JSON.orderedKeys slots :=
      hperm.mem_iff.mpr (List.mem_map.mpr ⟨(key, value), hmem, rfl⟩)
    have := henriched key hk
    rw [lookup_of_mem slots key value hnodup hmem] at this
    exact this

/-! ## Results on the enrichment of a batch -/

theorem enriched_of_skip (env : Env) (businessDetails_Object before after : JSON)
    (hskip : ∀ w, processNomination env businessDetails_Object before w =
      (.ok ⟨before, none⟩, w))
    (h : Enriched env businessDetails_Object before after) : after = before := by
  obtain ⟨w, step, w1, hrun, _, hafter⟩ := h
  rw [hskip w] at hrun
  simp only [Prod.mk.injEq, Except.ok.injEq] at hrun
  rw [← hafter, ← hrun.1]

theorem enriched_located (env : Env) (businessDetails_Object after : JSON)
    (details fields : List (String × JSON))
    (hdetails : readProp businessDetails_Object "bussines_details" = .ok (.obj details))
    (hname : (JSON.lookup "nominated_business_name" fields).truthy = true)
    (hplace : (JSON.lookup "nominated_business_location" fields).truthy = true ∨
      (JSON.lookup "town" details).truthy = true)
    (h : Enriched env businessDetails_Object (.obj fields) after) :
    ∃ fields1 message, after = .obj fields1 ∧
      JSON.lookup "email_template" fields1 =
        .obj [("subject", .str ("Invitation to interview - hamlethub.com and "
                 ++ templateStr (JSON.lookup "businessName" details))),
              ("message", .str message)] ∧
      JSON.lookup "nominated_business_location" fields1 =
        (if (JSON.lookup "nominated_business_location" fields).truthy
         then JSON.lookup "nominated_business_location" fields
         else JSON.lookup "town" details) ∧
      JSON.lookup "nominated_business_name" fields1 =
        JSON.lookup "nominated_business_name" fields := by
  obtain ⟨w, step, w1, hrun, _, hafter⟩ := h
  obtain ⟨fields1, w2, message, hrun2, hletter, hloc, hnm⟩ :=
    processNomination_located env businessDetails_Object details fields w hdetails hname hplace
  rw [hrun2] at hrun
  simp only [Prod.mk.injEq, Except.ok.injEq] at hrun
  exact ⟨fields1, message, by rw [← hafter, ← hrun.1], hletter, hloc, hnm⟩

/-- C23: for a business details object with details and a batch of nomination
records (an object of slots with distinct keys, as `JSON.parse` gives it),
`processNominationsJSON` returns the batch, in which every record with an empty
name is as it was; every record with a name, an empty location and an empty
town of the referring business is as it was (its iteration changes nothing and
makes no call: no lookup, no letter); and every record with a name and an
empty location has the town of the referring business as its location when
that town is not empty. -/
theorem processNominationsJSON_inherits_town_or_skips (env : Env)
    (businessDetails_Object : JSON) (details slots : List (String × JSON)) (w : World)
    (hdetails : readProp businessDetails_Object "bussines_details" = .ok (.obj details))
    (hnodup : (slots.map (fun slot => slot.1)).Nodup)
    (hrecords : ∀ slot ∈ slots, ∃ fields, slot.2 = .obj fields) :
    ∃ slots1 w1,
      processNominationsJSON env businessDetails_Object (.obj [("nominations", .obj slots)]) w =
        (.ok (.obj [("nominations", .obj slots1)]), w1) ∧
      ∀ key fields, (key, JSON.obj fields) ∈ slots →
        ((JSON.lookup "nominated_business_name" fields).truthy = false →
          JSON.lookup key slots1 = .obj fields ∧
          ∀ w0, processNomination env businessDetails_Object (.obj fields) w0 =
            (.ok ⟨.obj fields, none⟩, w0)) ∧
        ((JSON.lookup "nominated_business_name" fields).truthy = true →
          (JSON.lookup "nominated_business_location" fields).truthy = false →
          (JSON.lookup "town" details).truthy = false →
          JSON.lookup key slots1 = .obj fields ∧
          ∀ w0, processNomination env businessDetails_Object (.obj fields) w0 =
            (.ok ⟨.obj fields, none⟩, w0)) ∧
        ((JSON.lookup "nominated_business_name" fields).truthy = true →
          (JSON.lookup "nominated_business_location" fields).truthy = false →
          (JSON.lookup "town" details).truthy = true →
          ∃ fields1, JSON.lookup key slots1 = .obj fields1 ∧
            JSON.lookup "nominated_business_location" fields1 = JSON.lookup "town" details) := by
  obtain ⟨slots1, w1, hrun, _, henriched⟩ :=
    processNominationsJSON_records env businessDetails_Object details slots w hdetails hnodup
      hrecords
  refine ⟨slots1, w1, hrun, ?_⟩
  intro key fields hmem
  have he := henriched key (.obj fields) hmem
  refine ⟨?_, ?_, ?_⟩
  · intro hname
    have hskip := fun w0 => processNomination_unnamed env businessDetails_Object fields w0 hname
    exact ⟨enriched_of_skip env _ _ _ hskip he, hskip⟩
  · intro _ hlocation htown
    have hskip := fun w0 =>
      processNomination_no_town env businessDetails_Object details fields w0 hdetails hlocation
        htown
    exact ⟨enriched_of_skip env _ _ _ hskip he, hskip⟩
  · intro hname hlocation htown
    obtain ⟨fields1, _, hafter, _, hloc, _⟩ :=
      enriched_located env businessDetails_Object _ details fields hdetails hname (Or.inr htown) he
    refine ⟨fields1, hafter, ?_⟩
    rw [hloc, hlocation]
    rfl

theorem sampleSlots_records : ∀ slot ∈ sampleSlots, ∃ fields, slot.2 = .obj fields := by
  intro slot hslot
  simp only [sampleSlots, List.mem_cons, List.mem_singleton, List.not_mem_nil, or_false] at hslot
  rcases hslot with h | h | h <;> subst h <;> exact ⟨_, rfl⟩

theorem processNominationsJSON_inherits_town_or_skips_witness :
    readProp (.obj [("bussines_details", bareDetails)]) "bussines_details"
      = .ok (.obj bareDetailFields) ∧
    (sampleSlots.map (fun slot => slot.1)).Nodup ∧
    (∀ slot ∈ sampleSlots, ∃ fields, slot.2 = .obj fields) ∧
    ∃ slots1 w1,
      processNominationsJSON (detailsEnv (.ok (some "No data")))
          (.obj [("bussines_details", bareDetails)])
          (.obj [("nominations", .obj sampleSlots)]) initialWorld =
        (.ok (.obj [("nominations", .obj slots1)]), w1) ∧
      ∀ key fields, (key, JSON.obj fields) ∈ sampleSlots →
        ((JSON.lookup "nominated_business_name" fields).truthy = false →
          JSON.lookup key slots1 = .obj fields ∧
          ∀ w0, processNomination (detailsEnv (.ok (some "No data")))
              (.obj [("bussines_details", bareDetails)]) (.obj fields) w0 =
            (.ok ⟨.obj fields, none⟩, w0)) ∧
        ((JSON.lookup "nominated_business_name" fields).truthy = true →
          (JSON.lookup "nominated_business_location" fields).truthy = false →
          (JSON.lookup "town" bareDetailFields).truthy = false →
          JSON.lookup key slots1 = .obj fields ∧
          ∀ w0, processNomination (detailsEnv (.ok (some "No data")))
              (.obj [("bussines_details", bareDetails)]) (.obj fields) w0 =
            (.ok ⟨.obj fields, none⟩, w0)) ∧
        ((JSON.lookup "nominated_business_name" fields).truthy = true →
          (JSON.lookup "nominated_business_location" fields).truthy = false →
          (JSON.lookup "town" bareDetailFields).truthy = true →
          ∃ fields1, JSON.lookup key slots1 = .obj fields1 ∧
            JSON.lookup "nominated_business_location" fields1
              = JSON.lookup "town" bareDetailFields) :=
  ⟨rfl, by decide, sampleSlots_records,
   processNominationsJSON_inherits_town_or_skips (detailsEnv (.ok (some "No data")))
     (.obj [("bussines_details", bareDetails)]) bareDetailFields sampleSlots initialWorld rfl
     (by decide) sampleSlots_records⟩

set_option maxRecDepth 100000 in
set_option maxHeartbeats 0 in
/-- C25 (counterexample): without business details (`businessDetails_Object`
is `undefined`), on a batch of two nominations that both have a name and a
location, with an agent whose call fails: the lookup for the first nomination
fails and leaves its link `undefined`, the letter generation then throws, the
`catch` of `processNominationsJSON` ends the loop, and the batch is returned
with the second nomination as it was: its `email_template` is still the empty
string, and no lookup was made for it. -/
theorem processNominationsJSON_no_letter_without_details :
    processNominationsJSON (detailsEnv (.error (.error "Error" "connect ETIMEDOUT")))
        .undefined (.obj [("nominations", .obj locatedSlots)]) initialWorld =
      (.ok (.obj [("nominations", .obj
          [("0", .obj [("nominated_business_name", .str "Mill Farm"),
                       ("nominated_business_location", .str "Ridgefield"),
                       ("nominated_business_person", .str ""),
                       ("nominated_business_link", .undefined),
                       ("email_template", .str "")]),
           ("1", locatedSlot "Oak Dairy" "Danbury")])]),
       { initialWorld with trace := [.runAgent
          "Find website or social media link for this business: 'Mill Farm Ridgefield'\nIf you can't find link, return 'No data'."] }) ∧
    slotField (.obj [("nominations", .obj
          [("0", .obj [("nominated_business_name", .str "Mill Farm"),
                       ("nominated_business_location", .str "Ridgefield"),
                       ("nominated_business_person", .str ""),
                       ("nominated_business_link", .undefined),
                       ("email_template", .str "")]),
           ("1", locatedSlot "Oak Dairy" "Danbury")])]) "1" "email_template"
      = .ok (.str "") := by
  decide!

/-- C25 (amended): for a business details record (an object whose
`bussines_details` is an object) and a batch of nomination records, whatever
the agent does at each link lookup (the environment is arbitrary, so any lookup
may fail), `processNominationsJSON` returns the batch with the same slots, and
every nomination with a name and a location ends with an invitation letter, an
object with a subject and a message, as its `email_template`. -/
theorem processNominationsJSON_lookup_failures_isolated (env : Env)
    (businessDetails_Object : JSON) (details slots : List (String × JSON)) (w : World)
    (hdetails : readProp businessDetails_Object "bussines_details" = .ok (.obj details))
    (hnodup : (slots.map (fun slot => slot.1)).Nodup)
    (hrecords : ∀ slot ∈ slots, ∃ fields, slot.2 = .obj fields) :
    ∃ slots1 w1,
      processNominationsJSON env businessDetails_Object (.obj [("nominations", .obj slots)]) w =
        (.ok (.obj [("nominations", .obj slots1)]), w1) ∧
      slots1.map (fun slot => slot.1) = slots.map (fun slot => slot.1) ∧
      ∀ key fields, (key, JSON.obj fields) ∈ slots →
        (JSON.lookup "nominated_business_name" fields).truthy = true →
        (JSON.lookup "nominated_business_location" fields).truthy = true →
        ∃ fields1 subject message, JSON.lookup key slots1 = .obj fields1 ∧
          JSON.lookup "email_template" fields1 =
            .obj [("subject", .str subject), ("message", .str message)] := by
  obtain ⟨slots1, w1, hrun, hnames, henriched⟩ :=
    processNominationsJSON_records env businessDetails_Object details slots w hdetails hnodup
      hrecords
  refine ⟨slots1, w1, hrun, hnames, ?_⟩
  intro key fields hmem hname hlocation
  obtain ⟨fields1, message, hafter, hletter, _, _⟩ :=
    enriched_located env businessDetails_Object _ details fields hdetails hname
      (Or.inl hlocation) (henriched key (.obj fields) hmem)
  exact ⟨fields1, _, message, hafter, hletter⟩

theorem processNominationsJSON_lookup_failures_isolated_witness :
    readProp (.obj [("bussines_details", bareDetails)]) "bussines_details"
      = .ok (.obj bareDetailFields) ∧
    (sampleSlots.map (fun slot => slot.1)).Nodup ∧
    (∀ slot ∈ sampleSlots, ∃ fields, slot.2 = .obj fields) ∧
    ∃ slots1 w1,
      processNominationsJSON (detailsEnv (.error (.error "Error" "connect ETIMEDOUT")))
          (.obj [("bussines_details", bareDetails)])
          (.obj [("nominations", .obj sampleSlots)]) initialWorld =
        (.ok (.obj [("nominations", .obj slots1)]), w1) ∧
      slots1.map (fun slot => slot.1) = sampleSlots.map (fun slot => slot.1) ∧
      ∀ key fields, (key, JSON.obj fields) ∈ sampleSlots →
        (JSON.lookup "nominated_business_name" fields).truthy = true →
        (JSON.lookup "nominated_business_location" fields).truthy = true →
        ∃ fields1 subject message, JSON.lookup key slots1 = .obj fields1 ∧
          JSON.lookup "email_template" fields1 =
            .obj [("subject", .str subject), ("message", .str message)] :=
  ⟨rfl, by decide, sampleSlots_records,
   processNominationsJSON_lookup_failures_isolated
     (detailsEnv (.error (.error "Error" "connect ETIMEDOUT")))
     (.obj [("bussines_details", bareDetails)]) bareDetailFields sampleSlots initialWorld rfl
     (by decide) sampleSlots_records⟩

set_option maxRecDepth 100000 in
set_option maxHeartbeats 0 in
/-- C26 (counterexample): when the town of the referring business is empty, a
nomination with a name and no location of its own is skipped: after
`processNominationsJSON` its `email_template` is still the empty string, and
the agent was not called. -/
theorem processNominationsJSON_skips_named_without_town :
    processNominationsJSON (detailsEnv (.ok (some "No data"))) townlessDetailsObject
        (.obj [("nominations", .obj [("0", nomineeSlot "Mill Farm")])]) initialWorld =
      (.ok (.obj [("nominations", .obj [("0", nomineeSlot "Mill Farm")])]), initialWorld) ∧
    slotField (.obj [("nominations", .obj [("0", nomineeSlot "Mill Farm")])]) "0" "email_template"
      = .ok (.str "") := by
  decide!

/-- C26 (amended): for a business details object with details and a batch of
nomination records, after `processNominationsJSON` every nomination with a
name that has a location of its own, or whose referring business has a town,
carries an invitation letter: its `email_template` is an object with the
subject `Invitation to interview - hamlethub.com and ` followed by the name of
the referring business, and a message.  A nomination with a name, without a
location, whose referring business has no town is left without a letter: it
is as it was. -/
theorem processNominationsJSON_letter_for_located (env : Env)
    (businessDetails_Object : JSON) (details slots : List (String × JSON)) (w : World)
    (hdetails : readProp businessDetails_Object "bussines_details" = .ok (.obj details))
    (hnodup : (slots.map (fun slot => slot.1)).Nodup)
    (hrecords : ∀ slot ∈ slots, ∃ fields, slot.2 = .obj fields) :
    ∃ slots1 w1,
      processNominationsJSON env businessDetails_Object (.obj [("nominations", .obj slots)]) w =
        (.ok (.obj [("nominations", .obj slots1)]), w1) ∧
      ∀ key fields, (key, JSON.obj fields) ∈ slots →
        (JSON.lookup "nominated_business_name" fields).truthy = true →
        (((JSON.lookup "nominated_business_location" fields).truthy = true ∨
            (JSON.lookup "town" details).truthy = true) →
          ∃ fields1 message, JSON.lookup key slots1 = .obj fields1 ∧
            JSON.lookup "email_template" fields1 =
              .obj [("subject", .str ("Invitation to interview - hamlethub.com and "
                       ++ templateStr (JSON.lookup "businessName" details))),
                    ("message", .str message)]) ∧
        ((JSON.lookup "nominated_business_location" fields).truthy = false →
          (JSON.lookup "town" details).truthy = false →
          JSON.lookup key slots1 = .obj fields) := by
  obtain ⟨slots1, w1, hrun, _, henriched⟩ :=
    processNominationsJSON_records env businessDetails_Object details slots w hdetails hnodup
      hrecords
  refine ⟨slots1, w1, hrun, ?_⟩
  intro key fields hmem hname
  have he := henriched key (.obj fields) hmem
  refine ⟨?_, ?_⟩
  · intro hplace
    obtain ⟨fields1, message, hafter, hletter, _, _⟩ :=
      enriched_located env businessDetails_Object _ details fields hdetails hname hplace he
    exact ⟨fields1, message, hafter, hletter⟩
  · intro hlocation htown
    exact enriched_of_skip env _ _ _
      (fun w0 => processNomination_no_town env businessDetails_Object details fields w0 hdetails
        hlocation htown) he

theorem processNominationsJSON_letter_for_located_witness :
    readProp (.obj [("bussines_details", bareDetails)]) "bussines_details"
      = .ok (.obj bareDetailFields) ∧
    (sampleSlots.map (fun slot => slot.1)).Nodup ∧
    (∀ slot ∈ sampleSlots, ∃ fields, slot.2 = .obj fields) ∧
    ∃ slots1 w1,
      processNominationsJSON (detailsEnv (.ok (some "No data")))
          (.obj [("bussines_details", bareDetails)])
          (.obj [("nominations", .obj sampleSlots)]) initialWorld =
        (.ok (.obj [("nominations", .obj slots1)]), w1) ∧
      ∀ key fields, (key, JSON.obj fields) ∈ sampleSlots →
        (JSON.lookup "nominated_business_name" fields).truthy = true →
        (((JSON.lookup "nominated_business_location" fields).truthy = true ∨
            (JSON.lookup "town" bareDetailFields).truthy = true) →
          ∃ fields1 message, JSON.lookup key slots1 = .obj fields1 ∧
            JSON.lookup "email_template" fields1 =
              .obj [("subject", .str ("Invitation to interview - hamlethub.com and "
                       ++ templateStr (JSON.lookup "businessName" bareDetailFields))),
                    ("message", .str message)]) ∧
        ((JSON.lookup "nominated_business_location" fields).truthy = false →
          (JSON.lookup "town" bareDetailFields).truthy = false →
          JSON.lookup key slots1 = .obj fields) :=
  ⟨rfl, by decide, sampleSlots_records,
   processNominationsJSON_letter_for_located (detailsEnv (.ok (some "No data")))
     (.obj [("bussines_details", bareDetails)]) bareDetailFields sampleSlots initialWorld rfl
     (by decide) sampleSlots_records⟩

end AIArticleGenerator
